import Mathlib

/-!
# Mercury RPC framing layer (`src/mercury.c`)

A shallow embedding of the per-handle framing engine of `mercury.c`:
`hg_get_struct`, `hg_set_struct`, `hg_free_struct` and the public entry points
built on them.

The functions of `mercury.c` are translated statement by statement.  The code
they call but which lives in other translation units (`mercury_proc.c`,
`mercury_header.c`, `mercury_core.c`, `mercury_bulk.c`) is not part of the
sources at hand; it is taken as a record of collaborator operations `Env`
acting on an arbitrary world `σ` (byte memory, proc objects, bulk handles,
network).  Theorems quantify over every `Env`, so they hold whatever the
collaborators do, unless a hypothesis says otherwise.

Conventions
* pointers are natural numbers, `0` is `NULL`; `hg_proc_t` and `hg_bulk_t`
  are opaque handles, `0` is `HG_PROC_NULL` / `HG_BULK_NULL`;
* `hg_size_t` arithmetic wraps modulo `2 ^ size_bits`;
* an out-parameter is modelled by passing the old value in and getting the
  new value back;
* `goto done` is an early return of the state reached so far.
-/

namespace Mercury

/-! ## Basic types -/

/-- Return codes, in the order in which `HG_Error_to_string` lists them. -/
inductive hg_return_t
  | HG_SUCCESS
  | HG_NA_ERROR
  | HG_TIMEOUT
  | HG_INVALID_PARAM
  | HG_SIZE_ERROR
  | HG_NOMEM_ERROR
  | HG_PROTOCOL_ERROR
  | HG_NO_MATCH
  | HG_CHECKSUM_ERROR
  | HG_CANCELED
  | HG_OTHER_ERROR
  deriving DecidableEq

/-- Direction tag of the framing engine.  `HG_UNDEF` is the value given to
`hg_header_init` in `hg_private_data_alloc`; it stands for every value that is
neither `HG_INPUT` nor `HG_OUTPUT` (the `default:` arm of the switches). -/
inductive hg_op_t
  | HG_UNDEF
  | HG_INPUT
  | HG_OUTPUT
  deriving DecidableEq

/-- Mode of a proc: the three modes passed to `hg_proc_reset` in `mercury.c`. -/
inductive hg_proc_op_t
  | HG_ENCODE
  | HG_DECODE
  | HG_FREE
  deriving DecidableEq

/-- Pointers: an address, `0` for `NULL`. -/
abbrev Ptr := Nat

/-- Values of type `hg_size_t`. -/
abbrev hg_size_t := Nat

/-- Opaque proc handle, `0` for `HG_PROC_NULL`. -/
abbrev hg_proc_t := Nat

/-- Opaque bulk handle, `0` for `HG_BULK_NULL`. -/
abbrev hg_bulk_t := Nat

/-- RPC identifiers. -/
abbrev hg_id_t := Nat

/-- The constant `HG_BULK_NULL`. -/
def HG_BULK_NULL : hg_bulk_t := 0

/-- Bulk permission flags handed to `HG_Bulk_create`. -/
inductive hg_bulk_flag_t
  | HG_BULK_READ_ONLY
  | HG_BULK_READWRITE
  deriving DecidableEq

/-- Direction of a bulk transfer, `hg_bulk_op_t`. -/
inductive hg_bulk_op_t
  | HG_BULK_PUSH
  | HG_BULK_PULL
  deriving DecidableEq

/-- Completion record handed to a callback (`struct hg_cb_info`): the fields
`arg`, `ret`, `type`, `info` that `hg_forward_cb` copies.  `type` and `info`
are opaque tokens. -/
structure hg_cb_info where
  arg : Ptr
  ret : hg_return_t
  type : Nat
  info : Nat
  deriving DecidableEq

/-- User callback `hg_cb_t`: runs on the world. -/
abbrev hg_cb_t (σ : Type) := hg_cb_info → σ → hg_return_t × σ

/-- User codec `hg_proc_cb_t`: `proc_cb(proc, data)` runs on the world and
returns a code. -/
abbrev hg_proc_cb_t (σ : Type) := σ → hg_proc_t → Ptr → hg_return_t × σ

/-- A callback handed to the transport together with its argument: either a
caller's callback (`NULL` or not) with the caller's argument, or the forward
trampoline `hg_forward_cb` of `mercury.c` with the private data of the handle
as its argument. -/
inductive core_callback (σ : Type)
  | user (callback : Option (hg_cb_t σ)) (arg : Ptr)
  | hg_forward_cb

/-- Registration record `struct hg_proc_info`. -/
structure hg_proc_info (σ : Type) where
  in_proc_cb : Option (hg_proc_cb_t σ)
  out_proc_cb : Option (hg_proc_cb_t σ)
  no_response : Bool
  data : Ptr
  free_callback : Option (Ptr → σ → σ)

/-- Fields of `struct hg_info` returned by `HG_Core_get_info`. -/
structure hg_info where
  hg_class : Ptr
  context : Ptr
  addr : Ptr
  target_id : Nat
  id : hg_id_t

/-- Modelled from the spec: the core part of a handle (`struct hg_handle` of
`mercury_core.c`, which is not among the sources): its reference count, its
info record and "the eager buffer pair (input area, output area) provided by
the transport".  The private framing state hung off the handle is kept
separately, as it is passed separately to the framing functions. -/
structure hg_handle where
  ref_count : Int
  info : hg_info
  in_buf : Ptr
  in_buf_size : hg_size_t
  out_buf : Ptr
  out_buf_size : hg_size_t

/-- RPC handler `hg_rpc_cb_t`: `rpc_cb(handle)` runs on the world. -/
abbrev hg_rpc_cb_t (σ : Type) := hg_handle → σ → hg_return_t × σ

/-- Private handle data `struct hg_private_data`; `Hdr` is the type of
`struct hg_header`, whose declaration is not among the sources. -/
structure hg_private_data (σ Hdr : Type) where
  callback : Option (hg_cb_t σ)
  arg : Ptr
  hg_header : Hdr
  in_proc : hg_proc_t
  out_proc : hg_proc_t
  extra_bulk_buf : Ptr
  extra_bulk_buf_size : hg_size_t
  extra_bulk_handle : hg_bulk_t
  extra_bulk_transfer_cb : Option (hg_handle → σ → hg_return_t × σ)

/-! ## Collaborators -/

/-- The operations `mercury.c` calls in other translation units, and the build
switches it is compiled under.  Each field has the shape of the C prototype:
an operation that is handed the proc or a buffer may change the world; the
getters of a proc and the two checksum operations only read it; none of them
is handed the handle, so none can change its reference count or its private
data. -/
structure Env (σ Hdr : Type) where
  /-- Build switch `HG_HAS_CHECKSUMS`. -/
  has_checksums : Bool
  /-- Build switch `HG_HAS_XDR`. -/
  has_xdr : Bool
  /-- Width in bits of `hg_size_t`. -/
  size_bits : Nat
  /-- Flag bit `HG_CORE_MORE_DATA`. -/
  HG_CORE_MORE_DATA : Nat
  /-- Flag bit `HG_CORE_NO_RESPONSE`. -/
  HG_CORE_NO_RESPONSE : Nat
  /-- Header size of a direction, `hg_header_get_size(op)`. -/
  hg_header_get_size : hg_op_t → hg_size_t
  /-- Reset of the header scratch, `hg_header_reset(hg_header, op)`. -/
  hg_header_reset : Hdr → hg_op_t → Hdr
  /-- Header codec, `hg_header_proc(op, buf, buf_size, hg_header)`. -/
  hg_header_proc : hg_proc_op_t → σ → Ptr → hg_size_t → Hdr → hg_return_t × σ × Hdr
  /-- Read of `hg_header->msg.input.hash.payload` (for `HG_INPUT`) or
  `hg_header->msg.output.hash.payload` (for `HG_OUTPUT`). -/
  hash_payload : hg_op_t → Hdr → Nat
  /-- Write of the same field. -/
  set_hash_payload : hg_op_t → Hdr → Nat → Hdr
  /-- Eager input buffer, `HG_Core_get_input(handle, &buf, &buf_size)`. -/
  HG_Core_get_input : hg_handle → hg_return_t × Ptr × hg_size_t
  /-- Eager output buffer, `HG_Core_get_output(handle, &buf, &buf_size)`. -/
  HG_Core_get_output : hg_handle → hg_return_t × Ptr × hg_size_t
  /-- Rebinding of a proc, `hg_proc_reset(proc, buf, buf_size, op)`. -/
  hg_proc_reset : σ → hg_proc_t → Ptr → hg_size_t → hg_proc_op_t → hg_return_t × σ
  /-- Flush, `hg_proc_flush(proc)`. -/
  hg_proc_flush : σ → hg_proc_t → hg_return_t × σ
  /-- Copy of the proc checksum into a hash field,
  `hg_proc_checksum_get(proc, &hash, sizeof hash)`: old field in, code and new
  field out. -/
  hg_proc_checksum_get : σ → hg_proc_t → Nat → hg_return_t × Nat
  /-- Comparison of the proc checksum with a hash field,
  `hg_proc_checksum_verify(proc, &hash, sizeof hash)`. -/
  hg_proc_checksum_verify : σ → hg_proc_t → Nat → hg_return_t
  /-- Auxiliary buffer of a proc, `hg_proc_get_extra_buf(proc)`. -/
  hg_proc_get_extra_buf : σ → hg_proc_t → Ptr
  /-- Bytes used by a proc, `hg_proc_get_size_used(proc)`. -/
  hg_proc_get_size_used : σ → hg_proc_t → hg_size_t
  /-- Ownership switch, `hg_proc_set_extra_buf_is_mine(proc, flag)`. -/
  hg_proc_set_extra_buf_is_mine : σ → hg_proc_t → Bool → σ
  /-- Bulk descriptor over one segment,
  `HG_Bulk_create(hg_class, 1, &buf, &size, flags, &handle)`. -/
  HG_Bulk_create : σ → Ptr → Ptr → hg_size_t → hg_bulk_flag_t → hg_bulk_t →
    hg_return_t × σ × hg_bulk_t
  /-- Codec of a bulk handle, `hg_proc_hg_bulk_t(proc, &handle)`. -/
  hg_proc_hg_bulk_t : σ → hg_proc_t → hg_bulk_t → hg_return_t × σ × hg_bulk_t
  /-- Transport respond,
  `HG_Core_respond(handle, callback, arg, flags, payload_size)`. -/
  HG_Core_respond : σ → hg_handle → Option (hg_cb_t σ) → Ptr → Nat → hg_size_t →
    hg_return_t × σ × hg_handle
  /-- Transport forward,
  `HG_Core_forward(handle, callback, arg, flags, payload_size)`. -/
  HG_Core_forward : σ → hg_handle → core_callback σ → Nat → hg_size_t →
    hg_return_t × σ × hg_handle
  /-- Handle creation, `HG_Core_create(context, addr, id, &hg_handle)`: old
  content of the out-parameter in, code and new content out (`none` for
  `HG_HANDLE_NULL`). -/
  HG_Core_create : σ → Ptr → Ptr → hg_id_t → Option hg_handle →
    hg_return_t × σ × Option hg_handle
  /-- Release of a bulk handle, `HG_Bulk_free(handle)`. -/
  HG_Bulk_free : σ → hg_bulk_t → hg_return_t × σ
  /-- Release of an aligned buffer, `hg_mem_aligned_free(buf)`. -/
  hg_mem_aligned_free : σ → Ptr → σ
  /-- Release of a proc, `hg_proc_free(proc)`. -/
  hg_proc_free : σ → hg_proc_t → hg_return_t × σ
  /-- Teardown of a header, `hg_header_finalize(&hg_header)`. -/
  hg_header_finalize : σ → Hdr → σ
  /-- String hash `hg_hash_string(name)`. -/
  hg_hash_string : String → hg_id_t
  /-- Eager input size of a class, `HG_Core_class_get_input_eager_size`. -/
  HG_Core_class_get_input_eager_size : σ → Ptr → hg_size_t
  /-- Eager output size of a class, `HG_Core_class_get_output_eager_size`. -/
  HG_Core_class_get_output_eager_size : σ → Ptr → hg_size_t
  /-- Page size, `hg_mem_get_page_size()`. -/
  hg_mem_get_page_size : σ → hg_size_t
  /-- Size a bulk handle describes, `HG_Bulk_get_size(handle)`. -/
  HG_Bulk_get_size : σ → hg_bulk_t → hg_size_t
  /-- Aligned allocation, `hg_mem_aligned_alloc(alignment, size)`: the buffer
  (`0` for `NULL`) and the world. -/
  hg_mem_aligned_alloc : σ → hg_size_t → hg_size_t → Ptr × σ
  /-- Bulk transfer with the callback `hg_get_extra_input_cb` of `mercury.c`,
  `HG_Bulk_transfer(context, hg_get_extra_input_cb, handle, op, origin_addr,
  origin_id, origin_handle, origin_offset, local_handle, local_offset, size,
  HG_OP_ID_IGNORE)`; the handle is the argument of the callback. -/
  HG_Bulk_transfer : σ → Ptr → hg_handle → hg_bulk_op_t → Ptr → Nat → hg_bulk_t →
    hg_size_t → hg_bulk_t → hg_size_t → hg_size_t → hg_return_t × σ

/-- Subtraction on `hg_size_t`, wrapping. -/
def size_sub {σ Hdr : Type} (E : Env σ Hdr) (a b : hg_size_t) : hg_size_t :=
  (a + 2 ^ E.size_bits - b % 2 ^ E.size_bits) % 2 ^ E.size_bits

/-- Addition on `hg_size_t`, wrapping. -/
def size_add {σ Hdr : Type} (E : Env σ Hdr) (a b : hg_size_t) : hg_size_t :=
  (a + b) % 2 ^ E.size_bits

/-- Modelled from the spec: `HG_Core_ref_incr` of `mercury_core.c` ("Increment
ref count on handle"; "`ref_incr(handle)` is an atomic increment").  The
handle is not null here, so the call succeeds. -/
def HG_Core_ref_incr (handle : hg_handle) : hg_return_t × hg_handle :=
  (.HG_SUCCESS, { handle with ref_count := handle.ref_count + 1 })

/-- The function `hg_private_data_free` (lines 253-265), the release callback
that `hg_private_data_alloc` registers with `HG_Core_set_private_data`: each
proc that is not `HG_PROC_NULL` is released, the spill buffer is handed to
`hg_mem_aligned_free` (null or not), the header is finalized and the private
data itself is freed.  The bulk handle of the slot is not released here. -/
def hg_private_data_free {σ Hdr : Type} (E : Env σ Hdr) (w : σ)
    (hg_private_data : hg_private_data σ Hdr) : σ :=
  let w1 := if hg_private_data.in_proc ≠ 0 then
    (E.hg_proc_free w hg_private_data.in_proc).2 else w
  let w2 := if hg_private_data.out_proc ≠ 0 then
    (E.hg_proc_free w1 hg_private_data.out_proc).2 else w1
  let w3 := E.hg_mem_aligned_free w2 hg_private_data.extra_bulk_buf
  let w4 := E.hg_header_finalize w3 hg_private_data.hg_header
  -- free(hg_private_data): the private data is gone
  w4

/-- Modelled from the spec: `HG_Core_destroy` of `mercury_core.c` ("Decrement
reference count, resources associated to the handle are freed when the
reference count is null"; "`destroy(handle)` which decrements the ref count
and frees when it hits zero"; "On destroy (ref → 0) the framing block releases
both codec instances, frees any spill buffer, tears down the header, and frees
itself").  The handle is not null here, so the call succeeds.  When the count
reaches zero the release callback of the private data, `hg_private_data_free`,
runs on the world; the handle and its private data are gone then, and the
handle returned, of count zero, records what the handle last held. -/
def HG_Core_destroy {σ Hdr : Type} (E : Env σ Hdr) (w : σ) (handle : hg_handle)
    (hg_private_data : hg_private_data σ Hdr) : hg_return_t × σ × hg_handle :=
  let ref_count := handle.ref_count - 1
  if ref_count ≠ 0 then
    -- still in use
    (.HG_SUCCESS, w, { handle with ref_count := ref_count })
  else
    (.HG_SUCCESS, hg_private_data_free E w hg_private_data,
      { handle with ref_count := ref_count })

/-- `HG_Core_get_info(handle)`. -/
def HG_Core_get_info (handle : hg_handle) : hg_info := handle.info

/-! ## `hg_get_struct` -/

/-- What `hg_get_struct` and `hg_free_struct` leave behind: the return code,
the world, the core handle and the private data. -/
structure StructResult (σ Hdr : Type) where
  ret : hg_return_t
  world : σ
  handle : hg_handle
  priv : hg_private_data σ Hdr

/-- Body of `hg_get_struct` after the `switch (op)` (lines 369-433), with the
`proc`, `proc_cb`, `buf` and `buf_size` the switch has set. -/
def hg_get_struct_decode {σ Hdr : Type} (E : Env σ Hdr) (w : σ) (handle : hg_handle)
    (pd : hg_private_data σ Hdr) (op : hg_op_t) (struct_ptr : Ptr)
    (header_offset : hg_size_t) (proc : hg_proc_t) (proc_cb : Option (hg_proc_cb_t σ))
    (buf : Ptr) (buf_size : hg_size_t) : StructResult σ Hdr :=
  match proc_cb with
  | none => ⟨.HG_PROTOCOL_ERROR, w, handle, pd⟩
  | some cb =>
    -- Reset header
    let pd1 := { pd with hg_header := E.hg_header_reset pd.hg_header op }
    -- Get header
    let h := E.hg_header_proc .HG_DECODE w buf buf_size pd1.hg_header
    let pd2 := { pd1 with hg_header := h.2.2 }
    if h.1 ≠ .HG_SUCCESS then ⟨h.1, h.2.1, handle, pd2⟩ else
    -- Extra buffer if there is one, else the eager buffer past the header
    let buf1 := if pd2.extra_bulk_buf ≠ 0 then pd2.extra_bulk_buf else buf + header_offset
    let buf_size1 :=
      if pd2.extra_bulk_buf ≠ 0 then pd2.extra_bulk_buf_size else size_sub E buf_size header_offset
    -- Reset proc
    let r := E.hg_proc_reset h.2.1 proc buf1 buf_size1 .HG_DECODE
    if r.1 ≠ .HG_SUCCESS then ⟨r.1, r.2, handle, pd2⟩ else
    -- Decode parameters
    let d := cb r.2 proc struct_ptr
    if d.1 ≠ .HG_SUCCESS then ⟨d.1, d.2, handle, pd2⟩ else
    -- Flush proc
    let f := E.hg_proc_flush d.2 proc
    if f.1 ≠ .HG_SUCCESS then ⟨f.1, f.2, handle, pd2⟩ else
    -- Compare checksum with header hash
    let c := if E.has_checksums then
        E.hg_proc_checksum_verify f.2 proc (E.hash_payload op pd2.hg_header)
      else f.1
    if c ≠ .HG_SUCCESS then ⟨c, f.2, handle, pd2⟩ else
    -- Increment ref count on handle
    ⟨c, f.2, (HG_Core_ref_incr handle).2, pd2⟩

/-- The function `hg_get_struct` (lines 314-433). -/
def hg_get_struct {σ Hdr : Type} (E : Env σ Hdr) (w : σ) (handle : hg_handle)
    (pd : hg_private_data σ Hdr) (pi : hg_proc_info σ) (op : hg_op_t)
    (struct_ptr : Ptr) : StructResult σ Hdr :=
  let header_offset := E.hg_header_get_size op
  match op with
  | .HG_INPUT =>
    -- Get core input buffer
    let g := E.HG_Core_get_input handle
    if g.1 ≠ .HG_SUCCESS then ⟨g.1, w, handle, pd⟩ else
    hg_get_struct_decode E w handle pd op struct_ptr header_offset
      pd.in_proc pi.in_proc_cb g.2.1 g.2.2
  | .HG_OUTPUT =>
    -- Cannot respond if no_response flag set
    if pi.no_response then ⟨.HG_PROTOCOL_ERROR, w, handle, pd⟩ else
    -- Get core output buffer
    let g := E.HG_Core_get_output handle
    if g.1 ≠ .HG_SUCCESS then ⟨g.1, w, handle, pd⟩ else
    hg_get_struct_decode E w handle pd op struct_ptr header_offset
      pd.out_proc pi.out_proc_cb g.2.1 g.2.2
  | .HG_UNDEF => ⟨.HG_INVALID_PARAM, w, handle, pd⟩

/-! ## `hg_set_struct` -/

/-- What `hg_set_struct` leaves behind: the return code, the world, the
private data and the two out-parameters `*payload_size` and `*more_data`. -/
structure SetStructResult (σ Hdr : Type) where
  ret : hg_return_t
  world : σ
  priv : hg_private_data σ Hdr
  payload_size : hg_size_t
  more_data : Bool

/-- End of `hg_set_struct` (lines 598-612): the header is encoded at the start
of the eager buffer and the payload size is reported.  `buf` and `buf_size`
are the region past the header, as the code holds them at that point. -/
def hg_set_struct_header {σ Hdr : Type} (E : Env σ Hdr) (w : σ)
    (pd : hg_private_data σ Hdr) (payload_size : hg_size_t) (more_data : Bool)
    (header_offset : hg_size_t) (proc : hg_proc_t) (buf : Ptr) (buf_size : hg_size_t) :
    SetStructResult σ Hdr :=
  -- Encode header
  let buf0 := buf - header_offset
  let buf_size0 := size_add E buf_size header_offset
  let h := E.hg_header_proc .HG_ENCODE w buf0 buf_size0 pd.hg_header
  let pd1 := { pd with hg_header := h.2.2 }
  if h.1 ≠ .HG_SUCCESS then ⟨h.1, h.2.1, pd1, payload_size, more_data⟩ else
  -- Only send the actual size of the data, not the entire buffer
  ⟨h.1, h.2.1, pd1, size_add E (E.hg_proc_get_size_used h.2.1 proc) header_offset, more_data⟩

/-- Body of `hg_set_struct` after the `switch (op)` (lines 492-612), with the
`proc`, `proc_cb`, `buf` and `buf_size` the switch has set. -/
def hg_set_struct_encode {σ Hdr : Type} (E : Env σ Hdr) (w : σ) (handle : hg_handle)
    (pd : hg_private_data σ Hdr) (op : hg_op_t) (struct_ptr : Ptr)
    (payload_size : hg_size_t) (more_data : Bool)
    (header_offset : hg_size_t) (proc : hg_proc_t) (proc_cb : Option (hg_proc_cb_t σ))
    (buf : Ptr) (buf_size : hg_size_t) : SetStructResult σ Hdr :=
  match proc_cb with
  | none => ⟨.HG_SUCCESS, w, pd, 0, more_data⟩  -- Silently skip
  | some cb =>
    if struct_ptr = 0 then ⟨.HG_SUCCESS, w, pd, 0, more_data⟩ else  -- Silently skip
    -- Reset header
    let pd1 := { pd with hg_header := E.hg_header_reset pd.hg_header op }
    -- Include our own header offset
    let buf1 := buf + header_offset
    let buf_size1 := size_sub E buf_size header_offset
    -- Reset proc
    let r := E.hg_proc_reset w proc buf1 buf_size1 .HG_ENCODE
    if r.1 ≠ .HG_SUCCESS then ⟨r.1, r.2, pd1, payload_size, more_data⟩ else
    -- Encode parameters
    let e := cb r.2 proc struct_ptr
    if e.1 ≠ .HG_SUCCESS then ⟨e.1, e.2, pd1, payload_size, more_data⟩ else
    -- Flush proc
    let f := E.hg_proc_flush e.2 proc
    if f.1 ≠ .HG_SUCCESS then ⟨f.1, f.2, pd1, payload_size, more_data⟩ else
    -- Set checksum in header
    let c := if E.has_checksums then
        E.hg_proc_checksum_get f.2 proc (E.hash_payload op pd1.hg_header)
      else (f.1, E.hash_payload op pd1.hg_header)
    let pd2 := if E.has_checksums then
        { pd1 with hg_header := E.set_hash_payload op pd1.hg_header c.2 }
      else pd1
    if c.1 ≠ .HG_SUCCESS then ⟨c.1, f.2, pd2, payload_size, more_data⟩ else
    -- The proc object may have allocated an extra buffer at this point
    if E.hg_proc_get_extra_buf f.2 proc ≠ 0 then
      let hg_info := HG_Core_get_info handle
      -- Extra encoding using XDR is not yet supported
      if E.has_xdr then ⟨.HG_SIZE_ERROR, f.2, pd2, payload_size, more_data⟩ else
      -- Create a bulk descriptor only of the size that is used
      let pd3 := { pd2 with
        extra_bulk_buf := E.hg_proc_get_extra_buf f.2 proc
        extra_bulk_buf_size := E.hg_proc_get_size_used f.2 proc }
      -- Prevent buffer from being freed when proc_reset is called
      let w4 := E.hg_proc_set_extra_buf_is_mine f.2 proc true
      -- Create bulk descriptor
      let b := E.HG_Bulk_create w4 hg_info.hg_class pd3.extra_bulk_buf
        pd3.extra_bulk_buf_size .HG_BULK_READ_ONLY pd3.extra_bulk_handle
      let pd4 := { pd3 with extra_bulk_handle := b.2.2 }
      if b.1 ≠ .HG_SUCCESS then ⟨b.1, b.2.1, pd4, payload_size, more_data⟩ else
      -- Reset proc
      let r2 := E.hg_proc_reset b.2.1 proc buf1 buf_size1 .HG_ENCODE
      if r2.1 ≠ .HG_SUCCESS then ⟨r2.1, r2.2, pd4, payload_size, more_data⟩ else
      -- Encode extra_bulk_handle
      let k := E.hg_proc_hg_bulk_t r2.2 proc pd4.extra_bulk_handle
      let pd5 := { pd4 with extra_bulk_handle := k.2.2 }
      if k.1 ≠ .HG_SUCCESS then ⟨k.1, k.2.1, pd5, payload_size, more_data⟩ else
      let f2 := E.hg_proc_flush k.2.1 proc
      if f2.1 ≠ .HG_SUCCESS then ⟨f2.1, f2.2, pd5, payload_size, more_data⟩ else
      -- Extra bulk handle could not fit into buffer
      if E.hg_proc_get_extra_buf f2.2 proc ≠ 0 then
        ⟨.HG_PROTOCOL_ERROR, f2.2, pd5, payload_size, more_data⟩
      else
      hg_set_struct_header E f2.2 pd5 payload_size true header_offset proc buf1 buf_size1
    else
    hg_set_struct_header E f.2 pd2 payload_size more_data header_offset proc buf1 buf_size1

/-- The function `hg_set_struct` (lines 436-612).  `payload_size` and
`more_data` are the values the two out-parameters hold on entry. -/
def hg_set_struct {σ Hdr : Type} (E : Env σ Hdr) (w : σ) (handle : hg_handle)
    (pd : hg_private_data σ Hdr) (pi : hg_proc_info σ) (op : hg_op_t)
    (struct_ptr : Ptr) (payload_size : hg_size_t) (more_data : Bool) :
    SetStructResult σ Hdr :=
  let header_offset := E.hg_header_get_size op
  match op with
  | .HG_INPUT =>
    -- Get core input buffer
    let g := E.HG_Core_get_input handle
    if g.1 ≠ .HG_SUCCESS then ⟨g.1, w, pd, payload_size, more_data⟩ else
    hg_set_struct_encode E w handle pd op struct_ptr payload_size more_data header_offset
      pd.in_proc pi.in_proc_cb g.2.1 g.2.2
  | .HG_OUTPUT =>
    -- Cannot respond if no_response flag set
    if pi.no_response then ⟨.HG_PROTOCOL_ERROR, w, pd, payload_size, more_data⟩ else
    -- Get core output buffer
    let g := E.HG_Core_get_output handle
    if g.1 ≠ .HG_SUCCESS then ⟨g.1, w, pd, payload_size, more_data⟩ else
    hg_set_struct_encode E w handle pd op struct_ptr payload_size more_data header_offset
      pd.out_proc pi.out_proc_cb g.2.1 g.2.2
  | .HG_UNDEF => ⟨.HG_INVALID_PARAM, w, pd, payload_size, more_data⟩

/-! ## `hg_free_struct` -/

/-- Body of `hg_free_struct` after the `switch (op)` (lines 639-668). -/
def hg_free_struct_free {σ Hdr : Type} (E : Env σ Hdr) (w : σ) (handle : hg_handle)
    (pd : hg_private_data σ Hdr) (struct_ptr : Ptr)
    (proc : hg_proc_t) (proc_cb : Option (hg_proc_cb_t σ)) : StructResult σ Hdr :=
  match proc_cb with
  | none => ⟨.HG_PROTOCOL_ERROR, w, handle, pd⟩
  | some cb =>
    -- Reset proc
    let r := E.hg_proc_reset w proc 0 0 .HG_FREE
    if r.1 ≠ .HG_SUCCESS then ⟨r.1, r.2, handle, pd⟩ else
    -- Free memory allocated during decode operation
    let d := cb r.2 proc struct_ptr
    if d.1 ≠ .HG_SUCCESS then ⟨d.1, d.2, handle, pd⟩ else
    -- Decrement ref count or free
    let x := HG_Core_destroy E d.2 handle pd
    ⟨x.1, x.2.1, x.2.2, pd⟩

/-- The function `hg_free_struct` (lines 615-668). -/
def hg_free_struct {σ Hdr : Type} (E : Env σ Hdr) (w : σ) (handle : hg_handle)
    (pd : hg_private_data σ Hdr) (pi : hg_proc_info σ) (op : hg_op_t)
    (struct_ptr : Ptr) : StructResult σ Hdr :=
  match op with
  | .HG_INPUT => hg_free_struct_free E w handle pd struct_ptr pd.in_proc pi.in_proc_cb
  | .HG_OUTPUT => hg_free_struct_free E w handle pd struct_ptr pd.out_proc pi.out_proc_cb
  | .HG_UNDEF => ⟨.HG_INVALID_PARAM, w, handle, pd⟩

/-! ## Registry and public entry points -/

/-- Modelled from the spec: the registry of a class (`mercury_core.c` is not
among the sources), "a map from id to a registration record".  `rpc_data id`
is the record attached to `id`, `none` when the id has none; `rpc_cb id` is
the handler registered for `id` (`NULL` or not), `none` when the id is not
registered. -/
structure hg_class (σ : Type) where
  rpc_data : hg_id_t → Option (hg_proc_info σ)
  rpc_cb : hg_id_t → Option (Option (hg_rpc_cb_t σ))

/-- Modelled from the spec: `HG_Core_registered_data(hg_class, id)`, "Pointer
to data or NULL". -/
def HG_Core_registered_data {σ : Type} (cls : hg_class σ) (id : hg_id_t) :
    Option (hg_proc_info σ) :=
  cls.rpc_data id

/-- Modelled from the spec: `hg_core_get_rpc_data(handle)`, the registration
record of the handle's RPC id ("via the handle's registration"). -/
def hg_core_get_rpc_data {σ : Type} (cls : hg_class σ) (handle : hg_handle) :
    Option (hg_proc_info σ) :=
  cls.rpc_data handle.info.id

/-- The function `HG_Registered_disable_response` (lines 1252-1272): the
record of `id` is updated in place. -/
def HG_Registered_disable_response {σ : Type} (cls : hg_class σ) (id : hg_id_t)
    (disable : Bool) : hg_return_t × hg_class σ :=
  match HG_Core_registered_data cls id with
  | none => (.HG_NO_MATCH, cls)
  | some hg_proc_info =>
    (.HG_SUCCESS,
      { cls with rpc_data := fun j =>
          if j = id then some { hg_proc_info with no_response := disable }
          else cls.rpc_data j })

/-- What a public entry point leaves behind: the return code, the world, the
core handle and the private data of the handle (`none` when
`HG_Core_get_private_data` gives `NULL`). -/
structure HandleResult (σ Hdr : Type) where
  ret : hg_return_t
  world : σ
  handle : hg_handle
  priv : Option (hg_private_data σ Hdr)

/-- The function `HG_Get_input` (lines 1366-1406). -/
def HG_Get_input {σ Hdr : Type} (E : Env σ Hdr) (cls : hg_class σ) (w : σ)
    (handle : hg_handle) (priv : Option (hg_private_data σ Hdr)) (in_struct : Ptr) :
    HandleResult σ Hdr :=
  if in_struct = 0 then ⟨.HG_INVALID_PARAM, w, handle, priv⟩ else
  match priv with
  | none => ⟨.HG_PROTOCOL_ERROR, w, handle, priv⟩
  | some hg_private_data =>
    match hg_core_get_rpc_data cls handle with
    | none => ⟨.HG_PROTOCOL_ERROR, w, handle, priv⟩
    | some hg_proc_info =>
      let r := hg_get_struct E w handle hg_private_data hg_proc_info .HG_INPUT in_struct
      ⟨r.ret, r.world, r.handle, some r.priv⟩

/-- The function `HG_Free_input` (lines 1409-1449). -/
def HG_Free_input {σ Hdr : Type} (E : Env σ Hdr) (cls : hg_class σ) (w : σ)
    (handle : hg_handle) (priv : Option (hg_private_data σ Hdr)) (in_struct : Ptr) :
    HandleResult σ Hdr :=
  if in_struct = 0 then ⟨.HG_INVALID_PARAM, w, handle, priv⟩ else
  match priv with
  | none => ⟨.HG_PROTOCOL_ERROR, w, handle, priv⟩
  | some hg_private_data =>
    match hg_core_get_rpc_data cls handle with
    | none => ⟨.HG_PROTOCOL_ERROR, w, handle, priv⟩
    | some hg_proc_info =>
      let r := hg_free_struct E w handle hg_private_data hg_proc_info .HG_INPUT in_struct
      ⟨r.ret, r.world, r.handle, some r.priv⟩

/-- The function `HG_Get_output` (lines 1452-1492). -/
def HG_Get_output {σ Hdr : Type} (E : Env σ Hdr) (cls : hg_class σ) (w : σ)
    (handle : hg_handle) (priv : Option (hg_private_data σ Hdr)) (out_struct : Ptr) :
    HandleResult σ Hdr :=
  if out_struct = 0 then ⟨.HG_INVALID_PARAM, w, handle, priv⟩ else
  match priv with
  | none => ⟨.HG_PROTOCOL_ERROR, w, handle, priv⟩
  | some hg_private_data =>
    match hg_core_get_rpc_data cls handle with
    | none => ⟨.HG_PROTOCOL_ERROR, w, handle, priv⟩
    | some hg_proc_info =>
      let r := hg_get_struct E w handle hg_private_data hg_proc_info .HG_OUTPUT out_struct
      ⟨r.ret, r.world, r.handle, some r.priv⟩

/-- The function `HG_Free_output` (lines 1495-1535). -/
def HG_Free_output {σ Hdr : Type} (E : Env σ Hdr) (cls : hg_class σ) (w : σ)
    (handle : hg_handle) (priv : Option (hg_private_data σ Hdr)) (out_struct : Ptr) :
    HandleResult σ Hdr :=
  if out_struct = 0 then ⟨.HG_INVALID_PARAM, w, handle, priv⟩ else
  match priv with
  | none => ⟨.HG_PROTOCOL_ERROR, w, handle, priv⟩
  | some hg_private_data =>
    match hg_core_get_rpc_data cls handle with
    | none => ⟨.HG_PROTOCOL_ERROR, w, handle, priv⟩
    | some hg_proc_info =>
      let r := hg_free_struct E w handle hg_private_data hg_proc_info .HG_OUTPUT out_struct
      ⟨r.ret, r.world, r.handle, some r.priv⟩

/-- The function `HG_Respond` (lines 1695-1746).  `payload_size` is the
indeterminate value the local variable holds before `hg_set_struct` writes
it. -/
def HG_Respond {σ Hdr : Type} (E : Env σ Hdr) (cls : hg_class σ) (w : σ)
    (handle : hg_handle) (priv : Option (hg_private_data σ Hdr))
    (callback : Option (hg_cb_t σ)) (arg : Ptr) (out_struct : Ptr)
    (payload_size : hg_size_t) : HandleResult σ Hdr :=
  match priv with
  | none => ⟨.HG_PROTOCOL_ERROR, w, handle, priv⟩
  | some hg_private_data =>
    match hg_core_get_rpc_data cls handle with
    | none => ⟨.HG_PROTOCOL_ERROR, w, handle, priv⟩
    | some hg_proc_info =>
      -- Set output struct
      let s := hg_set_struct E w handle hg_private_data hg_proc_info .HG_OUTPUT out_struct
        payload_size false
      if s.ret ≠ .HG_SUCCESS then ⟨s.ret, s.world, handle, some s.priv⟩ else
      -- Set more data flag on handle so that handle_more_callback is triggered
      let flags := if s.more_data then (0 ||| E.HG_CORE_MORE_DATA) % 256 else 0
      -- Send response back
      let r := E.HG_Core_respond s.world handle callback arg flags s.payload_size
      ⟨r.1, r.2.1, r.2.2, some s.priv⟩

/-! ## Extra buffer release and forward trampoline -/

/-- The function `hg_free_extra_input` (lines 780-789). -/
def hg_free_extra_input {σ Hdr : Type} (E : Env σ Hdr) (w : σ)
    (pd : hg_private_data σ Hdr) : σ × hg_private_data σ Hdr :=
  -- Free extra bulk buf if there was any
  if pd.extra_bulk_buf ≠ 0 then
    (E.hg_mem_aligned_free w pd.extra_bulk_buf,
      { pd with extra_bulk_buf := 0, extra_bulk_buf_size := 0 })
  else (w, pd)

/-- The function `hg_more_data_free_cb` (lines 294-311), on the private data
of the handle (`none` when `HG_Core_get_private_data` gives `NULL`). -/
def hg_more_data_free_cb {σ Hdr : Type} (E : Env σ Hdr) (w : σ)
    (priv : Option (hg_private_data σ Hdr)) : σ × Option (hg_private_data σ Hdr) :=
  match priv with
  | none => (w, priv)
  | some hg_private_data =>
    ((hg_free_extra_input E w hg_private_data).1,
      some (hg_free_extra_input E w hg_private_data).2)

/-- Cleanup of `hg_forward_cb` (lines 799-806): the world and the private data
once the extra buffer and its bulk handle, if any, are released. -/
def hg_forward_cb_cleanup {σ Hdr : Type} (E : Env σ Hdr) (w : σ)
    (pd : hg_private_data σ Hdr) : σ × hg_private_data σ Hdr :=
  -- Free eventual extra input buffer and handle
  if pd.extra_bulk_buf ≠ 0 then
    (E.hg_mem_aligned_free (E.HG_Bulk_free w pd.extra_bulk_handle).2 pd.extra_bulk_buf,
      { pd with
        extra_bulk_handle := HG_BULK_NULL
        extra_bulk_buf := 0
        extra_bulk_buf_size := 0 })
  else (w, pd)

/-- The function `hg_forward_cb` (lines 792-821).  `callback_info->arg` is the
private data `pd`; the code the user callback returns is dropped. -/
def hg_forward_cb {σ Hdr : Type} (E : Env σ Hdr) (w : σ)
    (pd : hg_private_data σ Hdr) (callback_info : hg_cb_info) :
    hg_return_t × σ × hg_private_data σ Hdr :=
  let c := hg_forward_cb_cleanup E w pd
  -- Execute callback
  match c.2.callback with
  | some callback =>
    (.HG_SUCCESS,
      (callback ⟨c.2.arg, callback_info.ret, callback_info.type, callback_info.info⟩ c.1).2,
      c.2)
  | none => (.HG_SUCCESS, c.1, c.2)

/-! ## Class queries, registration and handle creation -/

/-- The function `HG_Class_get_input_eager_size` (lines 963-975). -/
def HG_Class_get_input_eager_size {σ Hdr : Type} (E : Env σ Hdr) (w : σ)
    (hg_class : Ptr) : hg_size_t :=
  let ret := E.HG_Core_class_get_input_eager_size w hg_class
  let header := E.hg_header_get_size .HG_INPUT
  if ret > header then size_sub E ret header else 0

/-- The function `HG_Class_get_output_eager_size` (lines 978-990). -/
def HG_Class_get_output_eager_size {σ Hdr : Type} (E : Env σ Hdr) (w : σ)
    (hg_class : Ptr) : hg_size_t :=
  let ret := E.HG_Core_class_get_output_eager_size w hg_class
  let header := E.hg_header_get_size .HG_OUTPUT
  if ret > header then size_sub E ret header else 0

/-- Modelled from the spec: `HG_Core_registered(hg_class, id, &flag)`,
"`registered(id) → bool`". -/
def HG_Core_registered {σ : Type} (cls : hg_class σ) (id : hg_id_t) : hg_return_t × Bool :=
  (.HG_SUCCESS, (cls.rpc_cb id).isSome)

/-- Modelled from the spec: `HG_Core_register(hg_class, id, rpc_cb)`:
"registering an already-known id updates only the handler"; a new id enters
the map with the handler and no record. -/
def HG_Core_register {σ : Type} (cls : hg_class σ) (id : hg_id_t)
    (rpc_cb : Option (hg_rpc_cb_t σ)) : hg_return_t × hg_class σ :=
  (.HG_SUCCESS,
    { cls with rpc_cb := fun j => if j = id then some rpc_cb else cls.rpc_cb j })

/-- Modelled from the spec: `HG_Core_register_data(hg_class, id, data,
free_callback)`: the record is attached to a registered id, `HG_NO_MATCH` on a
registry miss.  What the core does with a record it held before is not
tracked. -/
def HG_Core_register_data {σ : Type} (cls : hg_class σ) (id : hg_id_t)
    (data : hg_proc_info σ) : hg_return_t × hg_class σ :=
  match cls.rpc_cb id with
  | none => (.HG_NO_MATCH, cls)
  | some _ =>
    (.HG_SUCCESS,
      { cls with rpc_data := fun j => if j = id then some data else cls.rpc_data j })

/-- The function `HG_Registered` (lines 1200-1204). -/
def HG_Registered {σ : Type} (cls : hg_class σ) (id : hg_id_t) : hg_return_t × Bool :=
  HG_Core_registered cls id

/-- The function `HG_Register` (lines 1133-1197).  `hg_class` is `none` for a
null class; `malloc_ok` tells whether the `malloc` of a new record succeeds.
The record of a registered id is updated in place. -/
def HG_Register {σ : Type} (hg_class : Option (hg_class σ)) (id : hg_id_t)
    (in_proc_cb out_proc_cb : Option (hg_proc_cb_t σ)) (rpc_cb : Option (hg_rpc_cb_t σ))
    (malloc_ok : Bool) : hg_return_t × Option (Mercury.hg_class σ) :=
  match hg_class with
  | none => (.HG_INVALID_PARAM, none)
  | some cls =>
    -- Check if already registered
    let q := HG_Registered cls id
    if q.1 ≠ .HG_SUCCESS then (q.1, some cls) else
    -- Register RPC (register only RPC callback if already registered)
    let r := HG_Core_register cls id rpc_cb
    if r.1 ≠ .HG_SUCCESS then (r.1, some r.2) else
    if ¬ q.2 then
      (if ¬ malloc_ok then (.HG_NOMEM_ERROR, some r.2) else
        -- memset to zero, then the two codecs; attach proc info to RPC ID
        let d := HG_Core_register_data r.2 id ⟨in_proc_cb, out_proc_cb, false, 0, none⟩
        (d.1, some d.2))
    else
      -- Retrieve proc function from function map
      match HG_Core_registered_data r.2 id with
      | none => (r.1, some r.2)
      | some info =>
        let info1 := { info with in_proc_cb := in_proc_cb, out_proc_cb := out_proc_cb }
        (r.1,
          some { r.2 with rpc_data := fun j => if j = id then some info1 else r.2.rpc_data j })

/-- The function `HG_Register_name` (lines 1067-1096).  `func_name` is `none`
for a null string. -/
def HG_Register_name {σ Hdr : Type} (E : Env σ Hdr) (hg_class : Option (hg_class σ))
    (func_name : Option String) (in_proc_cb out_proc_cb : Option (hg_proc_cb_t σ))
    (rpc_cb : Option (hg_rpc_cb_t σ)) (malloc_ok : Bool) :
    hg_id_t × Option (Mercury.hg_class σ) :=
  match hg_class with
  | none => (0, hg_class)
  | some _ =>
    match func_name with
    | none => (0, hg_class)
    | some name =>
      -- Generate an ID from the function name
      let id := E.hg_hash_string name
      -- Register RPC
      let r := HG_Register hg_class id in_proc_cb out_proc_cb rpc_cb malloc_ok
      (id, r.2)

/-- The function `HG_Create` (lines 1312-1335).  `handle` is `none` for a null
out-pointer, else the content of the variable it points to (`none` for
`HG_HANDLE_NULL`); the result carries the new content. -/
def HG_Create {σ Hdr : Type} (E : Env σ Hdr) (w : σ) (context addr : Ptr) (id : hg_id_t)
    (handle : Option (Option hg_handle)) : hg_return_t × σ × Option (Option hg_handle) :=
  match handle with
  | none => (.HG_INVALID_PARAM, w, none)
  | some old =>
    let c := E.HG_Core_create w context addr id none
    if c.1 ≠ .HG_SUCCESS then (c.1, c.2.1, some old) else
    (c.1, c.2.1, some c.2.2)

/-! ## User-visible buffers and forward -/

/-- The function `HG_Get_input_buf` (lines 1538-1581).  An out-pointer is
`none` when null, else the content of the variable it points to; the result
carries the new contents. -/
def HG_Get_input_buf {σ Hdr : Type} (E : Env σ Hdr) (handle : hg_handle)
    (priv : Option (hg_private_data σ Hdr)) (in_buf : Option Ptr)
    (in_buf_size : Option hg_size_t) : hg_return_t × Option Ptr × Option hg_size_t :=
  match in_buf, in_buf_size with
  | some _, some _ =>
    match priv with
    | none => (.HG_PROTOCOL_ERROR, in_buf, in_buf_size)
    | some hg_private_data =>
      -- No offset if extra buffer since only the user payload is copied
      if hg_private_data.extra_bulk_buf ≠ 0 then
        (.HG_SUCCESS, some hg_private_data.extra_bulk_buf,
          some hg_private_data.extra_bulk_buf_size)
      else
        let header_offset := E.hg_header_get_size .HG_INPUT
        -- Get core input buffer
        let g := E.HG_Core_get_input handle
        if g.1 ≠ .HG_SUCCESS then (g.1, in_buf, in_buf_size) else
        (g.1, some (g.2.1 + header_offset), some (size_sub E g.2.2 header_offset))
  | _, _ => (.HG_INVALID_PARAM, in_buf, in_buf_size)

/-- The function `HG_Get_output_buf` (lines 1584-1627), as
`HG_Get_input_buf`. -/
def HG_Get_output_buf {σ Hdr : Type} (E : Env σ Hdr) (handle : hg_handle)
    (priv : Option (hg_private_data σ Hdr)) (out_buf : Option Ptr)
    (out_buf_size : Option hg_size_t) : hg_return_t × Option Ptr × Option hg_size_t :=
  match out_buf, out_buf_size with
  | some _, some _ =>
    match priv with
    | none => (.HG_PROTOCOL_ERROR, out_buf, out_buf_size)
    | some hg_private_data =>
      -- No offset if extra buffer since only the user payload is copied
      if hg_private_data.extra_bulk_buf ≠ 0 then
        (.HG_SUCCESS, some hg_private_data.extra_bulk_buf,
          some hg_private_data.extra_bulk_buf_size)
      else
        let header_offset := E.hg_header_get_size .HG_OUTPUT
        -- Get core output buffer
        let g := E.HG_Core_get_output handle
        if g.1 ≠ .HG_SUCCESS then (g.1, out_buf, out_buf_size) else
        (g.1, some (g.2.1 + header_offset), some (size_sub E g.2.2 header_offset))
  | _, _ => (.HG_INVALID_PARAM, out_buf, out_buf_size)

/-- Transport flags of `HG_Forward` (lines 1674-1680): `flags` starts at `0`,
gets `HG_CORE_MORE_DATA` or-ed in when `more_data` is set and
`HG_CORE_NO_RESPONSE` when the registration suppresses the response, as an
`hg_uint8_t`. -/
def forward_flags {σ Hdr : Type} (E : Env σ Hdr) (more_data no_response : Bool) : Nat :=
  let flags1 := if more_data then (0 ||| E.HG_CORE_MORE_DATA) % 256 else 0
  if no_response then (flags1 ||| E.HG_CORE_NO_RESPONSE) % 256 else flags1

/-- The function `HG_Forward` (lines 1637-1692).  `payload_size` is the
indeterminate value the local variable holds before `hg_set_struct` writes
it. -/
def HG_Forward {σ Hdr : Type} (E : Env σ Hdr) (cls : hg_class σ) (w : σ)
    (handle : hg_handle) (priv : Option (hg_private_data σ Hdr))
    (callback : Option (hg_cb_t σ)) (arg : Ptr) (in_struct : Ptr)
    (payload_size : hg_size_t) : HandleResult σ Hdr :=
  match priv with
  | none => ⟨.HG_PROTOCOL_ERROR, w, handle, priv⟩
  | some pd0 =>
    let hg_private_data := { pd0 with callback := callback, arg := arg }
    match hg_core_get_rpc_data cls handle with
    | none => ⟨.HG_PROTOCOL_ERROR, w, handle, some hg_private_data⟩
    | some hg_proc_info =>
      -- Set input struct
      let s := hg_set_struct E w handle hg_private_data hg_proc_info .HG_INPUT in_struct
        payload_size false
      if s.ret ≠ .HG_SUCCESS then ⟨s.ret, s.world, handle, some s.priv⟩ else
      -- Set more data flag, set no response flag if no response required
      let flags := forward_flags E s.more_data hg_proc_info.no_response
      -- Send request
      let r := E.HG_Core_forward s.world handle .hg_forward_cb flags s.payload_size
      ⟨r.1, r.2.1, r.2.2, some s.priv⟩

/-! ## The more-data hook of a target -/

/-- The label `done:` of `hg_get_extra_input` (lines 745-749): the local bulk
handle and the one of the slot are released, whatever they are, and the bulk
handle of the slot is set to `HG_BULK_NULL`. -/
def hg_get_extra_input_done {σ Hdr : Type} (E : Env σ Hdr) (w : σ)
    (pd : hg_private_data σ Hdr) (local_in_handle : hg_bulk_t) (ret : hg_return_t) :
    hg_return_t × σ × hg_private_data σ Hdr :=
  (ret,
    (E.HG_Bulk_free (E.HG_Bulk_free w local_in_handle).2 pd.extra_bulk_handle).2,
    { pd with extra_bulk_handle := HG_BULK_NULL })

/-- The function `hg_get_extra_input` (lines 671-750). -/
def hg_get_extra_input {σ Hdr : Type} (E : Env σ Hdr) (w : σ) (handle : hg_handle)
    (pd : hg_private_data σ Hdr) (done_cb : Option (hg_handle → σ → hg_return_t × σ)) :
    hg_return_t × σ × hg_private_data σ Hdr :=
  let proc := pd.in_proc
  let header_offset := E.hg_header_get_size .HG_INPUT
  let hg_info := HG_Core_get_info handle
  let page_size := E.hg_mem_get_page_size w
  -- Get core input buffer
  let g := E.HG_Core_get_input handle
  if g.1 ≠ .HG_SUCCESS then hg_get_extra_input_done E w pd HG_BULK_NULL g.1 else
  -- Include our own header offset
  let in_buf := g.2.1 + header_offset
  let in_buf_size := size_sub E g.2.2 header_offset
  let r := E.hg_proc_reset w proc in_buf in_buf_size .HG_DECODE
  if r.1 ≠ .HG_SUCCESS then hg_get_extra_input_done E r.2 pd HG_BULK_NULL r.1 else
  -- Decode extra bulk handle
  let k := E.hg_proc_hg_bulk_t r.2 proc pd.extra_bulk_handle
  let pd1 := { pd with extra_bulk_handle := k.2.2 }
  if k.1 ≠ .HG_SUCCESS then hg_get_extra_input_done E k.2.1 pd1 HG_BULK_NULL k.1 else
  let f := E.hg_proc_flush k.2.1 proc
  if f.1 ≠ .HG_SUCCESS then hg_get_extra_input_done E f.2 pd1 HG_BULK_NULL f.1 else
  -- Create a new local handle to read the data
  let pd2 := { pd1 with extra_bulk_buf_size := E.HG_Bulk_get_size f.2 pd1.extra_bulk_handle }
  let a := E.hg_mem_aligned_alloc f.2 page_size pd2.extra_bulk_buf_size
  let pd3 := { pd2 with extra_bulk_buf := a.1 }
  if a.1 = 0 then hg_get_extra_input_done E a.2 pd3 HG_BULK_NULL .HG_NOMEM_ERROR else
  let b := E.HG_Bulk_create a.2 hg_info.hg_class pd3.extra_bulk_buf pd3.extra_bulk_buf_size
    .HG_BULK_READWRITE HG_BULK_NULL
  if b.1 ≠ .HG_SUCCESS then hg_get_extra_input_done E b.2.1 pd3 b.2.2 b.1 else
  -- Read bulk data here and wait for the data to be here
  let pd4 := { pd3 with extra_bulk_transfer_cb := done_cb }
  let t := E.HG_Bulk_transfer b.2.1 hg_info.context handle .HG_BULK_PULL hg_info.addr
    hg_info.target_id pd4.extra_bulk_handle 0 b.2.2 0 pd4.extra_bulk_buf_size
  hg_get_extra_input_done E t.2 pd4 b.2.2 t.1

/-- The function `hg_more_data_cb` (lines 268-291), on the private data of the
handle (`none` when `HG_Core_get_private_data` gives `NULL`). -/
def hg_more_data_cb {σ Hdr : Type} (E : Env σ Hdr) (w : σ) (handle : hg_handle)
    (priv : Option (hg_private_data σ Hdr))
    (done_cb : Option (hg_handle → σ → hg_return_t × σ)) :
    hg_return_t × σ × Option (hg_private_data σ Hdr) :=
  match priv with
  | none => (.HG_PROTOCOL_ERROR, w, priv)
  | some hg_private_data =>
    let r := hg_get_extra_input E w handle hg_private_data done_cb
    (r.1, r.2.1, some r.2.2)

/-! ## User data of a registration -/

/-- The function `hg_proc_info_free` (lines 207-215), the free function of a
registration record: the free callback, when there is one, runs on the user
data. -/
def hg_proc_info_free {σ : Type} (w : σ) (hg_proc_info : hg_proc_info σ) : σ :=
  match hg_proc_info.free_callback with
  | some free_callback => free_callback hg_proc_info.data w
  | none => w

/-- The function `HG_Register_data` (lines 1207-1228): the record of `id` is
updated in place; the world is handed through, as no callback is run. -/
def HG_Register_data {σ : Type} (cls : hg_class σ) (w : σ) (id : hg_id_t) (data : Ptr)
    (free_callback : Option (Ptr → σ → σ)) : hg_return_t × σ × hg_class σ :=
  -- Retrieve proc function from function map
  match HG_Core_registered_data cls id with
  | none => (.HG_NO_MATCH, w, cls)
  | some hg_proc_info =>
    let info1 := { hg_proc_info with data := data, free_callback := free_callback }
    (.HG_SUCCESS, w,
      { cls with rpc_data := fun j => if j = id then some info1 else cls.rpc_data j })

/-- What the specification says of `register_data`: it "replaces the previous
data after invoking its free callback".  Kept apart from `HG_Register_data`,
which is the code. -/
def HG_Register_data_spec {σ : Type} (cls : hg_class σ) (w : σ) (id : hg_id_t) (data : Ptr)
    (free_callback : Option (Ptr → σ → σ)) : hg_return_t × σ × hg_class σ :=
  match HG_Core_registered_data cls id with
  | none => (.HG_NO_MATCH, w, cls)
  | some hg_proc_info =>
    let info1 := { hg_proc_info with data := data, free_callback := free_callback }
    (.HG_SUCCESS, hg_proc_info_free w hg_proc_info,
      { cls with rpc_data := fun j => if j = id then some info1 else cls.rpc_data j })

/-- The function `HG_Registered_data` (lines 1231-1249); `0` is `NULL`. -/
def HG_Registered_data {σ : Type} (cls : hg_class σ) (id : hg_id_t) : Ptr :=
  -- Retrieve proc function from function map
  match HG_Core_registered_data cls id with
  | none => 0
  | some hg_proc_info => hg_proc_info.data

/-! ## Error strings -/

/-- The function `HG_Error_to_string` (lines 859-878).  `errnum` is the integer
value handed in and `value` the numbering of the enum `hg_return_t`; each
`HG_ERROR_STRING_MACRO(def, errnum, string)` assigns the text of `def` to
`string` when `errnum == def`, one after the other. -/
def HG_Error_to_string (value : hg_return_t → Int) (errnum : Int) : String :=
  let s := "UNDEFINED/UNRECOGNIZED NA ERROR"
  let s := if errnum = value .HG_SUCCESS then "HG_SUCCESS" else s
  let s := if errnum = value .HG_NA_ERROR then "HG_NA_ERROR" else s
  let s := if errnum = value .HG_TIMEOUT then "HG_TIMEOUT" else s
  let s := if errnum = value .HG_INVALID_PARAM then "HG_INVALID_PARAM" else s
  let s := if errnum = value .HG_SIZE_ERROR then "HG_SIZE_ERROR" else s
  let s := if errnum = value .HG_NOMEM_ERROR then "HG_NOMEM_ERROR" else s
  let s := if errnum = value .HG_PROTOCOL_ERROR then "HG_PROTOCOL_ERROR" else s
  let s := if errnum = value .HG_NO_MATCH then "HG_NO_MATCH" else s
  let s := if errnum = value .HG_CHECKSUM_ERROR then "HG_CHECKSUM_ERROR" else s
  let s := if errnum = value .HG_CANCELED then "HG_CANCELED" else s
  let s := if errnum = value .HG_OTHER_ERROR then "HG_OTHER_ERROR" else s
  s

/-! ## Protocol version (`mercury_proc_header.h`) -/

/-- The macro `HG_GET_MAJOR(value)`, on a 32-bit value. -/
def HG_GET_MAJOR (value : Nat) : Nat := (value >>> 24) &&& 0xFF

/-- The macro `HG_GET_MINOR(value)`. -/
def HG_GET_MINOR (value : Nat) : Nat := (value >>> 16) &&& 0xFF

/-- The macro `HG_GET_PATCH(value)`. -/
def HG_GET_PATCH (value : Nat) : Nat := value &&& 0xFFFF

/-- The macro `HG_VERSION`, for the build constants `HG_VERSION_MAJOR`,
`HG_VERSION_MINOR` and `HG_VERSION_PATCH`, as a 32-bit value. -/
def HG_VERSION (major minor patch : Nat) : Nat :=
  ((major <<< 24) ||| (minor <<< 16) ||| patch) % 2 ^ 32

/-! ## The atomic queue (`mercury_atomic_queue.h`), run by one thread -/

/-- Return codes `HG_UTIL_SUCCESS` and `HG_UTIL_FAIL`. -/
inductive hg_util_return
  | HG_UTIL_SUCCESS
  | HG_UTIL_FAIL
  deriving DecidableEq

/-- The queue `struct hg_atomic_queue`.  The 32-bit indices are kept as
naturals; entries are pointers, `0` for `NULL`. -/
structure hg_atomic_queue where
  prod_head : Nat
  prod_tail : Nat
  prod_size : Nat
  prod_mask : Nat
  drops : Nat
  cons_head : Nat
  cons_tail : Nat
  cons_size : Nat
  cons_mask : Nat
  ring : Nat → Ptr

/-- The function `hg_atomic_queue_push` (lines 157-197), run with no other
thread at work: the values read twice are the same, the compare-and-swap
succeeds, and the wait for `prod_tail` to reach `prod_head` ends at once or
never (`none`). -/
def hg_atomic_queue_push (q : hg_atomic_queue) (entry : Ptr) :
    Option (hg_util_return × hg_atomic_queue) :=
  let prod_head := q.prod_head
  let prod_next := ((prod_head + 1) % 2 ^ 32) &&& q.prod_mask
  let cons_tail := q.cons_tail
  if prod_next = cons_tail then
    -- Full
    some (.HG_UTIL_FAIL, { q with drops := (q.drops + 1) % 2 ^ 64 })
  else
    let q1 := { q with prod_head := prod_next }
    let q2 := { q1 with ring := Function.update q1.ring prod_head entry }
    -- wait for the enqueues that preceded us
    if q2.prod_tail ≠ prod_head then none else
    some (.HG_UTIL_SUCCESS, { q2 with prod_tail := prod_next })

/-- The function `hg_atomic_queue_pop_mc` (lines 200-230), run with no other
thread at work; `none` when the wait for `cons_tail` never ends. -/
def hg_atomic_queue_pop_mc (q : hg_atomic_queue) : Option (Ptr × hg_atomic_queue) :=
  let cons_head := q.cons_head
  let cons_next := ((cons_head + 1) % 2 ^ 32) &&& q.cons_mask
  if cons_head = q.prod_tail then some (0, q) else
  let q1 := { q with cons_head := cons_next }
  let entry := q1.ring cons_head
  -- wait for the dequeues that preceded us
  if q1.cons_tail ≠ cons_head then none else
  some (entry, { q1 with cons_tail := cons_next })

/-- The function `hg_atomic_queue_pop_sc` (lines 233-257). -/
def hg_atomic_queue_pop_sc (q : hg_atomic_queue) : Ptr × hg_atomic_queue :=
  let cons_head := q.cons_head
  let prod_tail := q.prod_tail
  let cons_next := ((cons_head + 1) % 2 ^ 32) &&& q.cons_mask
  if cons_head = prod_tail then
    -- Empty
    (0, q)
  else
    let q1 := { q with cons_head := cons_next }
    let entry := q1.ring cons_head
    (entry, { q1 with cons_tail := cons_next })

/-- The function `hg_atomic_queue_is_empty` (lines 260-265). -/
def hg_atomic_queue_is_empty (q : hg_atomic_queue) : Bool :=
  q.cons_head = q.prod_tail

/-- The function `hg_atomic_queue_count` (lines 268-275), in `unsigned int`
arithmetic. -/
def hg_atomic_queue_count (q : hg_atomic_queue) : Nat :=
  ((q.prod_size + q.prod_tail + 2 ^ 32 - q.cons_tail % 2 ^ 32) % 2 ^ 32) &&& q.prod_mask

/-! ## A reference instance of the collaborators

A small byte-level instance of `Env`, used to run the functions above on
concrete inputs: a flat byte memory, proc objects with a cursor, a checksum
and an auxiliary buffer that is grown when the bound region is full, a
two-byte request header (magic `0xD7`, payload hash) and a one-byte response
header (payload hash). -/

/-- Modelled from the spec: state of a proc object of `mercury_proc.c`, "a
generic encoder/decoder that can grow an auxiliary buffer when the fixed
buffer fills", with its running checksum. -/
structure RefProc where
  buf : Ptr
  size : hg_size_t
  op : hg_proc_op_t
  used : hg_size_t
  extra : Ptr
  is_mine : Bool
  checksum : Nat

/-- A bulk transfer issued in the reference instance: the arguments of
`HG_Bulk_transfer` from the direction to the size. -/
structure RefTransfer where
  op : hg_bulk_op_t
  origin_addr : Ptr
  origin_id : Nat
  origin_handle : hg_bulk_t
  origin_offset : hg_size_t
  local_handle : hg_bulk_t
  local_offset : hg_size_t
  size : hg_size_t
  deriving DecidableEq

/-- Modelled from the spec: the world of the reference instance: byte memory,
proc objects, the bulk descriptors created so far, the responses and the
requests handed to the transport so far (flags and payload size), the buffers
and the bulk handles released so far, the completion records delivered to a
user callback so far, the aligned allocations (alignment and size) and the
bulk transfers issued so far. -/
structure RefWorld where
  mem : Ptr → Nat
  procs : hg_proc_t → RefProc
  bulks : List (Ptr × hg_size_t × hg_bulk_flag_t)
  responses : List (Nat × hg_size_t)
  forwards : List (Nat × hg_size_t) := []
  freed : List Ptr := []
  bulks_freed : List hg_bulk_t := []
  delivered : List hg_cb_info := []
  allocs : List (hg_size_t × hg_size_t) := []
  transfers : List RefTransfer := []
  procs_freed : List hg_proc_t := []

/-- Modelled from the spec: header scratch `struct hg_header`, reduced to its
direction and its payload hash. -/
structure RefHeader where
  op : hg_op_t
  hash : Nat

/-- Modelled from the spec: `hg_header_get_size` of the reference instance. -/
def ref_header_get_size : hg_op_t → hg_size_t
  | .HG_INPUT => 2
  | .HG_OUTPUT => 1
  | .HG_UNDEF => 0

/-- Modelled from the spec: `hg_header_proc`.  Encoding "always writes exactly
size_of(direction) bytes at the start of buf; fails with SIZE if buf_size <
that"; decoding "fails with PROTOCOL if magic ≠ 0xD7". -/
def ref_header_proc (op : hg_proc_op_t) (w : RefWorld) (buf : Ptr) (buf_size : hg_size_t)
    (hdr : RefHeader) : hg_return_t × RefWorld × RefHeader :=
  if buf_size < ref_header_get_size hdr.op then (.HG_SIZE_ERROR, w, hdr) else
  match op, hdr.op with
  | .HG_ENCODE, .HG_INPUT =>
    (.HG_SUCCESS,
      { w with mem := Function.update (Function.update w.mem buf 0xD7) (buf + 1) hdr.hash },
      hdr)
  | .HG_ENCODE, .HG_OUTPUT =>
    (.HG_SUCCESS, { w with mem := Function.update w.mem buf hdr.hash }, hdr)
  | .HG_DECODE, .HG_INPUT =>
    if w.mem buf ≠ 0xD7 then (.HG_PROTOCOL_ERROR, w, hdr)
    else (.HG_SUCCESS, w, { hdr with hash := w.mem (buf + 1) })
  | .HG_DECODE, .HG_OUTPUT => (.HG_SUCCESS, w, { hdr with hash := w.mem buf })
  | _, _ => (.HG_INVALID_PARAM, w, hdr)

/-- Modelled from the spec: `hg_proc_reset`: the proc is bound to the region
in the given mode, its cursor and checksum start afresh and it lets go of its
auxiliary buffer. -/
def ref_proc_reset (w : RefWorld) (proc : hg_proc_t) (buf : Ptr) (buf_size : hg_size_t)
    (op : hg_proc_op_t) : hg_return_t × RefWorld :=
  if proc = 0 then (.HG_INVALID_PARAM, w) else
  (.HG_SUCCESS,
    { w with procs := Function.update w.procs proc ⟨buf, buf_size, op, 0, 0, false, 0⟩ })

/-- Modelled from the spec: one byte appended by a proc in encode mode.  When
the bound region is full the bytes written so far move to an auxiliary buffer
(placed just past the region) and encoding goes on there. -/
def ref_put (w : RefWorld) (proc : hg_proc_t) (b : Nat) : RefWorld :=
  let p := w.procs proc
  if p.extra ≠ 0 then
    { w with
      mem := Function.update w.mem (p.extra + p.used) b
      procs := Function.update w.procs proc
        { p with used := p.used + 1, checksum := p.checksum + b } }
  else if p.used < p.size then
    { w with
      mem := Function.update w.mem (p.buf + p.used) b
      procs := Function.update w.procs proc
        { p with used := p.used + 1, checksum := p.checksum + b } }
  else
    let a := p.buf + p.size + 1
    { w with
      mem := Function.update
        (fun x => if a ≤ x ∧ x < a + p.used then w.mem (p.buf + (x - a)) else w.mem x)
        (a + p.used) b
      procs := Function.update w.procs proc
        { p with extra := a, used := p.used + 1, checksum := p.checksum + b } }

/-- Modelled from the spec: one byte read by a proc in decode mode, `none`
when the region is exhausted. -/
def ref_get (w : RefWorld) (proc : hg_proc_t) : Option Nat × RefWorld :=
  let p := w.procs proc
  if p.used < p.size then
    let b := w.mem (p.buf + p.used)
    (some b,
      { w with
        procs := Function.update w.procs proc
          { p with used := p.used + 1, checksum := p.checksum + b } })
  else (none, w)

/-- Modelled from the spec: a user codec for a struct of two bytes, "a paired
encode/decode/free function operating on a user-defined struct and a proc
cursor". -/
def ref_codec2 : hg_proc_cb_t RefWorld := fun w proc data =>
  match (w.procs proc).op with
  | .HG_ENCODE => (.HG_SUCCESS, ref_put (ref_put w proc (w.mem data)) proc (w.mem (data + 1)))
  | .HG_DECODE =>
    let g0 := ref_get w proc
    let g1 := ref_get g0.2 proc
    match g0.1, g1.1 with
    | some b0, some b1 =>
      (.HG_SUCCESS,
        { g1.2 with mem := Function.update (Function.update g1.2.mem data b0) (data + 1) b1 })
    | _, _ => (.HG_SIZE_ERROR, g1.2)
  | .HG_FREE => (.HG_SUCCESS, w)

/-- Modelled from the spec: a user codec for a 32-bit counter held in four
bytes (scenario "Small RPC"). -/
def ref_codec4 : hg_proc_cb_t RefWorld := fun w proc data =>
  match (w.procs proc).op with
  | .HG_ENCODE =>
    (.HG_SUCCESS,
      ref_put (ref_put (ref_put (ref_put w proc (w.mem data)) proc (w.mem (data + 1))) proc
        (w.mem (data + 2))) proc (w.mem (data + 3)))
  | .HG_DECODE =>
    let g0 := ref_get w proc
    let g1 := ref_get g0.2 proc
    let g2 := ref_get g1.2 proc
    let g3 := ref_get g2.2 proc
    match g0.1, g1.1, g2.1, g3.1 with
    | some b0, some b1, some b2, some b3 =>
      (.HG_SUCCESS,
        { g3.2 with mem := Function.update (Function.update (Function.update
            (Function.update g3.2.mem data b0) (data + 1) b1) (data + 2) b2) (data + 3) b3 })
    | _, _, _, _ => (.HG_SIZE_ERROR, g3.2)
  | .HG_FREE => (.HG_SUCCESS, w)

/-- Modelled from the spec: `hg_proc_hg_bulk_t`, the codec of a bulk handle:
one byte. -/
def ref_proc_hg_bulk_t (w : RefWorld) (proc : hg_proc_t) (handle : hg_bulk_t) :
    hg_return_t × RefWorld × hg_bulk_t :=
  match (w.procs proc).op with
  | .HG_ENCODE => (.HG_SUCCESS, ref_put w proc handle, handle)
  | .HG_DECODE =>
    match ref_get w proc with
    | (some b, w1) => (.HG_SUCCESS, w1, b)
    | (none, w1) => (.HG_SIZE_ERROR, w1, handle)
  | .HG_FREE => (.HG_SUCCESS, w, handle)

/-- Modelled from the spec: the region a bulk handle of the reference instance
describes, handle `n` being the `n`-th descriptor created. -/
def ref_bulk_region (w : RefWorld) (handle : hg_bulk_t) : Ptr × hg_size_t :=
  if handle = 0 then (0, 0) else
  match w.bulks.get? (handle - 1) with
  | some b => (b.1, b.2.1)
  | none => (0, 0)

/-- Modelled from the spec: `HG_Bulk_get_size` of the reference instance. -/
def ref_bulk_get_size (w : RefWorld) (handle : hg_bulk_t) : hg_size_t :=
  (ref_bulk_region w handle).2

/-- Modelled from the spec: `hg_mem_aligned_alloc` of the reference instance:
a buffer at `8192`, or `NULL` for a size of `0` or above `4096`. -/
def ref_mem_aligned_alloc (w : RefWorld) (alignment size : hg_size_t) : Ptr × RefWorld :=
  if size = 0 ∨ 4096 < size then (0, w) else
  (8192, { w with allocs := w.allocs ++ [(alignment, size)] })

/-- Modelled from the spec: `HG_Bulk_transfer` of the reference instance, where
origin and target share the memory: the transfer fails with `HG_NA_ERROR` for
the null address, and otherwise copies `size` bytes between the two regions
and is recorded. -/
def ref_bulk_transfer (w : RefWorld) (_context : Ptr) (_arg : hg_handle) (op : hg_bulk_op_t)
    (origin_addr : Ptr) (origin_id : Nat) (origin_handle : hg_bulk_t)
    (origin_offset : hg_size_t) (local_handle : hg_bulk_t) (local_offset : hg_size_t)
    (size : hg_size_t) : hg_return_t × RefWorld :=
  if origin_addr = 0 then (.HG_NA_ERROR, w) else
  let o := (ref_bulk_region w origin_handle).1 + origin_offset
  let l := (ref_bulk_region w local_handle).1 + local_offset
  let src := match op with
    | .HG_BULK_PULL => o
    | .HG_BULK_PUSH => l
  let dst := match op with
    | .HG_BULK_PULL => l
    | .HG_BULK_PUSH => o
  (.HG_SUCCESS,
    { w with
      mem := fun x => if dst ≤ x ∧ x < dst + size then w.mem (src + (x - dst)) else w.mem x
      transfers := w.transfers ++
        [⟨op, origin_addr, origin_id, origin_handle, origin_offset, local_handle,
          local_offset, size⟩] })

/-- Modelled from the spec: the reference instance of the collaborators, for a
build with or without payload checksums and with or without XDR. -/
def refEnv (checksums xdr : Bool) : Env RefWorld RefHeader where
  has_checksums := checksums
  has_xdr := xdr
  size_bits := 64
  HG_CORE_MORE_DATA := 1
  HG_CORE_NO_RESPONSE := 2
  hg_header_get_size := ref_header_get_size
  hg_header_reset := fun _ op => ⟨op, 0⟩
  hg_header_proc := ref_header_proc
  hash_payload := fun _ hdr => hdr.hash
  set_hash_payload := fun _ hdr v => { hdr with hash := v }
  HG_Core_get_input := fun handle =>
    (if handle.in_buf = 0 then .HG_INVALID_PARAM else .HG_SUCCESS,
      handle.in_buf, handle.in_buf_size)
  HG_Core_get_output := fun handle =>
    (if handle.out_buf = 0 then .HG_INVALID_PARAM else .HG_SUCCESS,
      handle.out_buf, handle.out_buf_size)
  hg_proc_reset := ref_proc_reset
  hg_proc_flush := fun w _ => (.HG_SUCCESS, w)
  hg_proc_checksum_get := fun w proc _ => (.HG_SUCCESS, (w.procs proc).checksum)
  hg_proc_checksum_verify := fun w proc hash =>
    if (w.procs proc).checksum = hash then .HG_SUCCESS else .HG_CHECKSUM_ERROR
  hg_proc_get_extra_buf := fun w proc => (w.procs proc).extra
  hg_proc_get_size_used := fun w proc => (w.procs proc).used
  hg_proc_set_extra_buf_is_mine := fun w proc flag =>
    { w with procs := Function.update w.procs proc { w.procs proc with is_mine := flag } }
  HG_Bulk_create := fun w _ buf size flags _ =>
    (.HG_SUCCESS, { w with bulks := w.bulks ++ [(buf, size, flags)] }, w.bulks.length + 1)
  hg_proc_hg_bulk_t := ref_proc_hg_bulk_t
  HG_Core_respond := fun w handle _ _ flags payload_size =>
    (.HG_SUCCESS, { w with responses := w.responses ++ [(flags, payload_size)] }, handle)
  HG_Core_forward := fun w handle _ flags payload_size =>
    (.HG_SUCCESS, { w with forwards := w.forwards ++ [(flags, payload_size)] }, handle)
  HG_Core_create := fun w context addr id _ =>
    (.HG_SUCCESS, w, some ⟨1, ⟨1, context, addr, 0, id⟩, 100, 16, 200, 16⟩)
  HG_Bulk_free := fun w handle =>
    (.HG_SUCCESS, { w with bulks_freed := w.bulks_freed ++ [handle] })
  hg_mem_aligned_free := fun w buf => { w with freed := w.freed ++ [buf] }
  hg_proc_free := fun w proc =>
    (.HG_SUCCESS, { w with procs_freed := w.procs_freed ++ [proc] })
  hg_header_finalize := fun w _ => w
  hg_hash_string := fun name => name.length + 1
  HG_Core_class_get_input_eager_size := fun _ _ => 4096
  HG_Core_class_get_output_eager_size := fun _ _ => 4096
  hg_mem_get_page_size := fun _ => 4096
  HG_Bulk_get_size := ref_bulk_get_size
  hg_mem_aligned_alloc := ref_mem_aligned_alloc
  HG_Bulk_transfer := ref_bulk_transfer

/-- A world of the reference instance with zeroed memory, except for a user
struct of bytes `b0 b1 b2 b3` at address `1000`. -/
def refWorld0 (b0 b1 b2 b3 : Nat) : RefWorld where
  mem := fun x =>
    if x = 1000 then b0 else if x = 1001 then b1 else if x = 1002 then b2
    else if x = 1003 then b3 else 0
  procs := fun _ => ⟨0, 0, .HG_FREE, 0, 0, false, 0⟩
  bulks := []
  responses := []

/-- A handle of RPC id `7` with reference count `1`, an eager input buffer at
`100` and an eager output buffer at `200`, both of the given size. -/
def refHandle (eager_size : hg_size_t) : hg_handle where
  ref_count := 1
  info := ⟨1, 1, 1, 0, 7⟩
  in_buf := 100
  in_buf_size := eager_size
  out_buf := 200
  out_buf_size := eager_size

/-- Fresh private data as `hg_private_data_alloc` leaves it: zeroed, with the
two procs created (handles `1` and `2`). -/
def refPriv : hg_private_data RefWorld RefHeader where
  callback := none
  arg := 0
  hg_header := ⟨.HG_UNDEF, 0⟩
  in_proc := 1
  out_proc := 2
  extra_bulk_buf := 0
  extra_bulk_buf_size := 0
  extra_bulk_handle := 0
  extra_bulk_transfer_cb := none

/-- A registration record with the given codec in both directions. -/
def refInfo (cb : Option (hg_proc_cb_t RefWorld)) (no_response : Bool) :
    hg_proc_info RefWorld where
  in_proc_cb := cb
  out_proc_cb := cb
  no_response := no_response
  data := 0
  free_callback := none

/-- The world a receiver sees when the sender of `refWorld0 5 6 7 8` has encoded
its four-byte struct for `HG_INPUT` into a 16-byte eager buffer and the first
payload byte (address `102`) has then been corrupted. -/
def refCorruptWorld : RefWorld :=
  let s := hg_set_struct (refEnv true false) (refWorld0 5 6 7 8) (refHandle 16) refPriv
    (refInfo (some ref_codec4) false) .HG_INPUT 1000 0 false
  { s.world with mem := Function.update s.world.mem 102 77 }

/-- A class of the reference instance whose only registration is RPC id `7`,
with the two-byte codec in both directions and the given response flag. -/
def refClass (no_response : Bool) : hg_class RefWorld where
  rpc_data := fun id => if id = 7 then some (refInfo (some ref_codec2) no_response) else none
  rpc_cb := fun id => if id = 7 then some none else none

/-- The world of a client that receives the response to its request: the
server has encoded the two-byte struct `5 6` for `HG_OUTPUT` into the 16-byte
eager output buffer. -/
def refResponseWorld : RefWorld :=
  (hg_set_struct (refEnv true false) (refWorld0 5 6 0 0) (refHandle 16) refPriv
    (refInfo (some ref_codec2) false) .HG_OUTPUT 1000 0 false).world

/-- Bytes of the reference instance: the `n` bytes at address `p`. -/
def ref_rd (w : RefWorld) (p : Ptr) (n : hg_size_t) : List Nat :=
  (List.range n).map (fun i => w.mem (p + i))

/-- User struct of the two-byte codec: the two bytes at address `p`. -/
def ref_val (w : RefWorld) (p : Ptr) : Nat × Nat := (w.mem p, w.mem (p + 1))

/-- The world of a receiver of the request that `hg_set_struct` has encoded in
the sender world `s` for a handle `refHandle n`: zeroed memory, except for the
`n` bytes of the eager input buffer at `100`, which hold what the sender's
eager buffer holds, and for `m` bytes at `500`, which hold what the sender's
memory holds at `spill`. -/
def refReceiverWorld (s : RefWorld) (n : Nat) (spill m : Nat) : RefWorld where
  mem := fun x =>
    if 100 ≤ x ∧ x < 100 + n then s.mem x
    else if 500 ≤ x ∧ x < 500 + m then s.mem (spill + (x - 500))
    else 0
  procs := fun _ => ⟨0, 0, .HG_FREE, 0, 0, false, 0⟩
  bulks := []
  responses := []

/-- A user callback of the reference instance: it appends the completion
record it is handed to `delivered`. -/
def ref_user_cb : hg_cb_t RefWorld := fun info w =>
  (.HG_SUCCESS, { w with delivered := w.delivered ++ [info] })

/-- Private data of an origin whose forward has spilled: the callback
`ref_user_cb` and the argument `77` are stashed and the slot holds a four-byte
buffer at `106` with bulk handle `1`. -/
def refSpilledPriv : hg_private_data RefWorld RefHeader :=
  { refPriv with
    callback := some ref_user_cb
    arg := 77
    extra_bulk_buf := 106
    extra_bulk_buf_size := 4
    extra_bulk_handle := 1 }

/-- Private data of a target whose more-data hook has pulled a two-byte spill
into a buffer at `500`. -/
def refPulledPriv : hg_private_data RefWorld RefHeader :=
  { refPriv with
    extra_bulk_buf := 500
    extra_bulk_buf_size := 2 }

/-- The world of a target that has received the request of `refWorld0 5 6 0 0`
through a 3-byte eager buffer and pulled the two spilled bytes to `500`. -/
def refTargetWorld : RefWorld :=
  refReceiverWorld
    (hg_set_struct (refEnv true false) (refWorld0 5 6 0 0) (refHandle 3) refPriv
      (refInfo (some ref_codec2) false) .HG_INPUT 1000 0 false).world 3 104 2

/-! ## Vocabulary of the statements -/

/-- The proc the `switch (op)` of the framing functions selects. -/
def proc_of {σ Hdr : Type} (pd : hg_private_data σ Hdr) : hg_op_t → hg_proc_t
  | .HG_OUTPUT => pd.out_proc
  | _ => pd.in_proc

/-- The codec the `switch (op)` of the framing functions selects. -/
def proc_cb_of {σ : Type} (pi : hg_proc_info σ) : hg_op_t → Option (hg_proc_cb_t σ)
  | .HG_OUTPUT => pi.out_proc_cb
  | _ => pi.in_proc_cb

/-- The core buffer the `switch (op)` of `hg_get_struct` and `hg_set_struct`
fetches. -/
def core_buf {σ Hdr : Type} (E : Env σ Hdr) (handle : hg_handle) :
    hg_op_t → hg_return_t × Ptr × hg_size_t
  | .HG_OUTPUT => E.HG_Core_get_output handle
  | _ => E.HG_Core_get_input handle

/-- An op the switch of `hg_get_struct` and `hg_set_struct` lets through:
`HG_INPUT`, or `HG_OUTPUT` with response not suppressed. -/
def valid_op {σ : Type} (pi : hg_proc_info σ) (op : hg_op_t) : Prop :=
  op = .HG_INPUT ∨ (op = .HG_OUTPUT ∧ pi.no_response = false)

/-- Region `hg_get_struct` hands to the codec: the extra buffer when the slot
holds one, else the eager buffer past the header. -/
def decode_region {σ Hdr : Type} (E : Env σ Hdr) (pd : hg_private_data σ Hdr)
    (op : hg_op_t) (buf : Ptr) (buf_size : hg_size_t) : Ptr × hg_size_t :=
  if pd.extra_bulk_buf ≠ 0 then (pd.extra_bulk_buf, pd.extra_bulk_buf_size)
  else (buf + E.hg_header_get_size op, size_sub E buf_size (E.hg_header_get_size op))

/-- A pass of a codec over a region: `hg_proc_reset`, the codec, then
`hg_proc_flush`, as `hg_get_struct` and `hg_set_struct` chain them.  The code
is that of the first step that fails, `HG_SUCCESS` when none does. -/
def codec_pass {σ Hdr : Type} (E : Env σ Hdr) (w : σ) (proc : hg_proc_t)
    (cb : hg_proc_cb_t σ) (buf : Ptr) (buf_size : hg_size_t) (mode : hg_proc_op_t)
    (struct_ptr : Ptr) : hg_return_t × σ :=
  let r := E.hg_proc_reset w proc buf buf_size mode
  if r.1 ≠ .HG_SUCCESS then r else
  let d := cb r.2 proc struct_ptr
  if d.1 ≠ .HG_SUCCESS then d else
  E.hg_proc_flush d.2 proc

/-- Header decode of `hg_get_struct`: `hg_header_proc(HG_DECODE, ...)` over the
core buffer, on the header scratch just reset. -/
def get_header {σ Hdr : Type} (E : Env σ Hdr) (w : σ) (handle : hg_handle)
    (pd : hg_private_data σ Hdr) (op : hg_op_t) : hg_return_t × σ × Hdr :=
  E.hg_header_proc .HG_DECODE w (core_buf E handle op).2.1 (core_buf E handle op).2.2
    (E.hg_header_reset pd.hg_header op)

/-- Codec pass of `hg_get_struct`: the decode pass over `decode_region`, run
in the world the header decode leaves. -/
def get_pass {σ Hdr : Type} (E : Env σ Hdr) (w : σ) (handle : hg_handle)
    (pd : hg_private_data σ Hdr) (op : hg_op_t) (cb : hg_proc_cb_t σ) (struct_ptr : Ptr) :
    hg_return_t × σ :=
  codec_pass E (get_header E w handle pd op).2.1 (proc_of pd op) cb
    (decode_region E pd op (core_buf E handle op).2.1 (core_buf E handle op).2.2).1
    (decode_region E pd op (core_buf E handle op).2.1 (core_buf E handle op).2.2).2
    .HG_DECODE struct_ptr

/-- Codec pass of `hg_set_struct` over the user struct: the encode pass over
the eager buffer past the header. -/
def set_pass {σ Hdr : Type} (E : Env σ Hdr) (w : σ) (handle : hg_handle)
    (pd : hg_private_data σ Hdr) (op : hg_op_t) (cb : hg_proc_cb_t σ) (struct_ptr : Ptr) :
    hg_return_t × σ :=
  codec_pass E w (proc_of pd op) cb
    ((core_buf E handle op).2.1 + E.hg_header_get_size op)
    (size_sub E (core_buf E handle op).2.2 (E.hg_header_get_size op))
    .HG_ENCODE struct_ptr

/-- Checksum step of `hg_set_struct`: the code of `hg_proc_checksum_get` after
the pass over the user struct and the hash it leaves in the header scratch
(`HG_SUCCESS` and the hash of the reset header in a build without
checksums). -/
def set_checksum {σ Hdr : Type} (E : Env σ Hdr) (w : σ) (handle : hg_handle)
    (pd : hg_private_data σ Hdr) (op : hg_op_t) (cb : hg_proc_cb_t σ) (struct_ptr : Ptr) :
    hg_return_t × Nat :=
  if E.has_checksums then
    E.hg_proc_checksum_get (set_pass E w handle pd op cb struct_ptr).2 (proc_of pd op)
      (E.hash_payload op (E.hg_header_reset pd.hg_header op))
  else (.HG_SUCCESS, E.hash_payload op (E.hg_header_reset pd.hg_header op))

/-- Auxiliary buffer the codec reports once the user struct is encoded
(`hg_proc_get_extra_buf` at line 542), `0` when it reports none. -/
def set_extra_buf {σ Hdr : Type} (E : Env σ Hdr) (w : σ) (handle : hg_handle)
    (pd : hg_private_data σ Hdr) (op : hg_op_t) (cb : hg_proc_cb_t σ) (struct_ptr : Ptr) :
    Ptr :=
  E.hg_proc_get_extra_buf (set_pass E w handle pd op cb struct_ptr).2 (proc_of pd op)

/-- Bytes the codec has used once the user struct is encoded
(`hg_proc_get_size_used` at line 552). -/
def set_size_used {σ Hdr : Type} (E : Env σ Hdr) (w : σ) (handle : hg_handle)
    (pd : hg_private_data σ Hdr) (op : hg_op_t) (cb : hg_proc_cb_t σ) (struct_ptr : Ptr) :
    hg_size_t :=
  E.hg_proc_get_size_used (set_pass E w handle pd op cb struct_ptr).2 (proc_of pd op)

/-- Bulk descriptor creation of the spill path of `hg_set_struct`: the proc
is told the auxiliary buffer is no longer its own, then `HG_Bulk_create` is
called, read-only, over that buffer and the size used. -/
def set_bulk {σ Hdr : Type} (E : Env σ Hdr) (w : σ) (handle : hg_handle)
    (pd : hg_private_data σ Hdr) (op : hg_op_t) (cb : hg_proc_cb_t σ) (struct_ptr : Ptr) :
    hg_return_t × σ × hg_bulk_t :=
  E.HG_Bulk_create
    (E.hg_proc_set_extra_buf_is_mine (set_pass E w handle pd op cb struct_ptr).2
      (proc_of pd op) true)
    handle.info.hg_class
    (set_extra_buf E w handle pd op cb struct_ptr)
    (set_size_used E w handle pd op cb struct_ptr)
    .HG_BULK_READ_ONLY pd.extra_bulk_handle

/-- Descriptor pass of the spill path of `hg_set_struct`: the proc is reset
over the eager buffer past the header, the bulk handle is encoded and the proc
is flushed.  The code is that of the first step that fails. -/
def set_desc {σ Hdr : Type} (E : Env σ Hdr) (w : σ) (handle : hg_handle)
    (pd : hg_private_data σ Hdr) (op : hg_op_t) (cb : hg_proc_cb_t σ) (struct_ptr : Ptr) :
    hg_return_t × σ :=
  let r := E.hg_proc_reset (set_bulk E w handle pd op cb struct_ptr).2.1 (proc_of pd op)
    ((core_buf E handle op).2.1 + E.hg_header_get_size op)
    (size_sub E (core_buf E handle op).2.2 (E.hg_header_get_size op)) .HG_ENCODE
  if r.1 ≠ .HG_SUCCESS then r else
  let k := E.hg_proc_hg_bulk_t r.2 (proc_of pd op)
    (set_bulk E w handle pd op cb struct_ptr).2.2
  if k.1 ≠ .HG_SUCCESS then (k.1, k.2.1) else
  E.hg_proc_flush k.2.1 (proc_of pd op)

/-- World after the last flush of the codec in `hg_set_struct`: after the
descriptor pass in the spill path, after the pass over the user struct
otherwise. -/
def set_flushed {σ Hdr : Type} (E : Env σ Hdr) (w : σ) (handle : hg_handle)
    (pd : hg_private_data σ Hdr) (op : hg_op_t) (cb : hg_proc_cb_t σ) (struct_ptr : Ptr) :
    σ :=
  if set_extra_buf E w handle pd op cb struct_ptr ≠ 0 then
    (set_desc E w handle pd op cb struct_ptr).2
  else (set_pass E w handle pd op cb struct_ptr).2

/-- Private data of `hg_set_struct` once the checksum step is done: the header
scratch has been reset and, in a build with checksums, holds the payload
hash. -/
def priv_hashed {σ Hdr : Type} (E : Env σ Hdr) (w : σ) (handle : hg_handle)
    (pd : hg_private_data σ Hdr) (op : hg_op_t) (cb : hg_proc_cb_t σ) (struct_ptr : Ptr) :
    hg_private_data σ Hdr :=
  let hashed := E.set_hash_payload op (E.hg_header_reset pd.hg_header op)
    (set_checksum E w handle pd op cb struct_ptr).2
  if E.has_checksums then { pd with hg_header := hashed }
  else { pd with hg_header := E.hg_header_reset pd.hg_header op }

/-- Private data of `hg_set_struct` once the descriptor is encoded in the
spill path: the slot holds the auxiliary buffer, the size used and the bulk
handle as `hg_proc_hg_bulk_t` leaves it. -/
def priv_spilled {σ Hdr : Type} (E : Env σ Hdr) (w : σ) (handle : hg_handle)
    (pd : hg_private_data σ Hdr) (op : hg_op_t) (cb : hg_proc_cb_t σ) (struct_ptr : Ptr) :
    hg_private_data σ Hdr :=
  { priv_hashed E w handle pd op cb struct_ptr with
    extra_bulk_buf := set_extra_buf E w handle pd op cb struct_ptr
    extra_bulk_buf_size := set_size_used E w handle pd op cb struct_ptr
    extra_bulk_handle :=
      (E.hg_proc_hg_bulk_t
        (E.hg_proc_reset (set_bulk E w handle pd op cb struct_ptr).2.1 (proc_of pd op)
          ((core_buf E handle op).2.1 + E.hg_header_get_size op)
          (size_sub E (core_buf E handle op).2.2 (E.hg_header_get_size op)) .HG_ENCODE).2
        (proc_of pd op) (set_bulk E w handle pd op cb struct_ptr).2.2).2.2 }

/-- The extra-buffer slot of the private data: pointer, size and bulk
handle. -/
def spill_slot {σ Hdr : Type} (pd : hg_private_data σ Hdr) : Ptr × hg_size_t × hg_bulk_t :=
  (pd.extra_bulk_buf, pd.extra_bulk_buf_size, pd.extra_bulk_handle)

/-- Header `hg_set_struct` encodes for direction `op`: the scratch reset for
`op`, holding the payload hash `c` in a build with checksums. -/
def sent_header {σ Hdr : Type} (E : Env σ Hdr) (h0 : Hdr) (op : hg_op_t) (c : Nat) : Hdr :=
  if E.has_checksums then E.set_hash_payload op (E.hg_header_reset h0 op) c
  else E.hg_header_reset h0 op

/-- Laws of the collaborators under which a round trip is claimed, for a
codec `cb` and a direction `op`.  `rd w p n` reads the `n` bytes at `p` in
world `w`; `val w p` reads the user struct at `p`. -/
structure RoundTripLaws {σ Hdr S : Type} (E : Env σ Hdr) (rd : σ → Ptr → hg_size_t → List Nat)
    (val : σ → Ptr → S) (cb : hg_proc_cb_t σ) (op : hg_op_t) : Prop where
  /-- Encoding a header writes the header bytes only: the bytes past the
  header are left as they are. -/
  header_writes : ∀ (w : σ) (buf : Ptr) (n : hg_size_t) (h0 : Hdr) (c : Nat) (m : hg_size_t),
    rd (E.hg_header_proc .HG_ENCODE w buf n (sent_header E h0 op c)).2.1
        (buf + E.hg_header_get_size op) m =
      rd w (buf + E.hg_header_get_size op) m
  /-- Decoding a header changes no byte. -/
  header_reads : ∀ (v : σ) (buf : Ptr) (n : hg_size_t) (hdr : Hdr) (p : Ptr) (m : hg_size_t),
    rd (E.hg_header_proc .HG_DECODE v buf n hdr).2.1 p m = rd v p m
  /-- Header round trip: the header bytes of a successful encode decode
  successfully, from a buffer of the same size, to the payload hash that was
  encoded. -/
  header_round_trip : ∀ (w : σ) (buf : Ptr) (n : hg_size_t) (h0 : Hdr) (c : Nat),
    (E.hg_header_proc .HG_ENCODE w buf n (sent_header E h0 op c)).1 = .HG_SUCCESS →
    ∀ (v : σ) (rbuf : Ptr) (q0 : Hdr),
      rd v rbuf (E.hg_header_get_size op) =
        rd (E.hg_header_proc .HG_ENCODE w buf n (sent_header E h0 op c)).2.1 buf
          (E.hg_header_get_size op) →
      (E.hg_header_proc .HG_DECODE v rbuf n (E.hg_header_reset q0 op)).1 = .HG_SUCCESS ∧
      (E.has_checksums = true →
        E.hash_payload op
          (E.hg_header_proc .HG_DECODE v rbuf n (E.hg_header_reset q0 op)).2.2 = c)
  /-- Lawful codec: a decode pass, by a proc that is not `HG_PROC_NULL`, over
  the bytes a successful encode pass has produced (in the bound region when
  they fit it, in the auxiliary buffer otherwise) succeeds, yields the struct
  that was encoded and ends with the checksum the encode pass ended with. -/
  codec_round_trip : ∀ (w : σ) (proc : hg_proc_t) (buf : Ptr) (n : hg_size_t) (p : Ptr),
    p ≠ 0 →
    (codec_pass E w proc cb buf n .HG_ENCODE p).1 = .HG_SUCCESS →
    ∀ (v : σ) (rproc : hg_proc_t) (rbuf : Ptr) (rn : hg_size_t) (rp : Ptr),
      rproc ≠ 0 → rp ≠ 0 →
      rn = (if E.hg_proc_get_extra_buf (codec_pass E w proc cb buf n .HG_ENCODE p).2 proc ≠ 0
        then E.hg_proc_get_size_used (codec_pass E w proc cb buf n .HG_ENCODE p).2 proc
        else n) →
      rd v rbuf (E.hg_proc_get_size_used (codec_pass E w proc cb buf n .HG_ENCODE p).2 proc) =
        rd (codec_pass E w proc cb buf n .HG_ENCODE p).2
          (if E.hg_proc_get_extra_buf (codec_pass E w proc cb buf n .HG_ENCODE p).2 proc ≠ 0
            then E.hg_proc_get_extra_buf (codec_pass E w proc cb buf n .HG_ENCODE p).2 proc
            else buf)
          (E.hg_proc_get_size_used (codec_pass E w proc cb buf n .HG_ENCODE p).2 proc) →
      (codec_pass E v rproc cb rbuf rn .HG_DECODE rp).1 = .HG_SUCCESS ∧
      val (codec_pass E v rproc cb rbuf rn .HG_DECODE rp).2 rp = val w p ∧
      (∀ old : Nat,
        (E.hg_proc_checksum_get (codec_pass E w proc cb buf n .HG_ENCODE p).2 proc old).1
          = .HG_SUCCESS →
        E.hg_proc_checksum_verify (codec_pass E v rproc cb rbuf rn .HG_DECODE rp).2 rproc
          (E.hg_proc_checksum_get (codec_pass E w proc cb buf n .HG_ENCODE p).2 proc old).2
          = .HG_SUCCESS)
  /-- Ownership of the spill: once the proc has been told the auxiliary buffer
  is no longer its own, a successful descriptor pass over the eager buffer and
  the header encode that follows leave the bytes of that buffer as they
  are. -/
  spill_kept : ∀ (w : σ) (handle : hg_handle) (pd : hg_private_data σ Hdr) (p : Ptr)
    (n : hg_size_t) (c : Nat),
    (set_pass E w handle pd op cb p).1 = .HG_SUCCESS →
    set_extra_buf E w handle pd op cb p ≠ 0 →
    (set_bulk E w handle pd op cb p).1 = .HG_SUCCESS →
    (set_desc E w handle pd op cb p).1 = .HG_SUCCESS →
    E.hg_proc_get_extra_buf (set_desc E w handle pd op cb p).2 (proc_of pd op) = 0 →
    rd (E.hg_header_proc .HG_ENCODE (set_desc E w handle pd op cb p).2
          (core_buf E handle op).2.1 n (sent_header E pd.hg_header op c)).2.1
        (set_extra_buf E w handle pd op cb p) (set_size_used E w handle pd op cb p) =
      rd (set_pass E w handle pd op cb p).2
        (set_extra_buf E w handle pd op cb p) (set_size_used E w handle pd op cb p)

/-- State of one handle between calls: the world, the core handle and its
private data. -/
structure HandleState (σ Hdr : Type) where
  world : σ
  handle : hg_handle
  priv : hg_private_data σ Hdr

/-- A call of the framing engine on a handle: `hg_get_struct` or
`hg_free_struct`, with the registration record, the op and the struct pointer
it is given. -/
inductive FramingCall (σ : Type)
  | get (pi : hg_proc_info σ) (op : hg_op_t) (struct_ptr : Ptr)
  | free (pi : hg_proc_info σ) (op : hg_op_t) (struct_ptr : Ptr)

/-- Runs one call on a handle state. -/
def run_call {σ Hdr : Type} (E : Env σ Hdr) (s : HandleState σ Hdr) :
    FramingCall σ → StructResult σ Hdr
  | .get pi op struct_ptr => hg_get_struct E s.world s.handle s.priv pi op struct_ptr
  | .free pi op struct_ptr => hg_free_struct E s.world s.handle s.priv pi op struct_ptr

/-- Runs a sequence of calls on a handle state, one after the other. -/
def run_calls {σ Hdr : Type} (E : Env σ Hdr) (s : HandleState σ Hdr) :
    List (FramingCall σ) → HandleState σ Hdr
  | [] => s
  | c :: cs =>
    run_calls E ⟨(run_call E s c).world, (run_call E s c).handle, (run_call E s c).priv⟩ cs

/-- Number of `hg_get_struct` calls of a sequence that return `HG_SUCCESS`. -/
def gets_done {σ Hdr : Type} (E : Env σ Hdr) (s : HandleState σ Hdr) :
    List (FramingCall σ) → Nat
  | [] => 0
  | c :: cs =>
    (match c with
      | .get _ _ _ => if (run_call E s c).ret = .HG_SUCCESS then 1 else 0
      | .free _ _ _ => 0) +
    gets_done E ⟨(run_call E s c).world, (run_call E s c).handle, (run_call E s c).priv⟩ cs

/-- Number of `hg_free_struct` calls of a sequence that return `HG_SUCCESS`. -/
def frees_done {σ Hdr : Type} (E : Env σ Hdr) (s : HandleState σ Hdr) :
    List (FramingCall σ) → Nat
  | [] => 0
  | c :: cs =>
    (match c with
      | .get _ _ _ => 0
      | .free _ _ _ => if (run_call E s c).ret = .HG_SUCCESS then 1 else 0) +
    frees_done E ⟨(run_call E s c).world, (run_call E s c).handle, (run_call E s c).priv⟩ cs

/-- Well-formed slot: without a buffer there is neither a size nor a bulk
handle. -/
def slot_wf {σ Hdr : Type} (pd : hg_private_data σ Hdr) : Prop :=
  pd.extra_bulk_buf = 0 → pd.extra_bulk_buf_size = 0 ∧ pd.extra_bulk_handle = HG_BULK_NULL

/-- Two private data blocks that differ at most in the header scratch and in
the extra-buffer slot. -/
def same_stash {σ Hdr : Type} (a b : hg_private_data σ Hdr) : Prop :=
  a.callback = b.callback ∧ a.arg = b.arg ∧ a.in_proc = b.in_proc ∧
    a.out_proc = b.out_proc ∧ a.extra_bulk_transfer_cb = b.extra_bulk_transfer_cb

/-! ## Vocabulary of the later statements -/

/-- A free callback of the reference instance: it records the data it is
handed in `freed`. -/
def ref_free_cb : Ptr → RefWorld → RefWorld := fun data w =>
  { w with freed := w.freed ++ [data] }

/-- A class of the reference instance whose registration of RPC id `7` carries
the user data `900` with the free callback `ref_free_cb`. -/
def refDataClass : hg_class RefWorld where
  rpc_data := fun id =>
    if id = 7 then some ⟨some ref_codec2, some ref_codec2, false, 900, some ref_free_cb⟩
    else none
  rpc_cb := fun id => if id = 7 then some none else none

/-- The numbering of `hg_return_t` in the reference instance: the constants
are numbered from `0` in the order of their declaration. -/
def ref_return_value : hg_return_t → Int
  | .HG_SUCCESS => 0
  | .HG_NA_ERROR => 1
  | .HG_TIMEOUT => 2
  | .HG_INVALID_PARAM => 3
  | .HG_SIZE_ERROR => 4
  | .HG_NOMEM_ERROR => 5
  | .HG_PROTOCOL_ERROR => 6
  | .HG_NO_MATCH => 7
  | .HG_CHECKSUM_ERROR => 8
  | .HG_CANCELED => 9
  | .HG_OTHER_ERROR => 10

/-- The identifier of an error code, as text. -/
def hg_return_name : hg_return_t → String
  | .HG_SUCCESS => "HG_SUCCESS"
  | .HG_NA_ERROR => "HG_NA_ERROR"
  | .HG_TIMEOUT => "HG_TIMEOUT"
  | .HG_INVALID_PARAM => "HG_INVALID_PARAM"
  | .HG_SIZE_ERROR => "HG_SIZE_ERROR"
  | .HG_NOMEM_ERROR => "HG_NOMEM_ERROR"
  | .HG_PROTOCOL_ERROR => "HG_PROTOCOL_ERROR"
  | .HG_NO_MATCH => "HG_NO_MATCH"
  | .HG_CHECKSUM_ERROR => "HG_CHECKSUM_ERROR"
  | .HG_CANCELED => "HG_CANCELED"
  | .HG_OTHER_ERROR => "HG_OTHER_ERROR"

/-- Descriptor pass of `hg_get_extra_input`: the input proc is reset over the
eager buffer past the header, in decode mode, the bulk handle is decoded into
the slot and the proc is flushed.  The code is that of the first step that
fails; the handle is the one the slot holds afterwards. -/
def extra_desc {σ Hdr : Type} (E : Env σ Hdr) (w : σ) (handle : hg_handle)
    (pd : hg_private_data σ Hdr) : hg_return_t × σ × hg_bulk_t :=
  let r := E.hg_proc_reset w pd.in_proc
    ((E.HG_Core_get_input handle).2.1 + E.hg_header_get_size .HG_INPUT)
    (size_sub E (E.HG_Core_get_input handle).2.2 (E.hg_header_get_size .HG_INPUT)) .HG_DECODE
  if r.1 ≠ .HG_SUCCESS then (r.1, r.2, pd.extra_bulk_handle) else
  let k := E.hg_proc_hg_bulk_t r.2 pd.in_proc pd.extra_bulk_handle
  if k.1 ≠ .HG_SUCCESS then (k.1, k.2.1, k.2.2) else
  ((E.hg_proc_flush k.2.1 pd.in_proc).1, (E.hg_proc_flush k.2.1 pd.in_proc).2, k.2.2)

/-- Size the decoded descriptor advertises, `HG_Bulk_get_size` at line 715. -/
def extra_size {σ Hdr : Type} (E : Env σ Hdr) (w : σ) (handle : hg_handle)
    (pd : hg_private_data σ Hdr) : hg_size_t :=
  E.HG_Bulk_get_size (extra_desc E w handle pd).2.1 (extra_desc E w handle pd).2.2

/-- Allocation of the local buffer, `hg_mem_aligned_alloc` at line 717. -/
def extra_alloc {σ Hdr : Type} (E : Env σ Hdr) (w : σ) (handle : hg_handle)
    (pd : hg_private_data σ Hdr) : Ptr × σ :=
  E.hg_mem_aligned_alloc (extra_desc E w handle pd).2.1 (E.hg_mem_get_page_size w)
    (extra_size E w handle pd)

/-- Local bulk handle over the buffer, `HG_Bulk_create` at line 725. -/
def extra_local {σ Hdr : Type} (E : Env σ Hdr) (w : σ) (handle : hg_handle)
    (pd : hg_private_data σ Hdr) : hg_return_t × σ × hg_bulk_t :=
  E.HG_Bulk_create (extra_alloc E w handle pd).2 handle.info.hg_class
    (extra_alloc E w handle pd).1 (extra_size E w handle pd) .HG_BULK_READWRITE HG_BULK_NULL

/-- The world of a loop-back run of the reference instance: the origin has
encoded the two-byte struct `5 6` as a request through a 3-byte eager buffer,
spilling it to `104` under bulk handle `1`, and the target reads the same
memory. -/
def refLoopWorld : RefWorld :=
  (hg_set_struct (refEnv true false) (refWorld0 5 6 0 0) (refHandle 3) refPriv
    (refInfo (some ref_codec2) false) .HG_INPUT 1000 0 false).world

/-- The free pass of `hg_free_struct`: the proc of the direction is reset for
`HG_FREE` without a buffer, then the user codec runs over the struct. -/
def free_pass {σ Hdr : Type} (E : Env σ Hdr) (w : σ) (pd : hg_private_data σ Hdr)
    (op : hg_op_t) (cb : hg_proc_cb_t σ) (struct_ptr : Ptr) : hg_return_t × σ :=
  let r := E.hg_proc_reset w (proc_of pd op) 0 0 .HG_FREE
  if r.1 ≠ .HG_SUCCESS then r else cb r.2 (proc_of pd op) struct_ptr

/-- A call on the queue by its only thread. -/
inductive queue_op
  | push (entry : Ptr)
  | pop_sc
  | pop_mc

/-- What a call on the queue returns: the code of a push or the entry of a
pop (`0` for `NULL`). -/
inductive queue_result
  | pushed (ret : hg_util_return)
  | popped (entry : Ptr)
  deriving DecidableEq

/-- Runs one call on the queue; `none` when the call never returns. -/
def run_queue_op (q : hg_atomic_queue) : queue_op → Option (queue_result × hg_atomic_queue)
  | .push entry => (hg_atomic_queue_push q entry).map (fun r => (.pushed r.1, r.2))
  | .pop_sc => some (.popped (hg_atomic_queue_pop_sc q).1, (hg_atomic_queue_pop_sc q).2)
  | .pop_mc => (hg_atomic_queue_pop_mc q).map (fun r => (.popped r.1, r.2))

/-- Runs a sequence of calls on the queue, one after the other, and collects
what they return; `none` when one of them never returns. -/
def run_queue (q : hg_atomic_queue) : List queue_op → Option (List queue_result × hg_atomic_queue)
  | [] => some ([], q)
  | op :: ops =>
    match run_queue_op q op with
    | none => none
    | some (r, q1) =>
      match run_queue q1 ops with
      | none => none
      | some (rs, q2) => some (r :: rs, q2)

/-- A bounded first-in first-out list with a drop counter, the behaviour the
documentation of the queue describes: a push appends the entry when fewer than
`N - 1` entries are queued and is otherwise dropped; a pop takes the oldest
entry, and returns `NULL` when there is none. -/
def fifo_step (N : Nat) (s : List Ptr × Nat) : queue_op → queue_result × (List Ptr × Nat)
  | .push entry =>
    if s.1.length < N - 1 then (.pushed .HG_UTIL_SUCCESS, (s.1 ++ [entry], s.2))
    else (.pushed .HG_UTIL_FAIL, (s.1, s.2 + 1))
  | _ =>
    match s.1 with
    | [] => (.popped 0, s)
    | x :: xs => (.popped x, (xs, s.2))

/-- Runs a sequence of calls on the bounded list. -/
def fifo_run (N : Nat) (s : List Ptr × Nat) : List queue_op → List queue_result × (List Ptr × Nat)
  | [] => ([], s)
  | op :: ops =>
    ((fifo_step N s op).1 :: (fifo_run N (fifo_step N s op).2 ops).1,
      (fifo_run N (fifo_step N s op).2 ops).2)

/-- Number of pushes that succeeded. -/
def pushes_done (rs : List queue_result) : Nat :=
  rs.countP (fun r => r = .pushed .HG_UTIL_SUCCESS)

/-- Number of pops that returned an entry. -/
def pops_done (rs : List queue_result) : Nat :=
  rs.countP (fun r => match r with
    | .popped entry => entry ≠ 0
    | .pushed _ => false)

/-- The entries a sequence of calls pushes. -/
def pushed_entries : List queue_op → List Ptr
  | [] => []
  | .push entry :: ops => entry :: pushed_entries ops
  | _ :: ops => pushed_entries ops

/-- A queue of size `N` at rest and empty: the sizes and masks are those of
the allocation and the four indices are at the same slot. -/
def queue_empty_at (N : Nat) (q : hg_atomic_queue) : Prop :=
  q.prod_size = N ∧ q.cons_size = N ∧ q.prod_mask = N - 1 ∧ q.cons_mask = N - 1 ∧
  q.prod_head = q.prod_tail ∧ q.cons_head = q.cons_tail ∧ q.cons_tail = q.prod_tail ∧
  q.prod_tail < N ∧ q.drops < 2 ^ 64

/-- A queue of size `N` at rest that holds the entries `L`, oldest first, and
has dropped `d` pushes. -/
def queue_holds (N : Nat) (q : hg_atomic_queue) (L : List Ptr) (d : Nat) : Prop :=
  q.prod_size = N ∧ q.prod_mask = N - 1 ∧ q.cons_mask = N - 1 ∧
  q.prod_head = q.prod_tail ∧ q.cons_head = q.cons_tail ∧
  q.prod_tail < N ∧ q.cons_tail < N ∧
  L = (List.range ((q.prod_tail + N - q.cons_tail) % N)).map
    (fun i => q.ring ((q.cons_tail + i) % N)) ∧
  q.drops = d % 2 ^ 64

/-- A queue of size `4` at rest and empty, its indices at slot `0`. -/
def refQueue : hg_atomic_queue where
  prod_head := 0
  prod_tail := 0
  prod_size := 4
  prod_mask := 3
  drops := 0
  cons_head := 0
  cons_tail := 0
  cons_size := 4
  cons_mask := 3
  ring := fun _ => 0

/-! ## Shared lemmas -/

/-- Past its switch, `hg_get_struct` is its decoding body. -/
lemma hg_get_struct_eq_decode {σ Hdr : Type} (E : Env σ Hdr) (w : σ) (handle : hg_handle)
    (pd : hg_private_data σ Hdr) (pi : hg_proc_info σ) (op : hg_op_t) (struct_ptr : Ptr)
    (hop : valid_op pi op) (hbuf : (core_buf E handle op).1 = .HG_SUCCESS) :
    hg_get_struct E w handle pd pi op struct_ptr =
      hg_get_struct_decode E w handle pd op struct_ptr (E.hg_header_get_size op)
        (proc_of pd op) (proc_cb_of pi op) (core_buf E handle op).2.1
        (core_buf E handle op).2.2 := by
  rcases hop with h | ⟨h, hn⟩
  · subst h
    simp only [core_buf] at hbuf
    simp [hg_get_struct, core_buf, proc_of, proc_cb_of, hbuf]
  · subst h
    simp only [core_buf] at hbuf
    simp [hg_get_struct, core_buf, proc_of, proc_cb_of, hbuf, hn]

/-- Past its switch, `hg_set_struct` is its encoding body. -/
lemma hg_set_struct_eq_encode {σ Hdr : Type} (E : Env σ Hdr) (w : σ) (handle : hg_handle)
    (pd : hg_private_data σ Hdr) (pi : hg_proc_info σ) (op : hg_op_t) (struct_ptr : Ptr)
    (payload_size : hg_size_t) (more_data : Bool)
    (hop : valid_op pi op) (hbuf : (core_buf E handle op).1 = .HG_SUCCESS) :
    hg_set_struct E w handle pd pi op struct_ptr payload_size more_data =
      hg_set_struct_encode E w handle pd op struct_ptr payload_size more_data
        (E.hg_header_get_size op) (proc_of pd op) (proc_cb_of pi op)
        (core_buf E handle op).2.1 (core_buf E handle op).2.2 := by
  rcases hop with h | ⟨h, hn⟩
  · subst h
    simp only [core_buf] at hbuf
    simp [hg_set_struct, core_buf, proc_of, proc_cb_of, hbuf]
  · subst h
    simp only [core_buf] at hbuf
    simp [hg_set_struct, core_buf, proc_of, proc_cb_of, hbuf, hn]

/-- The decoding body of `hg_get_struct` either fails and leaves the handle as
it is, or succeeds and has called `HG_Core_ref_incr` once. -/
lemma hg_get_struct_decode_handle {σ Hdr : Type} (E : Env σ Hdr) (w : σ)
    (handle : hg_handle) (pd : hg_private_data σ Hdr) (op : hg_op_t) (struct_ptr : Ptr)
    (header_offset : hg_size_t) (proc : hg_proc_t) (proc_cb : Option (hg_proc_cb_t σ))
    (buf : Ptr) (buf_size : hg_size_t) :
    let r := hg_get_struct_decode E w handle pd op struct_ptr header_offset proc proc_cb
      buf buf_size
    (r.ret = .HG_SUCCESS ∧ r.handle = { handle with ref_count := handle.ref_count + 1 }) ∨
    (r.ret ≠ .HG_SUCCESS ∧ r.handle = handle) := by
  intro r
  cases proc_cb with
  | none => right; simp [r, hg_get_struct_decode]
  | some cb =>
    simp only [r, hg_get_struct_decode]
    split_ifs <;> simp_all [HG_Core_ref_incr]

/-- The function `hg_get_struct` either fails and leaves the handle as it is,
or succeeds and has called `HG_Core_ref_incr` once. -/
lemma hg_get_struct_handle {σ Hdr : Type} (E : Env σ Hdr) (w : σ)
    (handle : hg_handle) (pd : hg_private_data σ Hdr) (pi : hg_proc_info σ) (op : hg_op_t)
    (struct_ptr : Ptr) :
    let r := hg_get_struct E w handle pd pi op struct_ptr
    (r.ret = .HG_SUCCESS ∧ r.handle = { handle with ref_count := handle.ref_count + 1 }) ∨
    (r.ret ≠ .HG_SUCCESS ∧ r.handle = handle) := by
  intro r
  cases op with
  | HG_UNDEF => right; simp [r, hg_get_struct]
  | HG_INPUT =>
    simp only [r, hg_get_struct]
    split_ifs with h
    · right; exact ⟨h, rfl⟩
    · exact hg_get_struct_decode_handle E w handle pd _ struct_ptr _ _ _ _ _
  | HG_OUTPUT =>
    simp only [r, hg_get_struct]
    split_ifs with h0 h
    · right; simp
    · right; exact ⟨h, rfl⟩
    · exact hg_get_struct_decode_handle E w handle pd _ struct_ptr _ _ _ _ _

/-- The function `hg_free_struct` either fails and leaves the handle as it is,
or succeeds and has called `HG_Core_destroy` once. -/
lemma hg_free_struct_handle {σ Hdr : Type} (E : Env σ Hdr) (w : σ)
    (handle : hg_handle) (pd : hg_private_data σ Hdr) (pi : hg_proc_info σ) (op : hg_op_t)
    (struct_ptr : Ptr) :
    let r := hg_free_struct E w handle pd pi op struct_ptr
    (r.ret = .HG_SUCCESS ∧ r.handle = { handle with ref_count := handle.ref_count - 1 }) ∨
    (r.ret ≠ .HG_SUCCESS ∧ r.handle = handle) := by
  intro r
  have body : ∀ (proc : hg_proc_t) (proc_cb : Option (hg_proc_cb_t σ)),
      ((hg_free_struct_free E w handle pd struct_ptr proc proc_cb).ret = .HG_SUCCESS ∧
        (hg_free_struct_free E w handle pd struct_ptr proc proc_cb).handle =
          { handle with ref_count := handle.ref_count - 1 }) ∨
      ((hg_free_struct_free E w handle pd struct_ptr proc proc_cb).ret ≠ .HG_SUCCESS ∧
        (hg_free_struct_free E w handle pd struct_ptr proc proc_cb).handle = handle) := by
    intro proc proc_cb
    cases proc_cb with
    | none => right; simp [hg_free_struct_free]
    | some cb =>
      simp only [hg_free_struct_free, HG_Core_destroy]
      split_ifs <;> simp_all
  cases op with
  | HG_UNDEF => right; simp [r, hg_free_struct]
  | HG_INPUT => exact body _ _
  | HG_OUTPUT => exact body _ _

/-- A codec pass that succeeds has succeeded at each of its three steps and
ends in the world of its flush. -/
lemma codec_pass_success {σ Hdr : Type} (E : Env σ Hdr) (w : σ) (proc : hg_proc_t)
    (cb : hg_proc_cb_t σ) (buf : Ptr) (n : hg_size_t) (mode : hg_proc_op_t) (p : Ptr)
    (h : (codec_pass E w proc cb buf n mode p).1 = .HG_SUCCESS) :
    (E.hg_proc_reset w proc buf n mode).1 = .HG_SUCCESS ∧
    (cb (E.hg_proc_reset w proc buf n mode).2 proc p).1 = .HG_SUCCESS ∧
    (E.hg_proc_flush (cb (E.hg_proc_reset w proc buf n mode).2 proc p).2 proc).1
      = .HG_SUCCESS ∧
    codec_pass E w proc cb buf n mode p =
      E.hg_proc_flush (cb (E.hg_proc_reset w proc buf n mode).2 proc p).2 proc := by
  simp only [codec_pass] at h ⊢
  split_ifs at h ⊢ with h1 h2
  · exact absurd h h1
  · exact absurd h h2
  · exact ⟨not_not.mp h1, not_not.mp h2, h, rfl⟩

/-- Fit path of `hg_set_struct`: when the pass over the user struct and the
checksum step succeed and the codec reports no auxiliary buffer, what remains
is the header encode. -/
lemma hg_set_struct_encode_fit {σ Hdr : Type} (E : Env σ Hdr) (w : σ) (handle : hg_handle)
    (pd : hg_private_data σ Hdr) (op : hg_op_t) (struct_ptr : Ptr)
    (payload_size : hg_size_t) (more_data : Bool) (cb : hg_proc_cb_t σ)
    (hptr : struct_ptr ≠ 0)
    (hp : (set_pass E w handle pd op cb struct_ptr).1 = .HG_SUCCESS)
    (hc : (set_checksum E w handle pd op cb struct_ptr).1 = .HG_SUCCESS)
    (he : set_extra_buf E w handle pd op cb struct_ptr = 0) :
    hg_set_struct_encode E w handle pd op struct_ptr payload_size more_data
        (E.hg_header_get_size op) (proc_of pd op) (some cb)
        (core_buf E handle op).2.1 (core_buf E handle op).2.2 =
      hg_set_struct_header E (set_pass E w handle pd op cb struct_ptr).2
        (priv_hashed E w handle pd op cb struct_ptr) payload_size more_data
        (E.hg_header_get_size op) (proc_of pd op)
        ((core_buf E handle op).2.1 + E.hg_header_get_size op)
        (size_sub E (core_buf E handle op).2.2 (E.hg_header_get_size op)) := by
  obtain ⟨h1, h2, h3, h4⟩ := codec_pass_success E w _ cb _ _ _ _ hp
  simp only [set_checksum, set_extra_buf, priv_hashed, set_pass] at hc he ⊢
  rw [h4] at hc he ⊢
  simp only [hg_set_struct_encode, if_neg hptr, h1, h2, h3, ne_eq, not_true_eq_false,
    if_false]
  cases hk : E.has_checksums
  · simp only [hk, Bool.false_eq_true, if_false] at hc ⊢
    simp only [he, ne_eq, not_true_eq_false, if_false]
  · simp only [hk, if_true] at hc ⊢
    simp only [hc, he, ne_eq, not_true_eq_false, if_false]

/-- XDR path of `hg_set_struct`: when the pass over the user struct and the
checksum step succeed and the codec reports an auxiliary buffer in an XDR
build, the call stops with `HG_SIZE_ERROR`. -/
lemma hg_set_struct_encode_xdr {σ Hdr : Type} (E : Env σ Hdr) (w : σ) (handle : hg_handle)
    (pd : hg_private_data σ Hdr) (op : hg_op_t) (struct_ptr : Ptr)
    (payload_size : hg_size_t) (more_data : Bool) (cb : hg_proc_cb_t σ)
    (hptr : struct_ptr ≠ 0) (hxdr : E.has_xdr = true)
    (hp : (set_pass E w handle pd op cb struct_ptr).1 = .HG_SUCCESS)
    (hc : (set_checksum E w handle pd op cb struct_ptr).1 = .HG_SUCCESS)
    (he : set_extra_buf E w handle pd op cb struct_ptr ≠ 0) :
    hg_set_struct_encode E w handle pd op struct_ptr payload_size more_data
        (E.hg_header_get_size op) (proc_of pd op) (some cb)
        (core_buf E handle op).2.1 (core_buf E handle op).2.2 =
      ⟨.HG_SIZE_ERROR, (set_pass E w handle pd op cb struct_ptr).2,
        priv_hashed E w handle pd op cb struct_ptr, payload_size, more_data⟩ := by
  obtain ⟨h1, h2, h3, h4⟩ := codec_pass_success E w _ cb _ _ _ _ hp
  simp only [set_checksum, set_extra_buf, priv_hashed, set_pass] at hc he ⊢
  rw [h4] at hc he ⊢
  simp only [hg_set_struct_encode, if_neg hptr, h1, h2, h3, ne_eq, not_true_eq_false,
    if_false]
  cases hk : E.has_checksums
  · simp only [hk, Bool.false_eq_true, if_false] at hc ⊢
    simp [he, hxdr]
  · simp only [hk, if_true] at hc ⊢
    simp [hc, he, hxdr]

/-- Spill path of `hg_set_struct`: when every step of the more-data
sub-protocol succeeds, what remains is the header encode, with `more_data`
set. -/
lemma hg_set_struct_encode_spill {σ Hdr : Type} (E : Env σ Hdr) (w : σ) (handle : hg_handle)
    (pd : hg_private_data σ Hdr) (op : hg_op_t) (struct_ptr : Ptr)
    (payload_size : hg_size_t) (more_data : Bool) (cb : hg_proc_cb_t σ)
    (hptr : struct_ptr ≠ 0) (hxdr : E.has_xdr = false)
    (hp : (set_pass E w handle pd op cb struct_ptr).1 = .HG_SUCCESS)
    (hc : (set_checksum E w handle pd op cb struct_ptr).1 = .HG_SUCCESS)
    (he : set_extra_buf E w handle pd op cb struct_ptr ≠ 0)
    (hb : (set_bulk E w handle pd op cb struct_ptr).1 = .HG_SUCCESS)
    (hd : (set_desc E w handle pd op cb struct_ptr).1 = .HG_SUCCESS)
    (hfit : E.hg_proc_get_extra_buf (set_desc E w handle pd op cb struct_ptr).2
      (proc_of pd op) = 0) :
    hg_set_struct_encode E w handle pd op struct_ptr payload_size more_data
        (E.hg_header_get_size op) (proc_of pd op) (some cb)
        (core_buf E handle op).2.1 (core_buf E handle op).2.2 =
      hg_set_struct_header E (set_desc E w handle pd op cb struct_ptr).2
        (priv_spilled E w handle pd op cb struct_ptr) payload_size true
        (E.hg_header_get_size op) (proc_of pd op)
        ((core_buf E handle op).2.1 + E.hg_header_get_size op)
        (size_sub E (core_buf E handle op).2.2 (E.hg_header_get_size op)) := by
  obtain ⟨h1, h2, h3, h4⟩ := codec_pass_success E w _ cb _ _ _ _ hp
  have hd1 : (E.hg_proc_reset (set_bulk E w handle pd op cb struct_ptr).2.1 (proc_of pd op)
      ((core_buf E handle op).2.1 + E.hg_header_get_size op)
      (size_sub E (core_buf E handle op).2.2 (E.hg_header_get_size op)) .HG_ENCODE).1
      = .HG_SUCCESS := by
    by_contra hx
    simp only [set_desc, ne_eq, hx, not_false_eq_true, if_true] at hd
  have hd2 : (E.hg_proc_hg_bulk_t
      (E.hg_proc_reset (set_bulk E w handle pd op cb struct_ptr).2.1 (proc_of pd op)
        ((core_buf E handle op).2.1 + E.hg_header_get_size op)
        (size_sub E (core_buf E handle op).2.2 (E.hg_header_get_size op)) .HG_ENCODE).2
      (proc_of pd op) (set_bulk E w handle pd op cb struct_ptr).2.2).1 = .HG_SUCCESS := by
    by_contra hx
    simp only [set_desc, ne_eq, hd1, not_true_eq_false, if_false, hx, not_false_eq_true,
      if_true] at hd
  have hd3 : set_desc E w handle pd op cb struct_ptr =
      E.hg_proc_flush (E.hg_proc_hg_bulk_t
        (E.hg_proc_reset (set_bulk E w handle pd op cb struct_ptr).2.1 (proc_of pd op)
          ((core_buf E handle op).2.1 + E.hg_header_get_size op)
          (size_sub E (core_buf E handle op).2.2 (E.hg_header_get_size op)) .HG_ENCODE).2
        (proc_of pd op) (set_bulk E w handle pd op cb struct_ptr).2.2).2.1 (proc_of pd op) := by
    simp only [set_desc, ne_eq, hd1, hd2, not_true_eq_false, if_false]
  rw [hd3] at hd hfit ⊢
  simp only [priv_spilled, set_bulk, set_size_used, set_checksum, set_extra_buf, priv_hashed,
    set_pass] at hc he hb hd hd1 hd2 hfit ⊢
  rw [h4] at hc he hb hd hd1 hd2 hfit ⊢
  simp only [hg_set_struct_encode, if_neg hptr, h1, h2, h3, ne_eq, not_true_eq_false,
    if_false, HG_Core_get_info]
  cases hk : E.has_checksums
  · simp only [hk, Bool.false_eq_true, if_false] at hc he hb hd hd1 hd2 hfit ⊢
    simp [he, hxdr, hb, hd, hd1, hd2, hfit]
  · simp only [hk, if_true] at hc he hb hd hd1 hd2 hfit ⊢
    simp [hc, he, hxdr, hb, hd, hd1, hd2, hfit]

/-- A header encode that succeeds leaves the `more_data` it was given and
reports the size used by the proc plus the header size. -/
lemma hg_set_struct_header_success {σ Hdr : Type} (E : Env σ Hdr) (w : σ)
    (pd : hg_private_data σ Hdr) (payload_size : hg_size_t) (more_data : Bool)
    (header_offset : hg_size_t) (proc : hg_proc_t) (buf : Ptr) (buf_size : hg_size_t)
    (h : (hg_set_struct_header E w pd payload_size more_data header_offset proc buf
      buf_size).ret = .HG_SUCCESS) :
    hg_set_struct_header E w pd payload_size more_data header_offset proc buf buf_size =
      ⟨.HG_SUCCESS,
        (E.hg_header_proc .HG_ENCODE w (buf - header_offset)
          (size_add E buf_size header_offset) pd.hg_header).2.1,
        { pd with hg_header := (E.hg_header_proc .HG_ENCODE w (buf - header_offset)
          (size_add E buf_size header_offset) pd.hg_header).2.2 },
        size_add E (E.hg_proc_get_size_used
          (E.hg_header_proc .HG_ENCODE w (buf - header_offset)
            (size_add E buf_size header_offset) pd.hg_header).2.1 proc) header_offset,
        more_data⟩ := by
  simp only [hg_set_struct_header] at h ⊢
  split_ifs at h ⊢ with h1
  · exact absurd h h1
  · simp [not_not.mp h1]

/-- A call of `hg_set_struct` that ran the codec and returned `HG_SUCCESS` went
through the fit path or through the whole spill path. -/
lemma hg_set_struct_encode_success {σ Hdr : Type} (E : Env σ Hdr) (w : σ) (handle : hg_handle)
    (pd : hg_private_data σ Hdr) (op : hg_op_t) (struct_ptr : Ptr)
    (payload_size : hg_size_t) (more_data : Bool) (cb : hg_proc_cb_t σ)
    (hptr : struct_ptr ≠ 0)
    (hr : (hg_set_struct_encode E w handle pd op struct_ptr payload_size more_data
        (E.hg_header_get_size op) (proc_of pd op) (some cb)
        (core_buf E handle op).2.1 (core_buf E handle op).2.2).ret = .HG_SUCCESS) :
    (set_pass E w handle pd op cb struct_ptr).1 = .HG_SUCCESS ∧
    (set_checksum E w handle pd op cb struct_ptr).1 = .HG_SUCCESS ∧
    (set_extra_buf E w handle pd op cb struct_ptr = 0 ∨
      (set_extra_buf E w handle pd op cb struct_ptr ≠ 0 ∧ E.has_xdr = false ∧
        (set_bulk E w handle pd op cb struct_ptr).1 = .HG_SUCCESS ∧
        (set_desc E w handle pd op cb struct_ptr).1 = .HG_SUCCESS ∧
        E.hg_proc_get_extra_buf (set_desc E w handle pd op cb struct_ptr).2
          (proc_of pd op) = 0)) := by
  simp only [set_pass, set_checksum, set_extra_buf, set_bulk, set_desc, set_size_used,
    codec_pass]
  simp only [hg_set_struct_encode, if_neg hptr, HG_Core_get_info] at hr
  generalize E.hg_proc_reset w (proc_of pd op)
    ((core_buf E handle op).2.1 + E.hg_header_get_size op)
    (size_sub E (core_buf E handle op).2.2 (E.hg_header_get_size op)) .HG_ENCODE = R at hr ⊢
  by_cases h1 : R.1 = .HG_SUCCESS
  swap
  · simp [h1] at hr
  simp only [h1, ne_eq, not_true_eq_false, if_false] at hr ⊢
  generalize cb R.2 (proc_of pd op) struct_ptr = D at hr ⊢
  by_cases h2 : D.1 = .HG_SUCCESS
  swap
  · simp [h2] at hr
  simp only [h2, ne_eq, not_true_eq_false, if_false] at hr ⊢
  generalize E.hg_proc_flush D.2 (proc_of pd op) = F at hr ⊢
  by_cases h3 : F.1 = .HG_SUCCESS
  swap
  · simp [h3] at hr
  simp only [h3, ne_eq, not_true_eq_false, if_false, true_and] at hr ⊢
  generalize E.hg_proc_checksum_get F.2 (proc_of pd op)
    (E.hash_payload op (E.hg_header_reset pd.hg_header op)) = C at hr ⊢
  have hc : (if E.has_checksums = true then C
      else (hg_return_t.HG_SUCCESS, E.hash_payload op (E.hg_header_reset pd.hg_header op))).1
      = .HG_SUCCESS := by
    by_contra hx
    cases hk : E.has_checksums
    · simp [hk] at hx
    · simp only [hk, if_true] at hx hr
      simp [hx] at hr
  refine ⟨hc, ?_⟩
  generalize E.hg_proc_get_extra_buf F.2 (proc_of pd op) = X at hr ⊢
  by_cases he : X = 0
  · exact Or.inl he
  right
  refine ⟨he, ?_⟩
  have hc2 : (if E.has_checksums = true then C else (hg_return_t.HG_SUCCESS, C.2)).1
      = .HG_SUCCESS := by
    cases hk : E.has_checksums
    · simp
    · simpa [hk] using hc
  cases hk : E.has_checksums <;> cases hxdr : E.has_xdr <;>
    simp only [hk, hxdr, Bool.false_eq_true, if_false, if_true, he, ne_eq,
      not_false_eq_true] at hr hc ⊢ <;>
    simp only [hc, not_true_eq_false, if_false] at hr <;>
    first
    | exact absurd hr (by decide)
    | (refine ⟨trivial, ?_⟩
       generalize E.HG_Bulk_create _ _ _ _ _ _ = B at hr ⊢
       by_cases hb : B.1 = .HG_SUCCESS
       swap
       · simp [hb] at hr
       simp only [hb, not_true_eq_false, if_false, true_and] at hr ⊢
       generalize E.hg_proc_reset B.2.1 _ _ _ _ = R2 at hr ⊢
       by_cases hr2 : R2.1 = .HG_SUCCESS
       swap
       · simp [hr2] at hr
       simp only [hr2, not_true_eq_false, if_false] at hr ⊢
       generalize E.hg_proc_hg_bulk_t R2.2 _ _ = K at hr ⊢
       by_cases hk2 : K.1 = .HG_SUCCESS
       swap
       · simp [hk2] at hr
       simp only [hk2, not_true_eq_false, if_false] at hr ⊢
       generalize E.hg_proc_flush K.2.1 _ = F2 at hr ⊢
       by_cases hf2 : F2.1 = .HG_SUCCESS
       swap
       · simp [hf2] at hr
       simp only [hf2, not_true_eq_false, if_false, true_and] at hr ⊢
       by_contra hx
       simp [hx] at hr)

/-- Taking the header size off an in-range size and adding it back gives the
size again. -/
lemma size_add_sub_cancel {σ Hdr : Type} (E : Env σ Hdr) (a b : Nat)
    (ha : a < 2 ^ E.size_bits) : size_add E (size_sub E a b) b = a := by
  simp only [size_add, size_sub]
  have hpos : 0 < 2 ^ E.size_bits := Nat.two_pow_pos _
  generalize 2 ^ E.size_bits = M at ha hpos ⊢
  have hlt : b % M < M := Nat.mod_lt b hpos
  have hb : b % M + M * (b / M) = b := Nat.mod_add_div b M
  rw [Nat.mod_add_mod]
  have h1 : a + M - b % M + b = a + M * (1 + b / M) := by
    rw [Nat.mul_add, Nat.mul_one]
    generalize b % M = r at hlt hb ⊢
    generalize M * (b / M) = q at hb ⊢
    omega
  rw [h1, Nat.add_mul_mod_self_left, Nat.mod_eq_of_lt ha]

/-- The header scratch after the checksum step is the header that is sent. -/
lemma priv_hashed_header {σ Hdr : Type} (E : Env σ Hdr) (w : σ) (handle : hg_handle)
    (pd : hg_private_data σ Hdr) (op : hg_op_t) (cb : hg_proc_cb_t σ) (p : Ptr) :
    (priv_hashed E w handle pd op cb p).hg_header =
      sent_header E pd.hg_header op (set_checksum E w handle pd op cb p).2 := by
  simp only [priv_hashed, sent_header]
  split_ifs <;> rfl

/-- The decoding body of `hg_get_struct` succeeds, in the world its codec pass
leaves, when the header decode, the codec pass and (in a build with checksums)
the checksum comparison succeed. -/
lemma hg_get_struct_decode_success {σ Hdr : Type} (E : Env σ Hdr) (w : σ)
    (handle : hg_handle) (pd : hg_private_data σ Hdr) (op : hg_op_t) (struct_ptr : Ptr)
    (cb : hg_proc_cb_t σ)
    (hh : (get_header E w handle pd op).1 = .HG_SUCCESS)
    (hp : (get_pass E w handle pd op cb struct_ptr).1 = .HG_SUCCESS)
    (hv : E.has_checksums = true →
      E.hg_proc_checksum_verify (get_pass E w handle pd op cb struct_ptr).2 (proc_of pd op)
        (E.hash_payload op (get_header E w handle pd op).2.2) = .HG_SUCCESS) :
    (hg_get_struct_decode E w handle pd op struct_ptr (E.hg_header_get_size op)
      (proc_of pd op) (some cb) (core_buf E handle op).2.1 (core_buf E handle op).2.2).ret
      = .HG_SUCCESS ∧
    (hg_get_struct_decode E w handle pd op struct_ptr (E.hg_header_get_size op)
      (proc_of pd op) (some cb) (core_buf E handle op).2.1 (core_buf E handle op).2.2).world
      = (get_pass E w handle pd op cb struct_ptr).2 := by
  obtain ⟨h1, h2, h3, h4⟩ := codec_pass_success E _ _ cb _ _ _ _ hp
  simp only [get_pass] at hv ⊢
  rw [h4] at hv ⊢
  simp only [get_header, decode_region] at hh h1 h2 h3 hv ⊢
  simp only [hg_get_struct_decode]
  by_cases hx : pd.extra_bulk_buf = 0
  · simp only [hx, ne_eq, not_true_eq_false, if_false] at h1 h2 h3 hv ⊢
    simp only [hh, h1, h2, h3, not_true_eq_false, if_false]
    cases hk : E.has_checksums
    · simp
    · simp [hv hk]
  · simp only [hx, ne_eq, not_false_eq_true, if_true] at h1 h2 h3 hv ⊢
    simp only [hh, h1, h2, h3, not_true_eq_false, if_false]
    cases hk : E.has_checksums
    · simp
    · simp [hv hk]

/-- The code the header encode of `hg_set_struct` returns is the code of the
call. -/
lemma hg_set_struct_header_ret {σ Hdr : Type} (E : Env σ Hdr) (w : σ)
    (pd : hg_private_data σ Hdr) (payload_size : hg_size_t) (more_data : Bool)
    (header_offset : hg_size_t) (proc : hg_proc_t) (buf : Ptr) (buf_size : hg_size_t) :
    (hg_set_struct_header E w pd payload_size more_data header_offset proc buf
      buf_size).ret =
    (E.hg_header_proc .HG_ENCODE w (buf - header_offset)
      (size_add E buf_size header_offset) pd.hg_header).1 := by
  simp only [hg_set_struct_header]
  split_ifs <;> rfl

/-! ## Lemmas on the reference instance -/

/-- Two regions that agree byte by byte read the same. -/
lemma ref_rd_congr (w1 w2 : RefWorld) (p q : Ptr) (m : Nat)
    (h : ∀ i, i < m → w1.mem (p + i) = w2.mem (q + i)) : ref_rd w1 p m = ref_rd w2 q m := by
  simp only [ref_rd]
  apply List.map_congr_left
  intro i hi
  exact h i (List.mem_range.mp hi)

/-- A region of two bytes. -/
lemma ref_rd_two (w : RefWorld) (p : Ptr) : ref_rd w p 2 = [w.mem p, w.mem (p + 1)] := by
  simp [ref_rd, List.range_succ]

/-- Encode pass of the two-byte codec in the reference instance: it succeeds,
uses two bytes, sums them into the checksum, and leaves them in the region
when it holds two bytes, in an auxiliary buffer just past the region
otherwise. -/
lemma ref_encode2 (ck xdr : Bool) (w : RefWorld) (proc : hg_proc_t) (buf : Ptr) (n : Nat)
    (p : Ptr) (hproc : proc ≠ 0) :
    (codec_pass (refEnv ck xdr) w proc ref_codec2 buf n .HG_ENCODE p).1 = .HG_SUCCESS ∧
    ((codec_pass (refEnv ck xdr) w proc ref_codec2 buf n .HG_ENCODE p).2.procs proc).used = 2 ∧
    ((codec_pass (refEnv ck xdr) w proc ref_codec2 buf n .HG_ENCODE p).2.procs proc).checksum
      = w.mem p + w.mem (p + 1) ∧
    ((codec_pass (refEnv ck xdr) w proc ref_codec2 buf n .HG_ENCODE p).2.procs proc).extra
      = (if 2 ≤ n then 0 else buf + n + 1) ∧
    (codec_pass (refEnv ck xdr) w proc ref_codec2 buf n .HG_ENCODE p).2.mem
      (if 2 ≤ n then buf else buf + n + 1) = w.mem p ∧
    (codec_pass (refEnv ck xdr) w proc ref_codec2 buf n .HG_ENCODE p).2.mem
      ((if 2 ≤ n then buf else buf + n + 1) + 1) = w.mem (p + 1) := by
  rcases n with _ | _ | n
  · simp [codec_pass, refEnv, ref_proc_reset, hproc, ref_codec2, ref_put]
  · simp [codec_pass, refEnv, ref_proc_reset, hproc, ref_codec2, ref_put]
    rw [Nat.sub_self, Nat.add_zero, Function.update_same]
  · simp [codec_pass, refEnv, ref_proc_reset, hproc, ref_codec2, ref_put]

/-- A pass over the null proc fails at its reset. -/
lemma ref_encode2_null (ck xdr : Bool) (w : RefWorld) (buf : Ptr) (n : Nat) (p : Ptr) :
    (codec_pass (refEnv ck xdr) w 0 ref_codec2 buf n .HG_ENCODE p).1 ≠ .HG_SUCCESS := by
  simp [codec_pass, refEnv, ref_proc_reset]

/-- Decode pass of the two-byte codec in the reference instance over a region
of at least two bytes: it succeeds, stores the two bytes in the struct and sums
them into the checksum. -/
lemma ref_decode2 (ck xdr : Bool) (v : RefWorld) (proc : hg_proc_t) (buf : Ptr) (n : Nat)
    (p : Ptr) (hproc : proc ≠ 0) (hn : 2 ≤ n) :
    (codec_pass (refEnv ck xdr) v proc ref_codec2 buf n .HG_DECODE p).1 = .HG_SUCCESS ∧
    ((codec_pass (refEnv ck xdr) v proc ref_codec2 buf n .HG_DECODE p).2.procs proc).checksum
      = v.mem buf + v.mem (buf + 1) ∧
    (codec_pass (refEnv ck xdr) v proc ref_codec2 buf n .HG_DECODE p).2.mem p = v.mem buf ∧
    (codec_pass (refEnv ck xdr) v proc ref_codec2 buf n .HG_DECODE p).2.mem (p + 1)
      = v.mem (buf + 1) := by
  have h0 : 0 < n := by omega
  have h1 : 1 < n := by omega
  simp [codec_pass, refEnv, ref_proc_reset, hproc, ref_codec2, ref_get, h0, h1]


/-- Decoding a header of the reference instance leaves the world as it is. -/
lemma ref_header_decode_world (v : RefWorld) (buf : Ptr) (n : hg_size_t) (hdr : RefHeader) :
    (ref_header_proc .HG_DECODE v buf n hdr).2.1 = v := by
  rcases hdr with ⟨hop, hash⟩
  cases hop <;> simp only [ref_header_proc] <;> split_ifs <;> rfl

/-- Encoding a header of the reference instance leaves every region past the
header bytes as it is. -/
lemma ref_header_writes (ck : Bool) (op : hg_op_t) (w : RefWorld) (buf n : Nat)
    (h0 : RefHeader) (c : Nat) (p m : Nat)
    (hp : buf + ref_header_get_size op ≤ p) :
    ref_rd (ref_header_proc .HG_ENCODE w buf n (sent_header (refEnv ck false) h0 op c)).2.1
      p m = ref_rd w p m := by
  apply ref_rd_congr
  intro i _
  have hop : (sent_header (refEnv ck false) h0 op c).op = op := by
    cases ck <;> rfl
  generalize sent_header (refEnv ck false) h0 op c = hdr at hop ⊢
  rcases hdr with ⟨o, hash⟩
  simp only at hop
  subst hop
  cases o
  · simp only [ref_header_proc]
    split_ifs <;> rfl
  · simp only [ref_header_proc, ref_header_get_size] at hp ⊢
    split_ifs
    · rfl
    · show Function.update (Function.update w.mem buf 215) (buf + 1) hash (p + i) = _
      rw [Function.update_noteq (show p + i ≠ buf + 1 by omega),
        Function.update_noteq (show p + i ≠ buf by omega)]
  · simp only [ref_header_proc, ref_header_get_size] at hp ⊢
    split_ifs
    · rfl
    · show Function.update w.mem buf hash (p + i) = _
      rw [Function.update_noteq (show p + i ≠ buf by omega)]

/-- A region of one byte. -/
lemma ref_rd_one (w : RefWorld) (p : Nat) : ref_rd w p 1 = [w.mem p] := by
  simp [ref_rd, List.range_succ]

/-- Header round trip of the reference instance. -/
lemma ref_header_round_trip (ck : Bool) (op : hg_op_t) (w : RefWorld) (buf n : Nat)
    (h0 : RefHeader) (c : Nat)
    (henc : (ref_header_proc .HG_ENCODE w buf n (sent_header (refEnv ck false) h0 op c)).1
      = .HG_SUCCESS)
    (v : RefWorld) (rbuf : Nat) (q0 : RefHeader)
    (hrd : ref_rd v rbuf (ref_header_get_size op) =
      ref_rd (ref_header_proc .HG_ENCODE w buf n (sent_header (refEnv ck false) h0 op c)).2.1
        buf (ref_header_get_size op)) :
    (ref_header_proc .HG_DECODE v rbuf n ((refEnv ck false).hg_header_reset q0 op)).1
      = .HG_SUCCESS ∧
    (ck = true →
      (ref_header_proc .HG_DECODE v rbuf n ((refEnv ck false).hg_header_reset q0 op)).2.2.hash
        = c) := by
  cases op
  · cases ck <;> simp [sent_header, refEnv, ref_header_proc, ref_header_get_size] at henc
  · by_cases hn : n < 2
    · cases ck <;>
        simp [sent_header, refEnv, ref_header_proc, ref_header_get_size, hn] at henc
    · cases ck
      · simp only [sent_header, refEnv, ref_header_proc, ref_header_get_size, hn,
          Bool.false_eq_true, if_false] at hrd ⊢
        rw [ref_rd_two, ref_rd_two] at hrd
        simp only [List.cons.injEq, and_true] at hrd
        have hm : v.mem rbuf = 215 := by
          rw [hrd.1, Function.update_noteq (show buf ≠ buf + 1 by omega),
            Function.update_same]
        simp [hm]
      · simp only [sent_header, refEnv, ref_header_proc, ref_header_get_size, hn,
          if_true, if_false] at hrd ⊢
        rw [ref_rd_two, ref_rd_two] at hrd
        simp only [List.cons.injEq, and_true] at hrd
        have hm : v.mem rbuf = 215 := by
          rw [hrd.1, Function.update_noteq (show buf ≠ buf + 1 by omega),
            Function.update_same]
        have hh : v.mem (rbuf + 1) = c := by
          rw [hrd.2, Function.update_same]
        simp [hm, hh]
  · by_cases hn : n < 1
    · cases ck <;>
        simp [sent_header, refEnv, ref_header_proc, ref_header_get_size, hn] at henc
    · cases ck
      · simp [refEnv, ref_header_proc, ref_header_get_size, hn]
      · simp only [sent_header, refEnv, ref_header_proc, ref_header_get_size, hn,
          if_true, if_false] at hrd ⊢
        rw [ref_rd_one, ref_rd_one] at hrd
        simp only [List.cons.injEq, and_true] at hrd
        have hh : v.mem rbuf = c := by
          rw [hrd, Function.update_same]
        simp [hh]

/-- The two-byte codec of the reference instance is lawful. -/
lemma ref_codec_round_trip (ck : Bool) (w : RefWorld) (proc : Nat) (buf n p : Nat)
    (hp : (codec_pass (refEnv ck false) w proc ref_codec2 buf n .HG_ENCODE p).1 = .HG_SUCCESS)
    (v : RefWorld) (rproc rbuf rn rp : Nat) (hrproc : rproc ≠ 0)
    (hrn : rn = (if (refEnv ck false).hg_proc_get_extra_buf
          (codec_pass (refEnv ck false) w proc ref_codec2 buf n .HG_ENCODE p).2 proc ≠ 0
        then (refEnv ck false).hg_proc_get_size_used
          (codec_pass (refEnv ck false) w proc ref_codec2 buf n .HG_ENCODE p).2 proc
        else n))
    (hrd : ref_rd v rbuf ((refEnv ck false).hg_proc_get_size_used
          (codec_pass (refEnv ck false) w proc ref_codec2 buf n .HG_ENCODE p).2 proc) =
        ref_rd (codec_pass (refEnv ck false) w proc ref_codec2 buf n .HG_ENCODE p).2
          (if (refEnv ck false).hg_proc_get_extra_buf
              (codec_pass (refEnv ck false) w proc ref_codec2 buf n .HG_ENCODE p).2 proc ≠ 0
            then (refEnv ck false).hg_proc_get_extra_buf
              (codec_pass (refEnv ck false) w proc ref_codec2 buf n .HG_ENCODE p).2 proc
            else buf)
          ((refEnv ck false).hg_proc_get_size_used
            (codec_pass (refEnv ck false) w proc ref_codec2 buf n .HG_ENCODE p).2 proc)) :
    (codec_pass (refEnv ck false) v rproc ref_codec2 rbuf rn .HG_DECODE rp).1 = .HG_SUCCESS ∧
    ref_val (codec_pass (refEnv ck false) v rproc ref_codec2 rbuf rn .HG_DECODE rp).2 rp
      = ref_val w p ∧
    (∀ old : Nat,
      ((refEnv ck false).hg_proc_checksum_get
        (codec_pass (refEnv ck false) w proc ref_codec2 buf n .HG_ENCODE p).2 proc old).1
        = .HG_SUCCESS →
      (refEnv ck false).hg_proc_checksum_verify
        (codec_pass (refEnv ck false) v rproc ref_codec2 rbuf rn .HG_DECODE rp).2 rproc
        ((refEnv ck false).hg_proc_checksum_get
          (codec_pass (refEnv ck false) w proc ref_codec2 buf n .HG_ENCODE p).2 proc old).2
        = .HG_SUCCESS) := by
  have hproc : proc ≠ 0 := by
    rintro rfl
    exact ref_encode2_null ck false w buf n p hp
  obtain ⟨_, hused, hsum, hextra, hm0, hm1⟩ := ref_encode2 ck false w proc buf n p hproc
  have hE : (refEnv ck false).hg_proc_get_extra_buf
      (codec_pass (refEnv ck false) w proc ref_codec2 buf n .HG_ENCODE p).2 proc
      = (if 2 ≤ n then 0 else buf + n + 1) := hextra
  have hU : (refEnv ck false).hg_proc_get_size_used
      (codec_pass (refEnv ck false) w proc ref_codec2 buf n .HG_ENCODE p).2 proc = 2 := hused
  rw [hE, hU] at hrn hrd
  have hsrc : (if (if 2 ≤ n then 0 else buf + n + 1) ≠ 0
      then (if 2 ≤ n then 0 else buf + n + 1) else buf) =
      (if 2 ≤ n then buf else buf + n + 1) := by
    split_ifs <;> simp_all
  rw [hsrc, ref_rd_two, ref_rd_two, hm0, hm1] at hrd
  simp only [List.cons.injEq, and_true] at hrd
  have hrn2 : 2 ≤ rn := by
    by_cases h2 : 2 ≤ n
    · simp only [h2, if_true, ne_eq, not_true_eq_false, if_false] at hrn
      omega
    · have h3 : buf + n + 1 ≠ 0 := by omega
      simp only [h2, if_false, ne_eq, h3, not_false_eq_true, if_true] at hrn
      omega
  obtain ⟨hd1, hdsum, hd0, hd1'⟩ := ref_decode2 ck false v rproc rbuf rn rp hrproc hrn2
  refine ⟨hd1, ?_, ?_⟩
  · simp only [ref_val, hd0, hd1', hrd.1, hrd.2]
  · intro old _
    show (if _ = _ then hg_return_t.HG_SUCCESS else hg_return_t.HG_CHECKSUM_ERROR) = _
    rw [if_pos]
    rw [hdsum, hrd.1, hrd.2]
    exact hsum.symm

/-- Descriptor pass of the reference instance: when it ends without an
auxiliary buffer the region holds at least one byte and the pass has written
its first byte only. -/
lemma ref_desc_pass (B : RefWorld) (proc buf1 n1 bh : Nat) (hproc : proc ≠ 0)
    (h : ((ref_proc_hg_bulk_t (ref_proc_reset B proc buf1 n1 .HG_ENCODE).2 proc bh).2.1.procs
      proc).extra = 0) :
    0 < n1 ∧
    (ref_proc_hg_bulk_t (ref_proc_reset B proc buf1 n1 .HG_ENCODE).2 proc bh).2.1.mem
      = Function.update B.mem buf1 bh := by
  rcases n1 with _ | n1
  · simp [ref_proc_hg_bulk_t, ref_proc_reset, hproc, ref_put] at h
  · simp [ref_proc_hg_bulk_t, ref_proc_reset, hproc, ref_put]

/-- In the reference instance the spilled bytes survive the descriptor pass and
the header encode. -/
lemma ref_spill_kept (ck : Bool) (op : hg_op_t) (w : RefWorld) (handle : hg_handle)
    (pd : hg_private_data RefWorld RefHeader) (p n c : Nat)
    (hp : (set_pass (refEnv ck false) w handle pd op ref_codec2 p).1 = .HG_SUCCESS)
    (he : set_extra_buf (refEnv ck false) w handle pd op ref_codec2 p ≠ 0)
    (hdfit : (refEnv ck false).hg_proc_get_extra_buf
      (set_desc (refEnv ck false) w handle pd op ref_codec2 p).2 (proc_of pd op) = 0) :
    ref_rd (ref_header_proc .HG_ENCODE
          (set_desc (refEnv ck false) w handle pd op ref_codec2 p).2
          (core_buf (refEnv ck false) handle op).2.1 n
          (sent_header (refEnv ck false) pd.hg_header op c)).2.1
        (set_extra_buf (refEnv ck false) w handle pd op ref_codec2 p)
        (set_size_used (refEnv ck false) w handle pd op ref_codec2 p) =
      ref_rd (set_pass (refEnv ck false) w handle pd op ref_codec2 p).2
        (set_extra_buf (refEnv ck false) w handle pd op ref_codec2 p)
        (set_size_used (refEnv ck false) w handle pd op ref_codec2 p) := by
  have hproc : proc_of pd op ≠ 0 := by
    intro h0
    simp only [set_pass, h0] at hp
    exact ref_encode2_null ck false w _ _ p hp
  obtain ⟨_, hused, _, hextra, _, _⟩ := ref_encode2 ck false w (proc_of pd op)
    ((core_buf (refEnv ck false) handle op).2.1 + (refEnv ck false).hg_header_get_size op)
    (size_sub (refEnv ck false) (core_buf (refEnv ck false) handle op).2.2
      ((refEnv ck false).hg_header_get_size op)) p hproc
  generalize hb1 : (core_buf (refEnv ck false) handle op).2.1 = sbuf at *
  generalize hn1 : size_sub (refEnv ck false) (core_buf (refEnv ck false) handle op).2.2
      ((refEnv ck false).hg_header_get_size op) = n1 at *
  have hX : set_extra_buf (refEnv ck false) w handle pd op ref_codec2 p =
      (if 2 ≤ n1 then 0 else sbuf + ref_header_get_size op + n1 + 1) := by
    simp only [set_extra_buf, set_pass, hb1, hn1]; exact hextra
  have hU : set_size_used (refEnv ck false) w handle pd op ref_codec2 p = 2 := by
    simp only [set_size_used, set_pass, hb1, hn1]; exact hused
  have h2 : ¬ 2 ≤ n1 := by
    intro h
    rw [hX, if_pos h] at he
    exact he rfl
  rw [hX, if_neg h2, hU]
  have hdesc : (set_desc (refEnv ck false) w handle pd op ref_codec2 p).2 =
      (ref_proc_hg_bulk_t (ref_proc_reset
        (set_bulk (refEnv ck false) w handle pd op ref_codec2 p).2.1 (proc_of pd op)
        (sbuf + ref_header_get_size op) n1 .HG_ENCODE).2 (proc_of pd op)
        (set_bulk (refEnv ck false) w handle pd op ref_codec2 p).2.2).2.1 := by
    simp only [set_desc, hb1, hn1]
    simp [refEnv, ref_proc_reset, hproc, ref_proc_hg_bulk_t]
  rw [hdesc] at hdfit ⊢
  obtain ⟨hpos, hmem⟩ := ref_desc_pass _ _ _ _ _ hproc hdfit
  have hbm : (set_bulk (refEnv ck false) w handle pd op ref_codec2 p).2.1.mem =
      (set_pass (refEnv ck false) w handle pd op ref_codec2 p).2.mem := rfl
  have hle : ∀ a b c : ℕ, a + b ≤ a + b + c + 1 := by intros; omega
  have hne : ∀ a b c d : ℕ, a + b + c + 1 + d ≠ a + b := by intros; omega
  rw [ref_header_writes ck op _ sbuf n pd.hg_header c
    (sbuf + ref_header_get_size op + n1 + 1) 2 (hle _ _ _)]
  apply ref_rd_congr
  intro i _
  rw [hmem, hbm, Function.update_noteq (hne _ _ _ _)]

/-- The reference instance satisfies the round-trip laws with the two-byte
codec, in both directions, with or without checksums. -/
lemma ref_round_trip_laws (ck : Bool) (op : hg_op_t) :
    RoundTripLaws (refEnv ck false) ref_rd ref_val ref_codec2 op where
  header_writes := fun w buf n h0 c m =>
    ref_header_writes ck op w buf n h0 c (buf + ref_header_get_size op) m (Nat.le_refl _)
  header_reads := fun v buf n hdr p m => by
    show ref_rd (ref_header_proc .HG_DECODE v buf n hdr).2.1 p m = _
    rw [ref_header_decode_world]
  header_round_trip := fun w buf n h0 c henc v rbuf q0 hrd =>
    ref_header_round_trip ck op w buf n h0 c henc v rbuf q0 hrd
  codec_round_trip := fun w proc buf n p _ hp v rproc rbuf rn rp hrproc _ hrn hrd =>
    ref_codec_round_trip ck w proc buf n p hp v rproc rbuf rn rp hrproc hrn hrd
  spill_kept := fun w handle pd p n c hp he _ _ hdfit =>
    ref_spill_kept ck op w handle pd p n c hp he hdfit

/-- In the reference instance the header codec leaves the procs alone. -/
lemma ref_header_proc_procs (op : hg_proc_op_t) (w : RefWorld) (buf : Ptr) (n : hg_size_t)
    (hdr : RefHeader) : (ref_header_proc op w buf n hdr).2.1.procs = w.procs := by
  rcases hdr with ⟨hop, hash⟩
  cases op <;> cases hop <;> simp only [ref_header_proc] <;> split_ifs <;> rfl

/-- Silent skip of `hg_set_struct`: without a codec for the direction or with
a null struct pointer, a call that passes the switch returns at once. -/
lemma hg_set_struct_skip {σ Hdr : Type} (E : Env σ Hdr) (w : σ)
    (handle : hg_handle) (pd : hg_private_data σ Hdr) (pi : hg_proc_info σ) (op : hg_op_t)
    (struct_ptr : Ptr) (payload_size : hg_size_t) (more_data : Bool)
    (hop : valid_op pi op) (hbuf : (core_buf E handle op).1 = .HG_SUCCESS)
    (hskip : proc_cb_of pi op = none ∨ struct_ptr = 0) :
    hg_set_struct E w handle pd pi op struct_ptr payload_size more_data =
      ⟨.HG_SUCCESS, w, pd, 0, more_data⟩ := by
  rw [hg_set_struct_eq_encode E w handle pd pi op struct_ptr payload_size more_data hop hbuf]
  rcases hskip with h | h
  · rw [h]; rfl
  · subst h
    cases proc_cb_of pi op <;> simp [hg_set_struct_encode]

/-- Frame of `hg_set_struct_header`: only the header scratch of the private
data changes. -/
lemma hg_set_struct_header_priv {σ Hdr : Type} (E : Env σ Hdr) (w : σ)
    (pd : hg_private_data σ Hdr) (payload_size : hg_size_t) (more_data : Bool)
    (header_offset : hg_size_t) (proc : hg_proc_t) (buf : Ptr) (buf_size : hg_size_t) :
    (hg_set_struct_header E w pd payload_size more_data header_offset proc buf buf_size).priv
      = { pd with hg_header := (E.hg_header_proc .HG_ENCODE w (buf - header_offset)
            (size_add E buf_size header_offset) pd.hg_header).2.2 } := by
  unfold hg_set_struct_header
  simp only []
  split_ifs <;> rfl

/-- What `hg_set_struct` does to the private data once the codec runs: the
stashed callback and argument, the procs and the transfer callback are left
alone on every path; the slot is left alone unless the pass over the user
struct and the checksum step succeed, the codec reports an auxiliary buffer
and the build has no XDR, in which case the slot holds that buffer and the
size used, whatever happens next. -/
lemma hg_set_struct_encode_priv {σ Hdr : Type} (E : Env σ Hdr) (w : σ) (handle : hg_handle)
    (pd : hg_private_data σ Hdr) (op : hg_op_t) (struct_ptr : Ptr)
    (payload_size : hg_size_t) (more_data : Bool) (cb : hg_proc_cb_t σ)
    (hptr : struct_ptr ≠ 0) :
    same_stash (hg_set_struct_encode E w handle pd op struct_ptr payload_size more_data
        (E.hg_header_get_size op) (proc_of pd op) (some cb)
        (core_buf E handle op).2.1 (core_buf E handle op).2.2).priv pd ∧
    (((set_pass E w handle pd op cb struct_ptr).1 = .HG_SUCCESS ∧
        (set_checksum E w handle pd op cb struct_ptr).1 = .HG_SUCCESS ∧
        set_extra_buf E w handle pd op cb struct_ptr ≠ 0 ∧ E.has_xdr = false) →
      (hg_set_struct_encode E w handle pd op struct_ptr payload_size more_data
        (E.hg_header_get_size op) (proc_of pd op) (some cb)
        (core_buf E handle op).2.1 (core_buf E handle op).2.2).priv.extra_bulk_buf
        = set_extra_buf E w handle pd op cb struct_ptr ∧
      (hg_set_struct_encode E w handle pd op struct_ptr payload_size more_data
        (E.hg_header_get_size op) (proc_of pd op) (some cb)
        (core_buf E handle op).2.1 (core_buf E handle op).2.2).priv.extra_bulk_buf_size
        = set_size_used E w handle pd op cb struct_ptr) ∧
    (¬ ((set_pass E w handle pd op cb struct_ptr).1 = .HG_SUCCESS ∧
        (set_checksum E w handle pd op cb struct_ptr).1 = .HG_SUCCESS ∧
        set_extra_buf E w handle pd op cb struct_ptr ≠ 0 ∧ E.has_xdr = false) →
      spill_slot (hg_set_struct_encode E w handle pd op struct_ptr payload_size more_data
        (E.hg_header_get_size op) (proc_of pd op) (some cb)
        (core_buf E handle op).2.1 (core_buf E handle op).2.2).priv = spill_slot pd) := by
  simp only [set_pass, set_checksum, set_extra_buf, set_size_used, codec_pass]
  simp only [hg_set_struct_encode, if_neg hptr, HG_Core_get_info, hg_set_struct_header_priv]
  generalize E.hg_proc_reset w (proc_of pd op)
    ((core_buf E handle op).2.1 + E.hg_header_get_size op)
    (size_sub E (core_buf E handle op).2.2 (E.hg_header_get_size op)) .HG_ENCODE = R
  by_cases h1 : R.1 = .HG_SUCCESS
  swap
  · simp [h1, same_stash, spill_slot]
  simp only [h1, ne_eq, not_true_eq_false, if_false]
  generalize cb R.2 (proc_of pd op) struct_ptr = D
  by_cases h2 : D.1 = .HG_SUCCESS
  swap
  · simp [h2, same_stash, spill_slot]
  simp only [h2, ne_eq, not_true_eq_false, if_false]
  generalize E.hg_proc_flush D.2 (proc_of pd op) = F
  by_cases h3 : F.1 = .HG_SUCCESS
  swap
  · simp [h3, same_stash, spill_slot]
  simp only [h3, ne_eq, not_true_eq_false, if_false, true_and]
  generalize E.hg_proc_checksum_get F.2 (proc_of pd op)
    (E.hash_payload op (E.hg_header_reset pd.hg_header op)) = C
  generalize E.hg_proc_get_extra_buf F.2 (proc_of pd op) = X
  generalize E.hg_proc_get_size_used F.2 (proc_of pd op) = U
  by_cases he : X = 0
  · cases hk : E.has_checksums <;>
      simp only [Bool.false_eq_true, if_false, if_true] <;>
      by_cases hc : C.1 = .HG_SUCCESS <;>
      simp [he, hc, same_stash, spill_slot, hg_set_struct_header_priv]
  cases hxdr : E.has_xdr
  swap
  · cases hk : E.has_checksums <;>
      simp only [Bool.false_eq_true, if_false, if_true] <;>
      by_cases hc : C.1 = .HG_SUCCESS <;>
      simp [he, hc, same_stash, spill_slot, hg_set_struct_header_priv]
  generalize E.HG_Bulk_create (E.hg_proc_set_extra_buf_is_mine F.2 (proc_of pd op) true)
    handle.info.hg_class X U .HG_BULK_READ_ONLY pd.extra_bulk_handle = B
  generalize E.hg_proc_reset B.2.1 (proc_of pd op)
    ((core_buf E handle op).2.1 + E.hg_header_get_size op)
    (size_sub E (core_buf E handle op).2.2 (E.hg_header_get_size op)) .HG_ENCODE = R2
  generalize E.hg_proc_hg_bulk_t R2.2 (proc_of pd op) B.2.2 = K
  generalize E.hg_proc_flush K.2.1 (proc_of pd op) = F2
  generalize E.hg_proc_get_extra_buf F2.2 (proc_of pd op) = X2
  cases hk : E.has_checksums <;>
    simp only [he, Bool.false_eq_true, if_false, if_true, not_false_eq_true] <;>
    by_cases hc : C.1 = .HG_SUCCESS <;>
    simp only [hc, not_true_eq_false, not_false_eq_true, if_false, if_true] <;>
    (try split_ifs) <;>
    simp [hc, he, hxdr, same_stash, spill_slot, hg_set_struct_header_priv]

/-- A call of `hg_set_struct` the switch turns away, or whose core buffer is
not available, fails and changes neither the world nor the private data. -/
lemma hg_set_struct_switch_fail {σ Hdr : Type} (E : Env σ Hdr) (w : σ)
    (handle : hg_handle) (pd : hg_private_data σ Hdr) (pi : hg_proc_info σ) (op : hg_op_t)
    (struct_ptr : Ptr) (payload_size : hg_size_t) (more_data : Bool)
    (h : ¬ valid_op pi op ∨ (core_buf E handle op).1 ≠ .HG_SUCCESS) :
    (hg_set_struct E w handle pd pi op struct_ptr payload_size more_data).ret ≠ .HG_SUCCESS ∧
    (hg_set_struct E w handle pd pi op struct_ptr payload_size more_data).world = w ∧
    (hg_set_struct E w handle pd pi op struct_ptr payload_size more_data).priv = pd := by
  cases op with
  | HG_UNDEF => simp [hg_set_struct]
  | HG_INPUT =>
    rcases h with h | h
    · exact absurd (Or.inl rfl) h
    · simp only [core_buf] at h
      simp [hg_set_struct, h]
  | HG_OUTPUT =>
    cases hn : pi.no_response
    · rcases h with h | h
      · exact absurd (Or.inr ⟨rfl, hn⟩) h
      · simp only [core_buf] at h
        simp [hg_set_struct, h, hn]
    · simp [hg_set_struct, hn]

/-- The function `hg_set_struct` leaves the stashed callback and argument, the
procs and the transfer callback of the private data alone, on every path. -/
lemma hg_set_struct_stash {σ Hdr : Type} (E : Env σ Hdr) (w : σ)
    (handle : hg_handle) (pd : hg_private_data σ Hdr) (pi : hg_proc_info σ) (op : hg_op_t)
    (struct_ptr : Ptr) (payload_size : hg_size_t) (more_data : Bool) :
    same_stash (hg_set_struct E w handle pd pi op struct_ptr payload_size more_data).priv
      pd := by
  by_cases h : valid_op pi op ∧ (core_buf E handle op).1 = .HG_SUCCESS
  · by_cases hs : proc_cb_of pi op = none ∨ struct_ptr = 0
    · rw [hg_set_struct_skip E w handle pd pi op struct_ptr payload_size more_data h.1 h.2 hs]
      exact ⟨rfl, rfl, rfl, rfl, rfl⟩
    · rw [not_or] at hs
      obtain ⟨cb, hcb⟩ := Option.ne_none_iff_exists'.mp hs.1
      rw [hg_set_struct_eq_encode E w handle pd pi op struct_ptr payload_size more_data
        h.1 h.2, hcb]
      exact (hg_set_struct_encode_priv E w handle pd op struct_ptr payload_size more_data
        cb hs.2).1
  · have h2 : ¬ valid_op pi op ∨ (core_buf E handle op).1 ≠ .HG_SUCCESS := by
      by_contra hx
      rw [not_or, not_not, not_not] at hx
      exact h hx
    rw [(hg_set_struct_switch_fail E w handle pd pi op struct_ptr payload_size more_data
      h2).2.2]
    exact ⟨rfl, rfl, rfl, rfl, rfl⟩

/-- The function `hg_set_struct` keeps a well-formed slot well formed. -/
lemma hg_set_struct_slot_wf {σ Hdr : Type} (E : Env σ Hdr) (w : σ)
    (handle : hg_handle) (pd : hg_private_data σ Hdr) (pi : hg_proc_info σ) (op : hg_op_t)
    (struct_ptr : Ptr) (payload_size : hg_size_t) (more_data : Bool) (hwf : slot_wf pd) :
    slot_wf (hg_set_struct E w handle pd pi op struct_ptr payload_size more_data).priv := by
  by_cases h : valid_op pi op ∧ (core_buf E handle op).1 = .HG_SUCCESS
  · by_cases hs : proc_cb_of pi op = none ∨ struct_ptr = 0
    · rw [hg_set_struct_skip E w handle pd pi op struct_ptr payload_size more_data h.1 h.2 hs]
      exact hwf
    · rw [not_or] at hs
      obtain ⟨cb, hcb⟩ := Option.ne_none_iff_exists'.mp hs.1
      rw [hg_set_struct_eq_encode E w handle pd pi op struct_ptr payload_size more_data
        h.1 h.2, hcb]
      obtain ⟨_, hrec, hnot⟩ := hg_set_struct_encode_priv E w handle pd op struct_ptr
        payload_size more_data cb hs.2
      by_cases hc : (set_pass E w handle pd op cb struct_ptr).1 = .HG_SUCCESS ∧
        (set_checksum E w handle pd op cb struct_ptr).1 = .HG_SUCCESS ∧
        set_extra_buf E w handle pd op cb struct_ptr ≠ 0 ∧ E.has_xdr = false
      · intro h0
        rw [(hrec hc).1] at h0
        exact absurd h0 hc.2.2.1
      · have hslot := hnot hc
        simp only [spill_slot, Prod.mk.injEq] at hslot
        intro h0
        rw [hslot.1] at h0
        rw [hslot.2.1, hslot.2.2]
        exact hwf h0
  · have h2 : ¬ valid_op pi op ∨ (core_buf E handle op).1 ≠ .HG_SUCCESS := by
      by_contra hx
      rw [not_or, not_not, not_not] at hx
      exact h hx
    rw [(hg_set_struct_switch_fail E w handle pd pi op struct_ptr payload_size more_data
      h2).2.2]
    exact hwf

/-- The function `hg_free_struct` does not write the private data: the record
it leaves is the one it got (the record of a private data that is gone, when
the call has dropped the last reference). -/
lemma hg_free_struct_priv {σ Hdr : Type} (E : Env σ Hdr) (w : σ)
    (handle : hg_handle) (pd : hg_private_data σ Hdr) (pi : hg_proc_info σ) (op : hg_op_t)
    (struct_ptr : Ptr) :
    (hg_free_struct E w handle pd pi op struct_ptr).priv = pd := by
  have body : ∀ (proc : hg_proc_t) (proc_cb : Option (hg_proc_cb_t σ)),
      (hg_free_struct_free E w handle pd struct_ptr proc proc_cb).priv = pd := by
    intro proc proc_cb
    cases proc_cb with
    | none => rfl
    | some cb =>
      simp only [hg_free_struct_free]
      split_ifs <;> rfl
  cases op with
  | HG_UNDEF => rfl
  | HG_INPUT => exact body _ _
  | HG_OUTPUT => exact body _ _

/-- A successful `hg_free_struct` has run the free pass with success and then
`HG_Core_destroy`: the world is that of the free pass while the handle
survives, and that of the teardown of the private data when the last
reference is dropped. -/
lemma hg_free_struct_world {σ Hdr : Type} (E : Env σ Hdr) (w : σ)
    (handle : hg_handle) (pd : hg_private_data σ Hdr) (pi : hg_proc_info σ) (op : hg_op_t)
    (struct_ptr : Ptr)
    (hr : (hg_free_struct E w handle pd pi op struct_ptr).ret = .HG_SUCCESS) :
    proc_cb_of pi op ≠ none ∧
    ∀ cb, proc_cb_of pi op = some cb →
      (free_pass E w pd op cb struct_ptr).1 = .HG_SUCCESS ∧
      (hg_free_struct E w handle pd pi op struct_ptr).world =
        if handle.ref_count - 1 ≠ 0 then (free_pass E w pd op cb struct_ptr).2
        else hg_private_data_free E (free_pass E w pd op cb struct_ptr).2 pd := by
  have body : ∀ (proc : hg_proc_t) (proc_cb : Option (hg_proc_cb_t σ)),
      (hg_free_struct_free E w handle pd struct_ptr proc proc_cb).ret = .HG_SUCCESS →
      proc_cb ≠ none ∧
      ∀ cb, proc_cb = some cb →
        (let r := E.hg_proc_reset w proc 0 0 .HG_FREE
          if r.1 ≠ .HG_SUCCESS then r else cb r.2 proc struct_ptr).1 = .HG_SUCCESS ∧
        (hg_free_struct_free E w handle pd struct_ptr proc proc_cb).world =
          if handle.ref_count - 1 ≠ 0 then
            (let r := E.hg_proc_reset w proc 0 0 .HG_FREE
              if r.1 ≠ .HG_SUCCESS then r else cb r.2 proc struct_ptr).2
          else hg_private_data_free E
            (let r := E.hg_proc_reset w proc 0 0 .HG_FREE
              if r.1 ≠ .HG_SUCCESS then r else cb r.2 proc struct_ptr).2 pd := by
    intro proc proc_cb h
    cases proc_cb with
    | none => simp [hg_free_struct_free] at h
    | some cb0 =>
      refine ⟨by simp, ?_⟩
      intro cb hcb
      cases hcb
      simp only [hg_free_struct_free, HG_Core_destroy] at h ⊢
      by_cases h1 : (E.hg_proc_reset w proc 0 0 .HG_FREE).1 = .HG_SUCCESS
      · by_cases h2 : (cb0 (E.hg_proc_reset w proc 0 0 .HG_FREE).2 proc struct_ptr).1
            = .HG_SUCCESS
        · by_cases h3 : handle.ref_count - 1 = 0 <;> simp [h1, h2, h3]
        · simp [h1, h2] at h
      · simp [h1] at h
  cases op with
  | HG_UNDEF => simp [hg_free_struct] at hr
  | HG_INPUT => exact body _ _ hr
  | HG_OUTPUT => exact body _ _ hr

/-- In range, the wrapping subtraction of `hg_size_t` is the subtraction. -/
lemma size_sub_eq_sub {σ Hdr : Type} (E : Env σ Hdr) (a b : Nat)
    (hba : b ≤ a) (ha : a < 2 ^ E.size_bits) : size_sub E a b = a - b := by
  simp only [size_sub]
  generalize 2 ^ E.size_bits = M at ha ⊢
  rw [Nat.mod_eq_of_lt (lt_of_le_of_lt hba ha)]
  have h1 : a + M - b = (a - b) + M := by omega
  rw [h1, Nat.add_mod_right, Nat.mod_eq_of_lt (by omega)]

/-- Bits of the transport flags of `HG_Forward`: when the two flag constants
fit an `hg_uint8_t`, the flags are the bits of `HG_CORE_MORE_DATA` when
`more_data` is set, or-ed with those of `HG_CORE_NO_RESPONSE` when the response
is suppressed. -/
lemma forward_flags_eq {σ Hdr : Type} (E : Env σ Hdr) (more_data no_response : Bool)
    (hm : E.HG_CORE_MORE_DATA < 256) (hn : E.HG_CORE_NO_RESPONSE < 256) :
    forward_flags E more_data no_response =
      (if more_data then E.HG_CORE_MORE_DATA else 0) |||
        (if no_response then E.HG_CORE_NO_RESPONSE else 0) := by
  have h256 : (256 : Nat) = 2 ^ 8 := by norm_num
  have hor : E.HG_CORE_MORE_DATA ||| E.HG_CORE_NO_RESPONSE < 256 := by
    rw [h256] at hm hn ⊢
    exact Nat.or_lt_two_pow hm hn
  cases more_data <;> cases no_response <;>
    simp [forward_flags, Nat.mod_eq_of_lt hm, Nat.mod_eq_of_lt hn, Nat.mod_eq_of_lt hor]

/-- When the core buffer is not available or the descriptor pass fails,
`hg_get_extra_input` fails and leaves pointer and size of the slot alone. -/
lemma hg_get_extra_input_early {σ Hdr : Type} (E : Env σ Hdr) (w : σ) (handle : hg_handle)
    (pd : hg_private_data σ Hdr) (done_cb : Option (hg_handle → σ → hg_return_t × σ))
    (h : (E.HG_Core_get_input handle).1 ≠ .HG_SUCCESS ∨
      (extra_desc E w handle pd).1 ≠ .HG_SUCCESS) :
    (hg_get_extra_input E w handle pd done_cb).1 ≠ .HG_SUCCESS ∧
    (hg_get_extra_input E w handle pd done_cb).2.2.extra_bulk_buf = pd.extra_bulk_buf ∧
    (hg_get_extra_input E w handle pd done_cb).2.2.extra_bulk_buf_size
      = pd.extra_bulk_buf_size := by
  by_cases hg : (E.HG_Core_get_input handle).1 = .HG_SUCCESS
  swap
  · simp [hg_get_extra_input, hg, hg_get_extra_input_done]
  rcases h with h | h
  · exact absurd hg h
  simp only [extra_desc] at h
  simp only [hg_get_extra_input, hg, ne_eq, not_true_eq_false, if_false]
  generalize E.hg_proc_reset w pd.in_proc _ _ _ = R at h ⊢
  by_cases h1 : R.1 = .HG_SUCCESS
  swap
  · simp [h1, hg_get_extra_input_done]
  simp only [h1, ne_eq, not_true_eq_false, if_false] at h ⊢
  generalize E.hg_proc_hg_bulk_t R.2 pd.in_proc pd.extra_bulk_handle = K at h ⊢
  by_cases h2 : K.1 = .HG_SUCCESS
  swap
  · simp [h2, hg_get_extra_input_done]
  simp only [h2, ne_eq, not_true_eq_false, if_false] at h ⊢
  simp [h, hg_get_extra_input_done]

/-- Once the descriptor is decoded, `hg_get_extra_input` goes on to the
allocation, the local bulk handle and the transfer. -/
lemma hg_get_extra_input_late {σ Hdr : Type} (E : Env σ Hdr) (w : σ) (handle : hg_handle)
    (pd : hg_private_data σ Hdr) (done_cb : Option (hg_handle → σ → hg_return_t × σ))
    (hg : (E.HG_Core_get_input handle).1 = .HG_SUCCESS)
    (hd : (extra_desc E w handle pd).1 = .HG_SUCCESS) :
    hg_get_extra_input E w handle pd done_cb =
      if (extra_alloc E w handle pd).1 = 0 then
        hg_get_extra_input_done E (extra_alloc E w handle pd).2
          { pd with
            extra_bulk_handle := (extra_desc E w handle pd).2.2
            extra_bulk_buf_size := extra_size E w handle pd
            extra_bulk_buf := (extra_alloc E w handle pd).1 }
          HG_BULK_NULL .HG_NOMEM_ERROR
      else if (extra_local E w handle pd).1 ≠ .HG_SUCCESS then
        hg_get_extra_input_done E (extra_local E w handle pd).2.1
          { pd with
            extra_bulk_handle := (extra_desc E w handle pd).2.2
            extra_bulk_buf_size := extra_size E w handle pd
            extra_bulk_buf := (extra_alloc E w handle pd).1 }
          (extra_local E w handle pd).2.2 (extra_local E w handle pd).1
      else
        hg_get_extra_input_done E
          (E.HG_Bulk_transfer (extra_local E w handle pd).2.1 handle.info.context handle
            .HG_BULK_PULL handle.info.addr handle.info.target_id
            (extra_desc E w handle pd).2.2 0 (extra_local E w handle pd).2.2 0
            (extra_size E w handle pd)).2
          { pd with
            extra_bulk_handle := (extra_desc E w handle pd).2.2
            extra_bulk_buf_size := extra_size E w handle pd
            extra_bulk_buf := (extra_alloc E w handle pd).1
            extra_bulk_transfer_cb := done_cb }
          (extra_local E w handle pd).2.2
          (E.HG_Bulk_transfer (extra_local E w handle pd).2.1 handle.info.context handle
            .HG_BULK_PULL handle.info.addr handle.info.target_id
            (extra_desc E w handle pd).2.2 0 (extra_local E w handle pd).2.2 0
            (extra_size E w handle pd)).1 := by
  simp only [extra_local, extra_alloc, extra_size]
  simp only [extra_desc] at hd ⊢
  simp only [hg_get_extra_input, hg, ne_eq, not_true_eq_false, if_false, HG_Core_get_info]
  generalize E.hg_proc_reset w pd.in_proc _ _ _ = R at hd ⊢
  by_cases h1 : R.1 = .HG_SUCCESS
  swap
  · simp [h1] at hd
  simp only [h1, ne_eq, not_true_eq_false, if_false] at hd ⊢
  generalize E.hg_proc_hg_bulk_t R.2 pd.in_proc pd.extra_bulk_handle = K at hd ⊢
  by_cases h2 : K.1 = .HG_SUCCESS
  swap
  · simp [h2] at hd
  simp only [h2, ne_eq, not_true_eq_false, if_false] at hd ⊢
  simp only [hd, not_true_eq_false, if_false]

/-- The packed version is the sum of its three fields at their places. -/
lemma HG_VERSION_eq_add (major minor patch : Nat) (hM : major < 256) (hm : minor < 256)
    (hp : patch < 65536) :
    HG_VERSION major minor patch = major * 2 ^ 24 + minor * 2 ^ 16 + patch := by
  have h1 : minor <<< 16 ||| patch = minor * 2 ^ 16 + patch := by
    rw [Nat.shiftLeft_eq, Nat.mul_comm minor]
    exact (Nat.mul_add_lt_is_or (by norm_num; exact hp) minor).symm
  have h2 : major <<< 24 ||| (minor * 2 ^ 16 + patch)
      = major * 2 ^ 24 + (minor * 2 ^ 16 + patch) := by
    rw [Nat.shiftLeft_eq, Nat.mul_comm major]
    exact (Nat.mul_add_lt_is_or (by norm_num; omega) major).symm
  rw [HG_VERSION, Nat.or_assoc, h1, h2, Nat.mod_eq_of_lt (by norm_num; omega)]
  omega

/-- The next index of the ring. -/
lemma queue_next (k t : Nat) (hk : k ≤ 31) (ht : t < 2 ^ k) :
    ((t + 1) % 2 ^ 32) &&& (2 ^ k - 1) = if t + 1 = 2 ^ k then 0 else t + 1 := by
  have h31 : 2 ^ k ≤ 2 ^ 31 := Nat.pow_le_pow_right (by norm_num) hk
  have h32 : (2 : Nat) ^ 31 + 2 ^ 31 = 2 ^ 32 := by norm_num
  rw [Nat.mod_eq_of_lt (by omega), Nat.and_pow_two_sub_one_eq_mod]
  split_ifs with h
  · rw [h, Nat.mod_self]
  · exact Nat.mod_eq_of_lt (by omega)

/-- The number of entries between two indices of the ring. -/
lemma queue_len (N h t : Nat) (hh : h < N) (ht : t < N) :
    (t + N - h) % N = if h ≤ t then t - h else t + N - h := by
  split_ifs with hle
  · have : t + N - h = (t - h) + N := by omega
    rw [this, Nat.add_mod_right, Nat.mod_eq_of_lt (by omega)]
  · exact Nat.mod_eq_of_lt (by omega)

/-- A slot of the ring, counted from an index. -/
lemma queue_slot (N h i : Nat) (hh : h < N) (hi : i < N) :
    (h + i) % N = if h + i < N then h + i else h + i - N := by
  split_ifs with hlt
  · exact Nat.mod_eq_of_lt hlt
  · have : h + i = (h + i - N) + N := by omega
    rw [this, Nat.add_mod_right, Nat.mod_eq_of_lt (by omega)]
    omega

/-- One call on a queue at rest does what the bounded list does, returns, and
leaves the queue at rest. -/
lemma queue_step_refines (k : Nat) (hk : k ≤ 31) (q : hg_atomic_queue) (L : List Ptr) (d : Nat)
    (hq : queue_holds (2 ^ k) q L d) (op : queue_op) :
    ∃ q1, run_queue_op q op = some ((fifo_step (2 ^ k) (L, d) op).1, q1) ∧
      queue_holds (2 ^ k) q1 (fifo_step (2 ^ k) (L, d) op).2.1
        (fifo_step (2 ^ k) (L, d) op).2.2 := by
  rcases q with ⟨t, pt, ps, pm, dr, h, ct, cs, cm, ring⟩
  obtain ⟨h1, h2, h3, h4, h5, ht, hh, hL, hd⟩ := hq
  simp only at h1 h2 h3 h4 h5 ht hh hL hd
  subst h1 h2 h3 h4 h5
  have hN : 0 < 2 ^ k := Nat.two_pow_pos k
  have hlen := queue_len (2 ^ k) h t hh ht
  have hlt : (t + 2 ^ k - h) % 2 ^ k < 2 ^ k := Nat.mod_lt _ hN
  generalize hn : (t + 2 ^ k - h) % 2 ^ k = n at hL hlen hlt
  have hLlen : L.length = n := by rw [hL]; simp
  -- the pops
  have hpop : ∃ q1,
      (if h = t then some (queue_result.popped 0,
          (⟨t, t, 2 ^ k, 2 ^ k - 1, dr, h, h, cs, 2 ^ k - 1, ring⟩ : hg_atomic_queue))
        else some (queue_result.popped (ring h),
          (⟨t, t, 2 ^ k, 2 ^ k - 1, dr, ((h + 1) % 2 ^ 32) &&& (2 ^ k - 1),
            ((h + 1) % 2 ^ 32) &&& (2 ^ k - 1), cs, 2 ^ k - 1, ring⟩ : hg_atomic_queue)))
        = some ((fifo_step (2 ^ k) (L, d) queue_op.pop_sc).1, q1) ∧
      queue_holds (2 ^ k) q1 (fifo_step (2 ^ k) (L, d) queue_op.pop_sc).2.1
        (fifo_step (2 ^ k) (L, d) queue_op.pop_sc).2.2 := by
    by_cases he : h = t
    · subst he
      have hn0 : n = 0 := by
        rw [hlen]; simp
      subst hn0
      simp only [List.range_zero, List.map_nil] at hL
      subst hL
      rw [if_pos rfl]
      refine ⟨_, rfl, ?_⟩
      refine ⟨rfl, rfl, rfl, rfl, rfl, ht, hh, ?_, hd⟩
      simp [fifo_step, hn]
    · have hnpos : 0 < n := by
        rw [hlen]; split_ifs <;> omega
      obtain ⟨m, hm⟩ : ∃ m, n = m + 1 := ⟨n - 1, by omega⟩
      subst hm
      rw [List.range_succ_eq_map, List.map_cons, List.map_map] at hL
      have hx : ring ((h + 0) % 2 ^ k) = ring h := by
        rw [Nat.add_zero, Nat.mod_eq_of_lt hh]
      rw [hx] at hL
      subst hL
      rw [if_neg he]
      refine ⟨_, rfl, ?_⟩
      simp only [fifo_step]
      have hnext := queue_next k h hk hh
      refine ⟨rfl, rfl, rfl, rfl, rfl, ht, ?_, ?_, hd⟩
      · dsimp only
        rw [hnext]; split_ifs <;> omega
      · dsimp only
        have hnext_lt : ((h + 1) % 2 ^ 32) &&& (2 ^ k - 1) < 2 ^ k := by
          rw [hnext]; split_ifs <;> omega
        have hm2 : (t + 2 ^ k - (((h + 1) % 2 ^ 32) &&& (2 ^ k - 1))) % 2 ^ k = m := by
          rw [queue_len (2 ^ k) _ t hnext_lt ht, hnext]
          split_ifs at hlen ⊢ <;> omega
        rw [hm2]
        apply List.map_congr_left
        intro i hi
        rw [List.mem_range] at hi
        simp only [Function.comp]
        congr 1
        have hs1 := queue_slot (2 ^ k) h (i + 1) hh (by omega)
        have hs2 := queue_slot (2 ^ k) (((h + 1) % 2 ^ 32) &&& (2 ^ k - 1)) i hnext_lt
          (by omega)
        rw [Nat.succ_eq_add_one, hs1, hs2, hnext]
        split_ifs <;> omega
  cases op with
  | push entry =>
    simp only [run_queue_op, hg_atomic_queue_push]
    have hnext := queue_next k t hk ht
    have hnext_lt : ((t + 1) % 2 ^ 32) &&& (2 ^ k - 1) < 2 ^ k := by
      rw [hnext]; split_ifs <;> omega
    by_cases hfull : ((t + 1) % 2 ^ 32) &&& (2 ^ k - 1) = h
    · have hnfull : ¬ (L.length < 2 ^ k - 1) := by
        rw [hLlen, hlen]
        rw [hnext] at hfull
        split_ifs at hfull ⊢ <;> omega
      simp only [hfull, if_true, Option.map_some', fifo_step, hnfull, if_false]
      refine ⟨_, rfl, ?_⟩
      refine ⟨rfl, rfl, rfl, rfl, rfl, ht, hh, ?_, ?_⟩
      · simp only [hn]; exact hL
      · dsimp only
        rw [hd]
        omega
    · have hnfull : L.length < 2 ^ k - 1 := by
        rw [hLlen, hlen]
        rw [hnext] at hfull
        split_ifs at hfull ⊢ <;> omega
      simp only [hfull, if_false, ne_eq, not_true_eq_false, Option.map_some', fifo_step,
        hnfull, if_true]
      refine ⟨_, rfl, ?_⟩
      refine ⟨rfl, rfl, rfl, rfl, rfl, hnext_lt, hh, ?_, hd⟩
      dsimp only
      have hn2 : ((((t + 1) % 2 ^ 32) &&& (2 ^ k - 1)) + 2 ^ k - h) % 2 ^ k = n + 1 := by
        rw [queue_len (2 ^ k) h _ hh hnext_lt, hnext]
        rw [hnext] at hfull
        rw [hLlen] at hnfull
        split_ifs at hlen hfull ⊢ <;> omega
      rw [hn2, List.range_succ, List.map_append, List.map_singleton, hL]
      have hlast : (h + n) % 2 ^ k = t := by
        rw [queue_slot (2 ^ k) h n hh hlt]
        split_ifs at hlen ⊢ <;> omega
      rw [hlast, Function.update_same]
      congr 1
      apply List.map_congr_left
      intro i hi
      rw [List.mem_range] at hi
      have hne : (h + i) % 2 ^ k ≠ t := by
        rw [queue_slot (2 ^ k) h i hh (by omega)]
        split_ifs at hlen ⊢ <;> omega
      rw [Function.update_noteq hne]
  | pop_sc =>
    simp only [run_queue_op, hg_atomic_queue_pop_sc]
    obtain ⟨q1, e1, e2⟩ := hpop
    refine ⟨q1, ?_, e2⟩
    rw [← e1]
    split_ifs <;> rfl
  | pop_mc =>
    simp only [run_queue_op, hg_atomic_queue_pop_mc]
    obtain ⟨q1, e1, e2⟩ := hpop
    refine ⟨q1, ?_, e2⟩
    have e3 : (fifo_step (2 ^ k) (L, d) queue_op.pop_mc) =
        (fifo_step (2 ^ k) (L, d) queue_op.pop_sc) := rfl
    rw [e3, ← e1]
    by_cases he : h = t <;> simp [he]

/-- A sequence of calls on a queue at rest does what the bounded list does,
returns, and leaves the queue at rest. -/
lemma queue_run_refines (k : Nat) (hk : k ≤ 31) (ops : List queue_op) :
    ∀ (q : hg_atomic_queue) (L : List Ptr) (d : Nat), queue_holds (2 ^ k) q L d →
    ∃ q1, run_queue q ops = some ((fifo_run (2 ^ k) (L, d) ops).1, q1) ∧
      queue_holds (2 ^ k) q1 (fifo_run (2 ^ k) (L, d) ops).2.1
        (fifo_run (2 ^ k) (L, d) ops).2.2 := by
  induction ops with
  | nil => intro q L d hq; exact ⟨q, rfl, hq⟩
  | cons op ops ih =>
    intro q L d hq
    obtain ⟨q1, e1, h1⟩ := queue_step_refines k hk q L d hq op
    obtain ⟨q2, e2, h2⟩ := ih q1 _ _ h1
    refine ⟨q2, ?_, h2⟩
    simp only [run_queue, e1, e2, fifo_run]

/-- On a queue at rest, `hg_atomic_queue_count` is the number of entries held
and `hg_atomic_queue_is_empty` tells whether there is none. -/
lemma queue_holds_count (k : Nat) (hk : k ≤ 31) (q : hg_atomic_queue) (L : List Ptr) (d : Nat)
    (hq : queue_holds (2 ^ k) q L d) :
    hg_atomic_queue_count q = L.length ∧
    (hg_atomic_queue_is_empty q = true ↔ L.length = 0) := by
  rcases q with ⟨t, pt, ps, pm, dr, h, ct, cs, cm, ring⟩
  obtain ⟨h1, h2, h3, h4, h5, ht, hh, hL, hd⟩ := hq
  simp only at h1 h2 h3 h4 h5 ht hh hL hd
  subst h1 h2 h3 h4 h5
  have h31 : 2 ^ k ≤ 2 ^ 31 := Nat.pow_le_pow_right (by norm_num) hk
  have h32 : (2 : Nat) ^ 31 + 2 ^ 31 = 2 ^ 32 := by norm_num
  have hlen := queue_len (2 ^ k) h t hh ht
  have hLlen : L.length = (t + 2 ^ k - h) % 2 ^ k := by rw [hL]; simp
  constructor
  · simp only [hg_atomic_queue_count]
    rw [Nat.and_pow_two_sub_one_eq_mod, Nat.mod_eq_of_lt (a := h) (by omega), hLlen]
    have e : 2 ^ k + t + 2 ^ 32 - h = (t + 2 ^ k - h) + 2 ^ 32 := by omega
    rw [e, Nat.add_mod_right, Nat.mod_eq_of_lt (a := t + 2 ^ k - h) (by omega)]
  · simp only [hg_atomic_queue_is_empty, decide_eq_true_eq]
    rw [hLlen, hlen]
    split_ifs <;> omega

/-- Bookkeeping of the bounded list when no `NULL` is pushed: the entries held
are not `NULL`, and their number plus the pops that returned an entry is the
number held at the start plus the pushes that succeeded. -/
lemma fifo_run_count (N : Nat) (ops : List queue_op) :
    ∀ (L : List Ptr) (d : Nat), (∀ e ∈ L, e ≠ 0) → (∀ e ∈ pushed_entries ops, e ≠ 0) →
    (∀ e ∈ (fifo_run N (L, d) ops).2.1, e ≠ 0) ∧
    (fifo_run N (L, d) ops).2.1.length + pops_done (fifo_run N (L, d) ops).1 =
      L.length + pushes_done (fifo_run N (L, d) ops).1 := by
  induction ops with
  | nil => intro L d hL _; exact ⟨hL, by simp [fifo_run, pops_done, pushes_done]⟩
  | cons op ops ih =>
    intro L d hL hp
    have hpop : ∀ o : queue_op, pushed_entries (o :: ops) = pushed_entries ops →
        (∀ e ∈ pushed_entries ops, e ≠ 0) →
        (fifo_step N (L, d) o) = (match L with
          | [] => (queue_result.popped 0, (L, d))
          | x :: xs => (queue_result.popped x, (xs, d))) →
        (∀ e ∈ (fifo_run N (L, d) (o :: ops)).2.1, e ≠ 0) ∧
        (fifo_run N (L, d) (o :: ops)).2.1.length + pops_done (fifo_run N (L, d) (o :: ops)).1 =
          L.length + pushes_done (fifo_run N (L, d) (o :: ops)).1 := by
      intro o _ hp2 hstep
      cases L with
      | nil =>
        simp only at hstep
        obtain ⟨a, b⟩ := ih [] d hL hp2
        simp only [fifo_run, hstep]
        refine ⟨a, ?_⟩
        simp only [pops_done, pushes_done, List.countP_cons] at b ⊢
        simpa using b
      | cons x xs =>
        simp only at hstep
        have hx : x ≠ 0 := hL x (List.mem_cons_self _ _)
        obtain ⟨a, b⟩ := ih xs d (fun e he => hL e (List.mem_cons_of_mem _ he)) hp2
        simp only [fifo_run, hstep]
        refine ⟨a, ?_⟩
        simp only [pops_done, pushes_done, List.countP_cons, List.length_cons] at b ⊢
        simp only [hx, ne_eq, not_false_eq_true, decide_True, if_true] at b ⊢
        simp at b ⊢
        omega
    cases op with
    | push entry =>
      have he : entry ≠ 0 := hp entry (by simp [pushed_entries])
      have hp2 : ∀ e ∈ pushed_entries ops, e ≠ 0 :=
        fun e h => hp e (by simp [pushed_entries, h])
      by_cases hfull : L.length < N - 1
      · have hstep : fifo_step N (L, d) (.push entry) =
            (.pushed .HG_UTIL_SUCCESS, (L ++ [entry], d)) := by simp [fifo_step, hfull]
        have hL2 : ∀ e ∈ L ++ [entry], e ≠ 0 := by
          intro e h
          rcases List.mem_append.mp h with h | h
          · exact hL e h
          · rw [List.mem_singleton.mp h]; exact he
        obtain ⟨a, b⟩ := ih (L ++ [entry]) d hL2 hp2
        simp only [fifo_run, hstep]
        refine ⟨a, ?_⟩
        simp only [pops_done, pushes_done, List.countP_cons, List.length_append,
          List.length_singleton] at b ⊢
        simp at b ⊢
        omega
      · have hstep : fifo_step N (L, d) (.push entry) =
            (.pushed .HG_UTIL_FAIL, (L, d + 1)) := by simp [fifo_step, hfull]
        obtain ⟨a, b⟩ := ih L (d + 1) hL hp2
        simp only [fifo_run, hstep]
        refine ⟨a, ?_⟩
        simp only [pops_done, pushes_done, List.countP_cons] at b ⊢
        simp at b ⊢
        omega
    | pop_sc => exact hpop .pop_sc rfl hp (by cases L <;> rfl)
    | pop_mc => exact hpop .pop_mc rfl hp (by cases L <;> rfl)

/-! ## C1: round trip of `hg_set_struct` and `hg_get_struct` -/

/-- C1: round trip of the framing engine.  For a direction `op` the switch lets
through, collaborators and a codec `cb` that obey `RoundTripLaws`, and a
non-null user struct: when `hg_set_struct` returns `HG_SUCCESS` and a receiver
whose registration has the same codec holds, in an eager buffer of the same
size, the header bytes and the payload bytes the sender's eager buffer holds,
with its spill slot empty when the encoding fitted the eager buffer and holding
a byte-identical copy of the sender's spill buffer, of the recorded size, when
it did not, then `hg_get_struct` returns `HG_SUCCESS` and the struct it yields
equals the one that was encoded.  The receiver's proc is not `HG_PROC_NULL`
and the eager size is a value of `hg_size_t`. -/
theorem set_get_round_trip {σ Hdr S : Type} (E : Env σ Hdr)
    (rd : σ → Ptr → hg_size_t → List Nat) (val : σ → Ptr → S)
    (cb : hg_proc_cb_t σ) (op : hg_op_t) (laws : RoundTripLaws E rd val cb op)
    -- sender
    (w : σ) (handle : hg_handle) (pd : hg_private_data σ Hdr) (pi : hg_proc_info σ)
    (struct_ptr : Ptr) (payload_size : hg_size_t) (more_data : Bool)
    (hop : valid_op pi op) (hbuf : (core_buf E handle op).1 = .HG_SUCCESS)
    (hcb : proc_cb_of pi op = some cb) (hptr : struct_ptr ≠ 0)
    (hset : (hg_set_struct E w handle pd pi op struct_ptr payload_size more_data).ret
      = .HG_SUCCESS)
    -- receiver
    (v : σ) (rhandle : hg_handle) (qd : hg_private_data σ Hdr) (rpi : hg_proc_info σ)
    (out_ptr : Ptr)
    (hrop : valid_op rpi op) (hrbuf : (core_buf E rhandle op).1 = .HG_SUCCESS)
    (hrcb : proc_cb_of rpi op = some cb) (hrptr : out_ptr ≠ 0)
    (hrproc : proc_of qd op ≠ 0)
    (hrange : (core_buf E handle op).2.2 < 2 ^ E.size_bits)
    -- same eager buffer
    (hsize : (core_buf E rhandle op).2.2 = (core_buf E handle op).2.2)
    (hhdr : rd v (core_buf E rhandle op).2.1 (E.hg_header_get_size op) =
      rd (hg_set_struct E w handle pd pi op struct_ptr payload_size more_data).world
        (core_buf E handle op).2.1 (E.hg_header_get_size op))
    (hfit : set_extra_buf E w handle pd op cb struct_ptr = 0 →
      qd.extra_bulk_buf = 0 ∧
      rd v ((core_buf E rhandle op).2.1 + E.hg_header_get_size op)
          (set_size_used E w handle pd op cb struct_ptr) =
        rd (hg_set_struct E w handle pd pi op struct_ptr payload_size more_data).world
          ((core_buf E handle op).2.1 + E.hg_header_get_size op)
          (set_size_used E w handle pd op cb struct_ptr))
    (hspill : set_extra_buf E w handle pd op cb struct_ptr ≠ 0 →
      qd.extra_bulk_buf ≠ 0 ∧
      qd.extra_bulk_buf_size =
        (hg_set_struct E w handle pd pi op struct_ptr payload_size
          more_data).priv.extra_bulk_buf_size ∧
      rd v qd.extra_bulk_buf qd.extra_bulk_buf_size =
        rd (hg_set_struct E w handle pd pi op struct_ptr payload_size more_data).world
          (hg_set_struct E w handle pd pi op struct_ptr payload_size
            more_data).priv.extra_bulk_buf
          (hg_set_struct E w handle pd pi op struct_ptr payload_size
            more_data).priv.extra_bulk_buf_size) :
    (hg_get_struct E v rhandle qd rpi op out_ptr).ret = .HG_SUCCESS ∧
    val (hg_get_struct E v rhandle qd rpi op out_ptr).world out_ptr = val w struct_ptr := by
  -- the receiver, given where the encoded bytes are and that the header decodes
  have recv : ∀ (rb : Ptr) (rn : hg_size_t),
      decode_region E qd op (core_buf E rhandle op).2.1 (core_buf E rhandle op).2.2
        = (rb, rn) →
      (get_header E v rhandle qd op).1 = .HG_SUCCESS →
      (E.has_checksums = true →
        E.hash_payload op (get_header E v rhandle qd op).2.2 =
          (set_checksum E w handle pd op cb struct_ptr).2) →
      (set_pass E w handle pd op cb struct_ptr).1 = .HG_SUCCESS →
      (set_checksum E w handle pd op cb struct_ptr).1 = .HG_SUCCESS →
      rn = (if set_extra_buf E w handle pd op cb struct_ptr ≠ 0
        then set_size_used E w handle pd op cb struct_ptr
        else size_sub E (core_buf E handle op).2.2 (E.hg_header_get_size op)) →
      rd v rb (set_size_used E w handle pd op cb struct_ptr) =
        rd (set_pass E w handle pd op cb struct_ptr).2
          (if set_extra_buf E w handle pd op cb struct_ptr ≠ 0
            then set_extra_buf E w handle pd op cb struct_ptr
            else (core_buf E handle op).2.1 + E.hg_header_get_size op)
          (set_size_used E w handle pd op cb struct_ptr) →
      (hg_get_struct E v rhandle qd rpi op out_ptr).ret = .HG_SUCCESS ∧
      val (hg_get_struct E v rhandle qd rpi op out_ptr).world out_ptr = val w struct_ptr := by
    intro rb rn hreg hh hhash hp hc hrn hrd
    have hrd' : rd (get_header E v rhandle qd op).2.1 rb
        (set_size_used E w handle pd op cb struct_ptr) =
        rd (set_pass E w handle pd op cb struct_ptr).2
          (if set_extra_buf E w handle pd op cb struct_ptr ≠ 0
            then set_extra_buf E w handle pd op cb struct_ptr
            else (core_buf E handle op).2.1 + E.hg_header_get_size op)
          (set_size_used E w handle pd op cb struct_ptr) := by
      rw [get_header, laws.header_reads]; exact hrd
    obtain ⟨hq1, hq2, hq3⟩ := laws.codec_round_trip w (proc_of pd op)
      ((core_buf E handle op).2.1 + E.hg_header_get_size op)
      (size_sub E (core_buf E handle op).2.2 (E.hg_header_get_size op)) struct_ptr hptr hp
      (get_header E v rhandle qd op).2.1 (proc_of qd op) rb rn out_ptr hrproc hrptr hrn hrd'
    have hpass : get_pass E v rhandle qd op cb out_ptr =
        codec_pass E (get_header E v rhandle qd op).2.1 (proc_of qd op) cb rb rn
          .HG_DECODE out_ptr := by
      simp only [get_pass, hreg]
    rw [hg_get_struct_eq_decode E v rhandle qd rpi op out_ptr hrop hrbuf, hrcb]
    obtain ⟨hg1, hg2⟩ := hg_get_struct_decode_success E v rhandle qd op out_ptr cb hh
      (by rw [hpass]; exact hq1)
      (by
        intro hk
        rw [hpass, hhash hk]
        have hcg : set_checksum E w handle pd op cb struct_ptr =
            E.hg_proc_checksum_get (set_pass E w handle pd op cb struct_ptr).2 (proc_of pd op)
              (E.hash_payload op (E.hg_header_reset pd.hg_header op)) := by
          simp only [set_checksum, hk, if_true]
        rw [hcg] at hc ⊢
        exact hq3 _ hc)
    refine ⟨hg1, ?_⟩
    rw [hg2, hpass]
    exact hq2
  -- the sender
  rw [hg_set_struct_eq_encode E w handle pd pi op struct_ptr payload_size more_data hop hbuf,
    hcb] at hset hhdr hfit hspill
  obtain ⟨hp, hc, hcase⟩ := hg_set_struct_encode_success E w handle pd op struct_ptr
    payload_size more_data cb hptr hset
  have hsz : (core_buf E rhandle op).2.2 = (core_buf E handle op).2.2 := hsize
  rcases hcase with he | ⟨he, hxdr, hb, hd, hdfit⟩
  · -- the encoding fits the eager buffer
    have heq := hg_set_struct_encode_fit E w handle pd op struct_ptr payload_size
      more_data cb hptr hp hc he
    rw [heq] at hset hhdr hfit
    have hret := hg_set_struct_header_ret E (set_pass E w handle pd op cb struct_ptr).2
      (priv_hashed E w handle pd op cb struct_ptr) payload_size more_data
      (E.hg_header_get_size op) (proc_of pd op)
      ((core_buf E handle op).2.1 + E.hg_header_get_size op)
      (size_sub E (core_buf E handle op).2.2 (E.hg_header_get_size op))
    rw [hg_set_struct_header_success E _ _ _ _ _ _ _ _ hset] at hhdr hfit
    rw [hset, Nat.add_sub_cancel, size_add_sub_cancel E _ _ hrange, priv_hashed_header]
      at hret
    simp only [Nat.add_sub_cancel, size_add_sub_cancel E _ _ hrange, priv_hashed_header]
      at hhdr hfit
    obtain ⟨hq0, hrdp⟩ := hfit he
    obtain ⟨hh1, hh2⟩ := laws.header_round_trip _ _ _ _ _ hret.symm v
      (core_buf E rhandle op).2.1 qd.hg_header hhdr
    rw [laws.header_writes] at hrdp
    refine recv ((core_buf E rhandle op).2.1 + E.hg_header_get_size op)
      (size_sub E (core_buf E rhandle op).2.2 (E.hg_header_get_size op)) ?_ ?_ ?_ hp hc ?_ ?_
    · simp [decode_region, hq0]
    · rw [get_header, hsz]; exact hh1
    · intro hk; rw [get_header, hsz]; exact hh2 hk
    · simp [he, hsz]
    · simp only [he, ne_eq, not_true_eq_false, if_false]; exact hrdp
  · -- the encoding spilled into the auxiliary buffer
    have heq := hg_set_struct_encode_spill E w handle pd op struct_ptr payload_size
      more_data cb hptr hxdr hp hc he hb hd hdfit
    rw [heq] at hset hhdr hspill
    have hret := hg_set_struct_header_ret E (set_desc E w handle pd op cb struct_ptr).2
      (priv_spilled E w handle pd op cb struct_ptr) payload_size true
      (E.hg_header_get_size op) (proc_of pd op)
      ((core_buf E handle op).2.1 + E.hg_header_get_size op)
      (size_sub E (core_buf E handle op).2.2 (E.hg_header_get_size op))
    have hsp : (priv_spilled E w handle pd op cb struct_ptr).hg_header =
        sent_header E pd.hg_header op (set_checksum E w handle pd op cb struct_ptr).2 :=
      priv_hashed_header E w handle pd op cb struct_ptr
    rw [hg_set_struct_header_success E _ _ _ _ _ _ _ _ hset] at hhdr hspill
    rw [hset, Nat.add_sub_cancel, size_add_sub_cancel E _ _ hrange, hsp] at hret
    simp only [Nat.add_sub_cancel, size_add_sub_cancel E _ _ hrange, hsp] at hhdr hspill
    obtain ⟨hq0, hqn, hrdp⟩ := hspill he
    obtain ⟨hh1, hh2⟩ := laws.header_round_trip _ _ _ _ _ hret.symm v
      (core_buf E rhandle op).2.1 qd.hg_header hhdr
    have hqn' : qd.extra_bulk_buf_size = set_size_used E w handle pd op cb struct_ptr := hqn
    have hkept := laws.spill_kept w handle pd struct_ptr (core_buf E handle op).2.2
      (set_checksum E w handle pd op cb struct_ptr).2 hp he hb hd hdfit
    refine recv qd.extra_bulk_buf qd.extra_bulk_buf_size ?_ ?_ ?_ hp hc ?_ ?_
    · simp [decode_region, hq0]
    · rw [get_header, hsz]; exact hh1
    · intro hk; rw [get_header, hsz]; exact hh2 hk
    · simp [he, hqn']
    · simp only [he, ne_eq, not_false_eq_true, if_true]
      rw [← hkept]
      rw [hqn'] at hrdp
      exact hrdp

/-- Witness of C1, in the reference instance with checksums.  Spill: the
two-byte struct `5 6` is sent as a request through a 3-byte eager buffer (one
payload byte), the receiver holds the eager bytes and, at `500`, a copy of the
two spilled bytes.  Fit: the same struct is sent as a response through a
16-byte eager buffer, the receiver's output buffer is at `500`.  Both decode to
`5 6`. -/
theorem set_get_round_trip_witness :
    ((hg_get_struct (refEnv true false)
        (refReceiverWorld
          (hg_set_struct (refEnv true false) (refWorld0 5 6 0 0) (refHandle 3) refPriv
            (refInfo (some ref_codec2) false) .HG_INPUT 1000 0 false).world 3 104 2)
        (refHandle 3) { refPriv with extra_bulk_buf := 500, extra_bulk_buf_size := 2 }
        (refInfo (some ref_codec2) false) .HG_INPUT 2000).ret = .HG_SUCCESS ∧
      ref_val (hg_get_struct (refEnv true false)
        (refReceiverWorld
          (hg_set_struct (refEnv true false) (refWorld0 5 6 0 0) (refHandle 3) refPriv
            (refInfo (some ref_codec2) false) .HG_INPUT 1000 0 false).world 3 104 2)
        (refHandle 3) { refPriv with extra_bulk_buf := 500, extra_bulk_buf_size := 2 }
        (refInfo (some ref_codec2) false) .HG_INPUT 2000).world 2000 = (5, 6)) ∧
    ((hg_get_struct (refEnv true false)
        (refReceiverWorld
          (hg_set_struct (refEnv true false) (refWorld0 5 6 0 0) (refHandle 16) refPriv
            (refInfo (some ref_codec2) false) .HG_OUTPUT 1000 0 false).world 0 200 16)
        { refHandle 16 with out_buf := 500 } refPriv
        (refInfo (some ref_codec2) false) .HG_OUTPUT 2000).ret = .HG_SUCCESS ∧
      ref_val (hg_get_struct (refEnv true false)
        (refReceiverWorld
          (hg_set_struct (refEnv true false) (refWorld0 5 6 0 0) (refHandle 16) refPriv
            (refInfo (some ref_codec2) false) .HG_OUTPUT 1000 0 false).world 0 200 16)
        { refHandle 16 with out_buf := 500 } refPriv
        (refInfo (some ref_codec2) false) .HG_OUTPUT 2000).world 2000 = (5, 6)) :=
  ⟨set_get_round_trip (refEnv true false) ref_rd ref_val ref_codec2 .HG_INPUT
      (ref_round_trip_laws true .HG_INPUT)
      (refWorld0 5 6 0 0) (refHandle 3) refPriv (refInfo (some ref_codec2) false) 1000 0 false
      (Or.inl rfl) (by decide) rfl (by decide) (by decide)
      (refReceiverWorld
        (hg_set_struct (refEnv true false) (refWorld0 5 6 0 0) (refHandle 3) refPriv
          (refInfo (some ref_codec2) false) .HG_INPUT 1000 0 false).world 3 104 2)
      (refHandle 3) { refPriv with extra_bulk_buf := 500, extra_bulk_buf_size := 2 }
      (refInfo (some ref_codec2) false) 2000
      (Or.inl rfl) (by decide) rfl (by decide) (by decide) (by decide) rfl (by decide)
      (fun h => absurd h (by decide))
      (fun _ => ⟨by decide, by decide, by decide⟩),
   set_get_round_trip (refEnv true false) ref_rd ref_val ref_codec2 .HG_OUTPUT
      (ref_round_trip_laws true .HG_OUTPUT)
      (refWorld0 5 6 0 0) (refHandle 16) refPriv (refInfo (some ref_codec2) false) 1000 0
      false
      (Or.inr ⟨rfl, rfl⟩) (by decide) rfl (by decide) (by decide)
      (refReceiverWorld
        (hg_set_struct (refEnv true false) (refWorld0 5 6 0 0) (refHandle 16) refPriv
          (refInfo (some ref_codec2) false) .HG_OUTPUT 1000 0 false).world 0 200 16)
      { refHandle 16 with out_buf := 500 } refPriv
      (refInfo (some ref_codec2) false) 2000
      (Or.inr ⟨rfl, rfl⟩) (by decide) rfl (by decide) (by decide) (by decide) rfl (by decide)
      (fun _ => ⟨by decide, by decide⟩)
      (fun h => absurd rfl h)⟩

/-! ## C2: reference count taken by `hg_get_struct` -/

/-- C2: `hg_get_struct` increments the handle reference count exactly once
when it returns `HG_SUCCESS` (the handle is otherwise unchanged) and leaves the
handle as it is whenever it returns anything else, whichever step failed.  In
particular, in a build with checksums, when the header decode and the codec
pass succeed and the checksum comparison reports `HG_CHECKSUM_ERROR`, that code
is what `hg_get_struct` returns, with the reference count unchanged. -/
theorem hg_get_struct_ref_count {σ Hdr : Type} (E : Env σ Hdr) (w : σ)
    (handle : hg_handle) (pd : hg_private_data σ Hdr) (pi : hg_proc_info σ) (op : hg_op_t)
    (struct_ptr : Ptr) :
    ((hg_get_struct E w handle pd pi op struct_ptr).ret = .HG_SUCCESS →
      (hg_get_struct E w handle pd pi op struct_ptr).handle =
        { handle with ref_count := handle.ref_count + 1 }) ∧
    ((hg_get_struct E w handle pd pi op struct_ptr).ret ≠ .HG_SUCCESS →
      (hg_get_struct E w handle pd pi op struct_ptr).handle = handle) ∧
    (∀ cb : hg_proc_cb_t σ,
      valid_op pi op → (core_buf E handle op).1 = .HG_SUCCESS →
      proc_cb_of pi op = some cb → E.has_checksums = true →
      (get_header E w handle pd op).1 = .HG_SUCCESS →
      (get_pass E w handle pd op cb struct_ptr).1 = .HG_SUCCESS →
      E.hg_proc_checksum_verify (get_pass E w handle pd op cb struct_ptr).2 (proc_of pd op)
        (E.hash_payload op (get_header E w handle pd op).2.2) = .HG_CHECKSUM_ERROR →
      (hg_get_struct E w handle pd pi op struct_ptr).ret = .HG_CHECKSUM_ERROR ∧
      (hg_get_struct E w handle pd pi op struct_ptr).handle.ref_count = handle.ref_count) := by
  have key := hg_get_struct_handle E w handle pd pi op struct_ptr
  simp only at key
  refine ⟨?_, ?_, ?_⟩
  · intro h
    rcases key with ⟨_, h2⟩ | ⟨h1, _⟩
    · exact h2
    · exact absurd h h1
  · intro h
    rcases key with ⟨h1, _⟩ | ⟨_, h2⟩
    · exact absurd h1 h
    · exact h2
  · intro cb hop hbuf hcb hck hh hp hv
    have hret : (hg_get_struct E w handle pd pi op struct_ptr).ret = .HG_CHECKSUM_ERROR := by
      rw [hg_get_struct_eq_decode E w handle pd pi op struct_ptr hop hbuf, hcb]
      simp only [hg_get_struct_decode]
      simp only [get_pass, get_header, codec_pass, decode_region] at hh hp hv
      split_ifs at hp hv ⊢ <;> simp_all
    refine ⟨hret, ?_⟩
    rcases key with ⟨h1, _⟩ | ⟨_, h2⟩
    · rw [hret] at h1; exact absurd h1 (by decide)
    · rw [h2]

/-- Witness of C2: a receiver decodes a request whose first payload byte was
corrupted after encoding; the comparison fails, `HG_CHECKSUM_ERROR` comes back
and the reference count stays at `1`. -/
theorem hg_get_struct_ref_count_witness :
    (hg_get_struct (refEnv true false) refCorruptWorld (refHandle 16) refPriv
      (refInfo (some ref_codec4) false) .HG_INPUT 2000).ret = .HG_CHECKSUM_ERROR ∧
    (hg_get_struct (refEnv true false) refCorruptWorld (refHandle 16) refPriv
      (refInfo (some ref_codec4) false) .HG_INPUT 2000).handle.ref_count = 1 :=
  (hg_get_struct_ref_count (refEnv true false) refCorruptWorld (refHandle 16) refPriv
    (refInfo (some ref_codec4) false) .HG_INPUT 2000).2.2 ref_codec4
    (Or.inl rfl) (by decide) rfl rfl (by decide) (by decide) (by decide)

/-! ## C3: reference-count balance -/

/-- C3: over every finite sequence of `hg_get_struct` and `hg_free_struct`
calls on a handle, the reference count at the end is the count at the start
plus the number of `hg_get_struct` calls that returned `HG_SUCCESS` minus the
number of `hg_free_struct` calls that returned `HG_SUCCESS`; in particular a
successful get followed by a successful free restores the count. -/
theorem ref_count_balance {σ Hdr : Type} (E : Env σ Hdr) (s : HandleState σ Hdr)
    (calls : List (FramingCall σ)) :
    (run_calls E s calls).handle.ref_count =
      s.handle.ref_count + (gets_done E s calls : Int) - (frees_done E s calls : Int) ∧
    (∀ (pi pi' : hg_proc_info σ) (op op' : hg_op_t) (p p' : Ptr),
      gets_done E s [.get pi op p, .free pi' op' p'] = 1 →
      frees_done E s [.get pi op p, .free pi' op' p'] = 1 →
      (run_calls E s [.get pi op p, .free pi' op' p']).handle.ref_count =
        s.handle.ref_count) := by
  have main : ∀ (calls : List (FramingCall σ)) (s : HandleState σ Hdr),
      (run_calls E s calls).handle.ref_count =
        s.handle.ref_count + (gets_done E s calls : Int) - (frees_done E s calls : Int) := by
    intro calls
    induction calls with
    | nil => intro s; simp [run_calls, gets_done, frees_done]
    | cons c cs ih =>
      intro s
      simp only [run_calls, gets_done, frees_done]
      rw [ih]
      cases c with
      | get pi op p =>
        rcases hg_get_struct_handle E s.world s.handle s.priv pi op p with ⟨h1, h2⟩ | ⟨h1, h2⟩
        · simp only [run_call, h1, h2]; push_cast; simp; ring
        · simp only [run_call, h2, if_neg h1]; push_cast; simp
      | free pi op p =>
        rcases hg_free_struct_handle E s.world s.handle s.priv pi op p with ⟨h1, h2⟩ | ⟨h1, h2⟩
        · simp only [run_call, h1, h2]; push_cast; simp; ring
        · simp only [run_call, h2, if_neg h1]; push_cast; simp
  refine ⟨main calls s, ?_⟩
  intro pi pi' op op' p p' hg hf
  rw [main, hg, hf]
  simp

/-- Witness of C3: a request is encoded, decoded (`HG_SUCCESS`) and freed
(`HG_SUCCESS`) on a handle whose count starts at `1`; the count is `1`
again. -/
theorem ref_count_balance_witness :
    (run_calls (refEnv true false)
      ⟨(hg_set_struct (refEnv true false) (refWorld0 5 6 7 8) (refHandle 16) refPriv
          (refInfo (some ref_codec4) false) .HG_INPUT 1000 0 false).world,
        refHandle 16, refPriv⟩
      [.get (refInfo (some ref_codec4) false) .HG_INPUT 2000,
       .free (refInfo (some ref_codec4) false) .HG_INPUT 2000]).handle.ref_count = 1 :=
  (ref_count_balance (refEnv true false)
    ⟨(hg_set_struct (refEnv true false) (refWorld0 5 6 7 8) (refHandle 16) refPriv
        (refInfo (some ref_codec4) false) .HG_INPUT 1000 0 false).world,
      refHandle 16, refPriv⟩ []).2
    (refInfo (some ref_codec4) false) (refInfo (some ref_codec4) false)
    .HG_INPUT .HG_INPUT 2000 2000 (by decide) (by decide)

/-! ## C4: `HG_Get_output` on an RPC registered without response -/

/-- C4: when the registration of the handle has the response-suppressed flag
set, `hg_get_struct` with op `HG_OUTPUT` returns `HG_PROTOCOL_ERROR` and leaves
the world, the handle (reference count included) and the private data as they
were, whatever the collaborators are: the output buffer is not fetched and no
codec runs.  So does `HG_Get_output`.  Once
`HG_Registered_disable_response(id, false)` has run on the handle's id, which
succeeds, `HG_Get_output` goes on to fetch the output buffer and, when that
succeeds, to the decoding body of `hg_get_struct`. -/
theorem get_output_response_suppressed {σ Hdr : Type} (E : Env σ Hdr) (cls : hg_class σ)
    (w : σ) (handle : hg_handle) (pd : hg_private_data σ Hdr) (pi : hg_proc_info σ)
    (out_struct : Ptr)
    (hreg : hg_core_get_rpc_data cls handle = some pi) (hno : pi.no_response = true)
    (hptr : out_struct ≠ 0) :
    hg_get_struct E w handle pd pi .HG_OUTPUT out_struct =
      ⟨.HG_PROTOCOL_ERROR, w, handle, pd⟩ ∧
    HG_Get_output E cls w handle (some pd) out_struct =
      ⟨.HG_PROTOCOL_ERROR, w, handle, some pd⟩ ∧
    (HG_Registered_disable_response cls handle.info.id false).1 = .HG_SUCCESS ∧
    HG_Get_output E (HG_Registered_disable_response cls handle.info.id false).2 w handle
        (some pd) out_struct =
      (if (E.HG_Core_get_output handle).1 ≠ .HG_SUCCESS then
        ⟨(E.HG_Core_get_output handle).1, w, handle, some pd⟩
      else
        ⟨(hg_get_struct_decode E w handle pd .HG_OUTPUT out_struct
            (E.hg_header_get_size .HG_OUTPUT) pd.out_proc pi.out_proc_cb
            (E.HG_Core_get_output handle).2.1 (E.HG_Core_get_output handle).2.2).ret,
          (hg_get_struct_decode E w handle pd .HG_OUTPUT out_struct
            (E.hg_header_get_size .HG_OUTPUT) pd.out_proc pi.out_proc_cb
            (E.HG_Core_get_output handle).2.1 (E.HG_Core_get_output handle).2.2).world,
          (hg_get_struct_decode E w handle pd .HG_OUTPUT out_struct
            (E.hg_header_get_size .HG_OUTPUT) pd.out_proc pi.out_proc_cb
            (E.HG_Core_get_output handle).2.1 (E.HG_Core_get_output handle).2.2).handle,
          some (hg_get_struct_decode E w handle pd .HG_OUTPUT out_struct
            (E.hg_header_get_size .HG_OUTPUT) pd.out_proc pi.out_proc_cb
            (E.HG_Core_get_output handle).2.1 (E.HG_Core_get_output handle).2.2).priv⟩) := by
  have hreg' : cls.rpc_data handle.info.id = some pi := hreg
  refine ⟨?_, ?_, ?_, ?_⟩
  · simp [hg_get_struct, hno]
  · simp [HG_Get_output, hptr, hreg, hg_get_struct, hno]
  · simp [HG_Registered_disable_response, HG_Core_registered_data, hreg']
  · simp only [HG_Get_output, if_neg hptr, HG_Registered_disable_response,
      HG_Core_registered_data, hreg', hg_core_get_rpc_data, if_true, hg_get_struct]
    split_ifs <;> simp_all

/-- Witness of C4: on the handle of RPC id `7`, registered without response,
`HG_Get_output` returns `HG_PROTOCOL_ERROR`; after
`HG_Registered_disable_response(7, false)` the same call decodes the response
and returns `HG_SUCCESS`. -/
theorem get_output_response_suppressed_witness :
    (HG_Get_output (refEnv true false) (refClass true) refResponseWorld (refHandle 16)
      (some refPriv) 2000).ret = .HG_PROTOCOL_ERROR ∧
    (HG_Get_output (refEnv true false)
      (HG_Registered_disable_response (refClass true) 7 false).2 refResponseWorld
      (refHandle 16) (some refPriv) 2000).ret = .HG_SUCCESS :=
  ⟨congrArg HandleResult.ret
    (get_output_response_suppressed (refEnv true false) (refClass true) refResponseWorld
      (refHandle 16) refPriv (refInfo (some ref_codec2) true) 2000 rfl rfl
      (by decide)).2.1,
   by decide⟩

/-! ## C5: `HG_Respond` on an RPC registered without response -/

/-- C5: when the registration of the handle has the response-suppressed flag
set, `HG_Respond` returns `HG_PROTOCOL_ERROR` for every callback, argument and
`out_struct` (null or not) and every private data (present or not), and leaves
the world, the handle and the private data as they were, whatever the
collaborators are: `HG_Core_respond` is not invoked. -/
theorem respond_response_suppressed {σ Hdr : Type} (E : Env σ Hdr) (cls : hg_class σ)
    (w : σ) (handle : hg_handle) (priv : Option (hg_private_data σ Hdr))
    (pi : hg_proc_info σ) (callback : Option (hg_cb_t σ)) (arg out_struct : Ptr)
    (payload_size : hg_size_t)
    (hreg : hg_core_get_rpc_data cls handle = some pi) (hno : pi.no_response = true) :
    HG_Respond E cls w handle priv callback arg out_struct payload_size =
      ⟨.HG_PROTOCOL_ERROR, w, handle, priv⟩ := by
  cases priv with
  | none => simp [HG_Respond]
  | some pd => simp [HG_Respond, hreg, hg_set_struct, hno]

/-- Witness of C5: on the handle of RPC id `7`, registered without response,
`HG_Respond` returns `HG_PROTOCOL_ERROR` and the transport of the reference
instance has been handed no response. -/
theorem respond_response_suppressed_witness :
    (HG_Respond (refEnv true false) (refClass true) (refWorld0 5 6 0 0) (refHandle 16)
      (some refPriv) none 0 1000 0).ret = .HG_PROTOCOL_ERROR ∧
    (HG_Respond (refEnv true false) (refClass true) (refWorld0 5 6 0 0) (refHandle 16)
      (some refPriv) none 0 1000 0).world.responses = [] :=
  ⟨congrArg HandleResult.ret
    (respond_response_suppressed (refEnv true false) (refClass true) (refWorld0 5 6 0 0)
      (refHandle 16) (some refPriv) (refInfo (some ref_codec2) true) none 0 1000 0 rfl rfl),
   by decide⟩

/-! ## C6: `hg_get_struct` without a codec -/

/-- C6: for a valid op whose core buffer is obtained, when the registration
has no codec for the direction `hg_get_struct` returns `HG_PROTOCOL_ERROR` and
leaves the world, the handle and the private data (header scratch included) as
they were, whatever the collaborators are: the header is neither reset nor
decoded and no codec runs. -/
theorem hg_get_struct_no_codec {σ Hdr : Type} (E : Env σ Hdr) (w : σ)
    (handle : hg_handle) (pd : hg_private_data σ Hdr) (pi : hg_proc_info σ) (op : hg_op_t)
    (struct_ptr : Ptr)
    (hop : valid_op pi op) (hbuf : (core_buf E handle op).1 = .HG_SUCCESS)
    (hcb : proc_cb_of pi op = none) :
    hg_get_struct E w handle pd pi op struct_ptr = ⟨.HG_PROTOCOL_ERROR, w, handle, pd⟩ := by
  rw [hg_get_struct_eq_decode E w handle pd pi op struct_ptr hop hbuf, hcb]
  rfl

/-- Witness of C6: a registration without codecs, op `HG_INPUT`. -/
theorem hg_get_struct_no_codec_witness :
    hg_get_struct (refEnv true false) (refWorld0 5 6 0 0) (refHandle 16) refPriv
      (refInfo none false) .HG_INPUT 2000 =
      ⟨.HG_PROTOCOL_ERROR, refWorld0 5 6 0 0, refHandle 16, refPriv⟩ :=
  hg_get_struct_no_codec (refEnv true false) (refWorld0 5 6 0 0) (refHandle 16) refPriv
    (refInfo none false) .HG_INPUT 2000 (Or.inl rfl) (by decide) rfl

/-! ## C7: spill detection in `hg_set_struct` -/

/-- C7: spill detection in `hg_set_struct`, build without XDR.  On every call
that returns `HG_SUCCESS`: when the codec ran and reported an auxiliary buffer
after the pass over the user struct, `more_data` is true, the extra-buffer slot
holds that buffer and the size the codec had used at that moment, and
`HG_Bulk_create` has succeeded, read-only, over exactly that buffer and size,
in the world where the proc has been told the buffer is no longer its own;
when the codec ran and reported none, or did not run (silent skip),
`more_data` and the slot are as they were on entry.  So, entered with
`more_data` false as `HG_Forward` and `HG_Respond` do, `more_data` comes back
true if and only if the codec reported an auxiliary buffer. -/
theorem hg_set_struct_spill_detection {σ Hdr : Type} (E : Env σ Hdr) (w : σ)
    (handle : hg_handle) (pd : hg_private_data σ Hdr) (pi : hg_proc_info σ) (op : hg_op_t)
    (struct_ptr : Ptr) (payload_size : hg_size_t) (more_data : Bool)
    (hxdr : E.has_xdr = false)
    (hop : valid_op pi op) (hbuf : (core_buf E handle op).1 = .HG_SUCCESS)
    (hr : (hg_set_struct E w handle pd pi op struct_ptr payload_size more_data).ret
      = .HG_SUCCESS) :
    (∀ cb : hg_proc_cb_t σ, proc_cb_of pi op = some cb → struct_ptr ≠ 0 →
      (set_extra_buf E w handle pd op cb struct_ptr ≠ 0 →
        (hg_set_struct E w handle pd pi op struct_ptr payload_size more_data).more_data
          = true ∧
        (hg_set_struct E w handle pd pi op struct_ptr payload_size more_data).priv.extra_bulk_buf
          = E.hg_proc_get_extra_buf (set_pass E w handle pd op cb struct_ptr).2
              (proc_of pd op) ∧
        (hg_set_struct E w handle pd pi op struct_ptr payload_size
            more_data).priv.extra_bulk_buf_size
          = E.hg_proc_get_size_used (set_pass E w handle pd op cb struct_ptr).2
              (proc_of pd op) ∧
        (E.HG_Bulk_create
          (E.hg_proc_set_extra_buf_is_mine (set_pass E w handle pd op cb struct_ptr).2
            (proc_of pd op) true)
          handle.info.hg_class
          (E.hg_proc_get_extra_buf (set_pass E w handle pd op cb struct_ptr).2 (proc_of pd op))
          (E.hg_proc_get_size_used (set_pass E w handle pd op cb struct_ptr).2 (proc_of pd op))
          .HG_BULK_READ_ONLY pd.extra_bulk_handle).1 = .HG_SUCCESS) ∧
      (set_extra_buf E w handle pd op cb struct_ptr = 0 →
        (hg_set_struct E w handle pd pi op struct_ptr payload_size more_data).more_data
          = more_data ∧
        spill_slot (hg_set_struct E w handle pd pi op struct_ptr payload_size more_data).priv
          = spill_slot pd) ∧
      (more_data = false →
        ((hg_set_struct E w handle pd pi op struct_ptr payload_size more_data).more_data
          = true ↔ set_extra_buf E w handle pd op cb struct_ptr ≠ 0))) ∧
    ((proc_cb_of pi op = none ∨ struct_ptr = 0) →
      (hg_set_struct E w handle pd pi op struct_ptr payload_size more_data).more_data
        = more_data ∧
      spill_slot (hg_set_struct E w handle pd pi op struct_ptr payload_size more_data).priv
        = spill_slot pd) := by
  constructor
  · intro cb hcb hptr
    rw [hg_set_struct_eq_encode E w handle pd pi op struct_ptr payload_size more_data hop hbuf,
      hcb] at hr ⊢
    obtain ⟨hp, hc, hcase⟩ := hg_set_struct_encode_success E w handle pd op struct_ptr
      payload_size more_data cb hptr hr
    have hspill : set_extra_buf E w handle pd op cb struct_ptr ≠ 0 →
        (hg_set_struct_encode E w handle pd op struct_ptr payload_size more_data
          (E.hg_header_get_size op) (proc_of pd op) (some cb)
          (core_buf E handle op).2.1 (core_buf E handle op).2.2).more_data = true ∧
        (hg_set_struct_encode E w handle pd op struct_ptr payload_size more_data
          (E.hg_header_get_size op) (proc_of pd op) (some cb)
          (core_buf E handle op).2.1 (core_buf E handle op).2.2).priv.extra_bulk_buf
          = E.hg_proc_get_extra_buf (set_pass E w handle pd op cb struct_ptr).2
              (proc_of pd op) ∧
        (hg_set_struct_encode E w handle pd op struct_ptr payload_size more_data
          (E.hg_header_get_size op) (proc_of pd op) (some cb)
          (core_buf E handle op).2.1 (core_buf E handle op).2.2).priv.extra_bulk_buf_size
          = E.hg_proc_get_size_used (set_pass E w handle pd op cb struct_ptr).2
              (proc_of pd op) ∧
        (set_bulk E w handle pd op cb struct_ptr).1 = .HG_SUCCESS := by
      intro he
      rcases hcase with h0 | ⟨_, _, hb, hd, hfit⟩
      · exact absurd h0 he
      · have heq := hg_set_struct_encode_spill E w handle pd op struct_ptr payload_size
          more_data cb hptr hxdr hp hc he hb hd hfit
        rw [heq] at hr ⊢
        rw [hg_set_struct_header_success E _ _ _ _ _ _ _ _ hr]
        exact ⟨rfl, rfl, rfl, hb⟩
    have hfitc : set_extra_buf E w handle pd op cb struct_ptr = 0 →
        (hg_set_struct_encode E w handle pd op struct_ptr payload_size more_data
          (E.hg_header_get_size op) (proc_of pd op) (some cb)
          (core_buf E handle op).2.1 (core_buf E handle op).2.2).more_data = more_data ∧
        spill_slot (hg_set_struct_encode E w handle pd op struct_ptr payload_size more_data
          (E.hg_header_get_size op) (proc_of pd op) (some cb)
          (core_buf E handle op).2.1 (core_buf E handle op).2.2).priv = spill_slot pd := by
      intro he
      have heq := hg_set_struct_encode_fit E w handle pd op struct_ptr payload_size
        more_data cb hptr hp hc he
      rw [heq] at hr ⊢
      rw [hg_set_struct_header_success E _ _ _ _ _ _ _ _ hr]
      refine ⟨rfl, ?_⟩
      simp only [spill_slot, priv_hashed]
      split_ifs <;> rfl
    refine ⟨hspill, hfitc, ?_⟩
    intro hmd
    constructor
    · intro ht
      by_contra he
      have := (hfitc he).1
      rw [this, hmd] at ht
      exact absurd ht (by decide)
    · intro he
      exact (hspill he).1
  · intro hskip
    rw [hg_set_struct_skip E w handle pd pi op struct_ptr payload_size more_data hop
      hbuf hskip]
    exact ⟨rfl, rfl⟩

/-- Witness of C7: a four-byte struct does not fit the three payload bytes of
a 5-byte eager buffer; `more_data` is set and the slot holds the auxiliary
buffer (at address `106`) with its four bytes used. -/
theorem hg_set_struct_spill_detection_witness :
    (hg_set_struct (refEnv true false) (refWorld0 5 6 7 8) (refHandle 5) refPriv
      (refInfo (some ref_codec4) false) .HG_INPUT 1000 0 false).more_data = true ∧
    (hg_set_struct (refEnv true false) (refWorld0 5 6 7 8) (refHandle 5) refPriv
      (refInfo (some ref_codec4) false) .HG_INPUT 1000 0 false).priv.extra_bulk_buf = 106 ∧
    (hg_set_struct (refEnv true false) (refWorld0 5 6 7 8) (refHandle 5) refPriv
      (refInfo (some ref_codec4) false) .HG_INPUT 1000 0 false).priv.extra_bulk_buf_size = 4 :=
  have h := ((hg_set_struct_spill_detection (refEnv true false) (refWorld0 5 6 7 8)
    (refHandle 5) refPriv (refInfo (some ref_codec4) false) .HG_INPUT 1000 0 false rfl
    (Or.inl rfl) (by decide) (by decide)).1 ref_codec4 rfl (by decide)).1 (by decide)
  ⟨h.1, h.2.1.trans (by decide), h.2.2.1.trans (by decide)⟩

/-! ## C8: payload size reported by `hg_set_struct` -/

/-- C8: on every call of `hg_set_struct` that runs the codec (codec registered,
struct not null) and returns `HG_SUCCESS`, the reported `payload_size` is the
size used by the codec as the call returns plus the header size of the
direction, in `hg_size_t` arithmetic.  When the header codec leaves the size
used by a proc alone, that is the size used after the codec's last flush plus
the header size; it is `H + 4` when four bytes are used; and in the spill path
it is the header size plus the size used by the descriptor pass, while the
size of the spilled user payload is what the slot records. -/
theorem hg_set_struct_payload_size {σ Hdr : Type} (E : Env σ Hdr) (w : σ)
    (handle : hg_handle) (pd : hg_private_data σ Hdr) (pi : hg_proc_info σ) (op : hg_op_t)
    (struct_ptr : Ptr) (payload_size : hg_size_t) (more_data : Bool) (cb : hg_proc_cb_t σ)
    (hop : valid_op pi op) (hbuf : (core_buf E handle op).1 = .HG_SUCCESS)
    (hcb : proc_cb_of pi op = some cb) (hptr : struct_ptr ≠ 0)
    (hr : (hg_set_struct E w handle pd pi op struct_ptr payload_size more_data).ret
      = .HG_SUCCESS) :
    (hg_set_struct E w handle pd pi op struct_ptr payload_size more_data).payload_size =
      (E.hg_proc_get_size_used
        (hg_set_struct E w handle pd pi op struct_ptr payload_size more_data).world
        (proc_of pd op) + E.hg_header_get_size op) % 2 ^ E.size_bits ∧
    ((∀ (w1 : σ) (buf : Ptr) (n : hg_size_t) (hdr : Hdr) (proc : hg_proc_t),
        E.hg_proc_get_size_used (E.hg_header_proc .HG_ENCODE w1 buf n hdr).2.1 proc =
          E.hg_proc_get_size_used w1 proc) →
      (hg_set_struct E w handle pd pi op struct_ptr payload_size more_data).payload_size =
        (E.hg_proc_get_size_used (set_flushed E w handle pd op cb struct_ptr) (proc_of pd op)
          + E.hg_header_get_size op) % 2 ^ E.size_bits ∧
      (E.hg_proc_get_size_used (set_flushed E w handle pd op cb struct_ptr) (proc_of pd op)
          = 4 →
        E.hg_header_get_size op + 4 < 2 ^ E.size_bits →
        (hg_set_struct E w handle pd pi op struct_ptr payload_size more_data).payload_size =
          E.hg_header_get_size op + 4) ∧
      (set_extra_buf E w handle pd op cb struct_ptr ≠ 0 →
        (hg_set_struct E w handle pd pi op struct_ptr payload_size more_data).payload_size =
          (E.hg_proc_get_size_used (set_desc E w handle pd op cb struct_ptr).2 (proc_of pd op)
            + E.hg_header_get_size op) % 2 ^ E.size_bits ∧
        (hg_set_struct E w handle pd pi op struct_ptr payload_size
            more_data).priv.extra_bulk_buf_size =
          E.hg_proc_get_size_used (set_pass E w handle pd op cb struct_ptr).2
            (proc_of pd op))) := by
  rw [hg_set_struct_eq_encode E w handle pd pi op struct_ptr payload_size more_data hop hbuf,
    hcb] at hr ⊢
  obtain ⟨hp, hc, hcase⟩ := hg_set_struct_encode_success E w handle pd op struct_ptr
    payload_size more_data cb hptr hr
  rcases hcase with he | ⟨he, hxdr, hb, hd, hfit⟩
  · have heq := hg_set_struct_encode_fit E w handle pd op struct_ptr payload_size
      more_data cb hptr hp hc he
    rw [heq] at hr ⊢
    rw [hg_set_struct_header_success E _ _ _ _ _ _ _ _ hr]
    refine ⟨rfl, ?_⟩
    intro hframe
    have hfl : set_flushed E w handle pd op cb struct_ptr
        = (set_pass E w handle pd op cb struct_ptr).2 := by
      simp [set_flushed, he]
    have hps : size_add E (E.hg_proc_get_size_used
          (E.hg_header_proc .HG_ENCODE (set_pass E w handle pd op cb struct_ptr).2
            ((core_buf E handle op).2.1 + E.hg_header_get_size op - E.hg_header_get_size op)
            (size_add E (size_sub E (core_buf E handle op).2.2 (E.hg_header_get_size op))
              (E.hg_header_get_size op))
            (priv_hashed E w handle pd op cb struct_ptr).hg_header).2.1 (proc_of pd op))
          (E.hg_header_get_size op) =
        (E.hg_proc_get_size_used (set_flushed E w handle pd op cb struct_ptr) (proc_of pd op)
          + E.hg_header_get_size op) % 2 ^ E.size_bits := by
      rw [hframe, hfl]; rfl
    refine ⟨hps, ?_, ?_⟩
    · intro h4 hlt
      show size_add E _ _ = _
      rw [hps, h4, Nat.add_comm, Nat.mod_eq_of_lt hlt]
    · intro hne
      exact absurd he hne
  · have heq := hg_set_struct_encode_spill E w handle pd op struct_ptr payload_size
      more_data cb hptr hxdr hp hc he hb hd hfit
    rw [heq] at hr ⊢
    rw [hg_set_struct_header_success E _ _ _ _ _ _ _ _ hr]
    refine ⟨rfl, ?_⟩
    intro hframe
    have hfl : set_flushed E w handle pd op cb struct_ptr
        = (set_desc E w handle pd op cb struct_ptr).2 := by
      simp [set_flushed, he]
    have hps : size_add E (E.hg_proc_get_size_used
          (E.hg_header_proc .HG_ENCODE (set_desc E w handle pd op cb struct_ptr).2
            ((core_buf E handle op).2.1 + E.hg_header_get_size op - E.hg_header_get_size op)
            (size_add E (size_sub E (core_buf E handle op).2.2 (E.hg_header_get_size op))
              (E.hg_header_get_size op))
            (priv_spilled E w handle pd op cb struct_ptr).hg_header).2.1 (proc_of pd op))
          (E.hg_header_get_size op) =
        (E.hg_proc_get_size_used (set_flushed E w handle pd op cb struct_ptr) (proc_of pd op)
          + E.hg_header_get_size op) % 2 ^ E.size_bits := by
      rw [hframe, hfl]; rfl
    refine ⟨hps, ?_, ?_⟩
    · intro h4 hlt
      show size_add E _ _ = _
      rw [hps, h4, Nat.add_comm, Nat.mod_eq_of_lt hlt]
    · intro _
      refine ⟨?_, rfl⟩
      show size_add E _ _ = _
      rw [hps, hfl]

/-- Witness of C8: scenario "Small RPC", a 32-bit counter `42` forwarded in a
16-byte eager buffer: the payload size is the request header size `2` of the
reference instance plus `4`. -/
theorem hg_set_struct_payload_size_witness :
    (hg_set_struct (refEnv true false) (refWorld0 42 0 0 0) (refHandle 16) refPriv
      (refInfo (some ref_codec4) false) .HG_INPUT 1000 0 false).payload_size = 2 + 4 :=
  ((hg_set_struct_payload_size (refEnv true false) (refWorld0 42 0 0 0) (refHandle 16)
    refPriv (refInfo (some ref_codec4) false) .HG_INPUT 1000 0 false ref_codec4
    (Or.inl rfl) (by decide) rfl (by decide) (by decide)).2
    (fun w1 buf n hdr proc =>
      congrArg (fun f => (f proc).used) (ref_header_proc_procs .HG_ENCODE w1 buf n hdr))).2.1
    (by decide) (by decide)

/-! ## C9: silent skip of `hg_set_struct` -/

/-- C9: for a valid op whose core buffer is obtained, when the registration
has no codec for the direction or the struct pointer is null `hg_set_struct`
returns `HG_SUCCESS` with `payload_size = 0` and leaves `more_data`, the world
and the private data (header scratch and spill slot included) as they were,
whatever the collaborators are: no codec runs and no header is encoded. -/
theorem hg_set_struct_silent_skip {σ Hdr : Type} (E : Env σ Hdr) (w : σ)
    (handle : hg_handle) (pd : hg_private_data σ Hdr) (pi : hg_proc_info σ) (op : hg_op_t)
    (struct_ptr : Ptr) (payload_size : hg_size_t) (more_data : Bool)
    (hop : valid_op pi op) (hbuf : (core_buf E handle op).1 = .HG_SUCCESS)
    (hskip : proc_cb_of pi op = none ∨ struct_ptr = 0) :
    hg_set_struct E w handle pd pi op struct_ptr payload_size more_data =
      ⟨.HG_SUCCESS, w, pd, 0, more_data⟩ :=
  hg_set_struct_skip E w handle pd pi op struct_ptr payload_size more_data hop hbuf hskip

/-- Witness of C9: a null struct pointer with a codec registered, op
`HG_INPUT`, `more_data` true and `payload_size` 99 on entry. -/
theorem hg_set_struct_silent_skip_witness :
    hg_set_struct (refEnv true false) (refWorld0 5 6 0 0) (refHandle 16) refPriv
      (refInfo (some ref_codec2) false) .HG_INPUT 0 99 true =
      ⟨.HG_SUCCESS, refWorld0 5 6 0 0, refPriv, 0, true⟩ :=
  hg_set_struct_silent_skip (refEnv true false) (refWorld0 5 6 0 0) (refHandle 16) refPriv
    (refInfo (some ref_codec2) false) .HG_INPUT 0 99 true (Or.inl rfl) (by decide)
    (Or.inr rfl)

/-! ## C10: spill in an XDR build -/

/-- C10: in an XDR build, when the pass over the user struct and the checksum
step succeed and the codec reports an auxiliary buffer, `hg_set_struct` returns
`HG_SIZE_ERROR`, leaves `more_data`, `payload_size` and the spill slot as they
were on entry, and returns the world the pass left: no header is encoded.
Hence a call that runs the codec and returns `HG_SUCCESS` in an XDR build is
one where the codec reported no auxiliary buffer. -/
theorem hg_set_struct_xdr_spill {σ Hdr : Type} (E : Env σ Hdr) (w : σ)
    (handle : hg_handle) (pd : hg_private_data σ Hdr) (pi : hg_proc_info σ) (op : hg_op_t)
    (struct_ptr : Ptr) (payload_size : hg_size_t) (more_data : Bool) (cb : hg_proc_cb_t σ)
    (hxdr : E.has_xdr = true)
    (hop : valid_op pi op) (hbuf : (core_buf E handle op).1 = .HG_SUCCESS)
    (hcb : proc_cb_of pi op = some cb) (hptr : struct_ptr ≠ 0) :
    ((set_pass E w handle pd op cb struct_ptr).1 = .HG_SUCCESS →
      (set_checksum E w handle pd op cb struct_ptr).1 = .HG_SUCCESS →
      set_extra_buf E w handle pd op cb struct_ptr ≠ 0 →
      (hg_set_struct E w handle pd pi op struct_ptr payload_size more_data).ret
        = .HG_SIZE_ERROR ∧
      (hg_set_struct E w handle pd pi op struct_ptr payload_size more_data).more_data
        = more_data ∧
      (hg_set_struct E w handle pd pi op struct_ptr payload_size more_data).payload_size
        = payload_size ∧
      (hg_set_struct E w handle pd pi op struct_ptr payload_size more_data).world
        = (set_pass E w handle pd op cb struct_ptr).2 ∧
      spill_slot (hg_set_struct E w handle pd pi op struct_ptr payload_size more_data).priv
        = spill_slot pd) ∧
    ((hg_set_struct E w handle pd pi op struct_ptr payload_size more_data).ret
        = .HG_SUCCESS →
      set_extra_buf E w handle pd op cb struct_ptr = 0) := by
  rw [hg_set_struct_eq_encode E w handle pd pi op struct_ptr payload_size more_data hop hbuf,
    hcb]
  constructor
  · intro hp hc he
    rw [hg_set_struct_encode_xdr E w handle pd op struct_ptr payload_size more_data cb hptr
      hxdr hp hc he]
    refine ⟨rfl, rfl, rfl, rfl, ?_⟩
    simp only [spill_slot, priv_hashed]
    split_ifs <;> rfl
  · intro hr
    rcases (hg_set_struct_encode_success E w handle pd op struct_ptr payload_size more_data cb
      hptr hr).2.2 with he | ⟨_, hx, _⟩
    · exact he
    · rw [hxdr] at hx; exact absurd hx (by decide)

/-- Witness of C10: in an XDR build of the reference instance, a four-byte
struct does not fit the three payload bytes of a 5-byte eager buffer:
`HG_SIZE_ERROR`, `more_data` still false. -/
theorem hg_set_struct_xdr_spill_witness :
    (hg_set_struct (refEnv true true) (refWorld0 5 6 7 8) (refHandle 5) refPriv
      (refInfo (some ref_codec4) false) .HG_INPUT 1000 0 false).ret = .HG_SIZE_ERROR ∧
    (hg_set_struct (refEnv true true) (refWorld0 5 6 7 8) (refHandle 5) refPriv
      (refInfo (some ref_codec4) false) .HG_INPUT 1000 0 false).more_data = false :=
  have h := (hg_set_struct_xdr_spill (refEnv true true) (refWorld0 5 6 7 8) (refHandle 5)
    refPriv (refInfo (some ref_codec4) false) .HG_INPUT 1000 0 false ref_codec4 rfl
    (Or.inl rfl) (by decide) rfl (by decide)).1 (by decide) (by decide) (by decide)
  ⟨h.1, h.2.1⟩

/-! ## C11: the spill slot when `hg_set_struct` fails -/

/-- C11, counterexample: the slot is not restored when the spill sub-protocol
aborts.  A two-byte struct is encoded for `HG_INPUT` into a 2-byte eager
buffer, which the header fills: the codec spills into an auxiliary buffer at
`103`, the bulk descriptor is created, and the descriptor does not fit the
empty payload region.  The call returns `HG_PROTOCOL_ERROR`, and the slot, empty
before the call, holds the auxiliary buffer, its two bytes and bulk handle
`1`. -/
theorem hg_set_struct_slot_not_restored :
    (hg_set_struct (refEnv true false) (refWorld0 5 6 7 8) (refHandle 2) refPriv
      (refInfo (some ref_codec2) false) .HG_INPUT 1000 0 false).ret = .HG_PROTOCOL_ERROR ∧
    spill_slot (refPriv : hg_private_data RefWorld RefHeader) = (0, 0, 0) ∧
    spill_slot (hg_set_struct (refEnv true false) (refWorld0 5 6 7 8) (refHandle 2) refPriv
      (refInfo (some ref_codec2) false) .HG_INPUT 1000 0 false).priv = (103, 2, 1) := by
  decide

/-- C11, amended: the slot of a failing `hg_set_struct` depends on where the
call aborts.  When it aborts before the spill is recorded (the switch turns
the op away, the core buffer is not available, the pass over the user struct
fails in its reset, encode or flush, the checksum step fails, the codec reports
no auxiliary buffer, or the build has XDR), the slot is as it was before the
call.  When it aborts after that (bulk descriptor creation, reset, encode or
flush of the descriptor, descriptor not fitting, header encode), the slot is
not restored: its pointer is the auxiliary buffer the codec reported, which is
not null, and its size is the size the codec had used. -/
theorem hg_set_struct_failure_slot {σ Hdr : Type} (E : Env σ Hdr) (w : σ)
    (handle : hg_handle) (pd : hg_private_data σ Hdr) (pi : hg_proc_info σ) (op : hg_op_t)
    (struct_ptr : Ptr) (payload_size : hg_size_t) (more_data : Bool)
    (hr : (hg_set_struct E w handle pd pi op struct_ptr payload_size more_data).ret
      ≠ .HG_SUCCESS) :
    ((¬ valid_op pi op ∨ (core_buf E handle op).1 ≠ .HG_SUCCESS) →
      spill_slot (hg_set_struct E w handle pd pi op struct_ptr payload_size more_data).priv
        = spill_slot pd) ∧
    (valid_op pi op → (core_buf E handle op).1 = .HG_SUCCESS →
      proc_cb_of pi op ≠ none ∧ struct_ptr ≠ 0) ∧
    (∀ cb : hg_proc_cb_t σ, proc_cb_of pi op = some cb →
      valid_op pi op → (core_buf E handle op).1 = .HG_SUCCESS →
      (((set_pass E w handle pd op cb struct_ptr).1 = .HG_SUCCESS ∧
          (set_checksum E w handle pd op cb struct_ptr).1 = .HG_SUCCESS ∧
          set_extra_buf E w handle pd op cb struct_ptr ≠ 0 ∧ E.has_xdr = false) →
        (hg_set_struct E w handle pd pi op struct_ptr payload_size
            more_data).priv.extra_bulk_buf
          = set_extra_buf E w handle pd op cb struct_ptr ∧
        (hg_set_struct E w handle pd pi op struct_ptr payload_size
            more_data).priv.extra_bulk_buf ≠ 0 ∧
        (hg_set_struct E w handle pd pi op struct_ptr payload_size
            more_data).priv.extra_bulk_buf_size
          = set_size_used E w handle pd op cb struct_ptr) ∧
      (¬ ((set_pass E w handle pd op cb struct_ptr).1 = .HG_SUCCESS ∧
          (set_checksum E w handle pd op cb struct_ptr).1 = .HG_SUCCESS ∧
          set_extra_buf E w handle pd op cb struct_ptr ≠ 0 ∧ E.has_xdr = false) →
        spill_slot (hg_set_struct E w handle pd pi op struct_ptr payload_size
            more_data).priv
          = spill_slot pd)) := by
  have hs : valid_op pi op → (core_buf E handle op).1 = .HG_SUCCESS →
      proc_cb_of pi op ≠ none ∧ struct_ptr ≠ 0 := by
    intro hop hbuf
    rw [← not_or]
    intro hskip
    rw [hg_set_struct_skip E w handle pd pi op struct_ptr payload_size more_data hop hbuf
      hskip] at hr
    exact hr rfl
  refine ⟨?_, hs, ?_⟩
  · intro h
    rw [(hg_set_struct_switch_fail E w handle pd pi op struct_ptr payload_size more_data
      h).2.2]
  · intro cb hcb hop hbuf
    rw [hg_set_struct_eq_encode E w handle pd pi op struct_ptr payload_size more_data
      hop hbuf, hcb]
    obtain ⟨_, hrec, hnot⟩ := hg_set_struct_encode_priv E w handle pd op struct_ptr
      payload_size more_data cb (hs hop hbuf).2
    refine ⟨fun hc => ⟨(hrec hc).1, ?_, (hrec hc).2⟩, hnot⟩
    rw [(hrec hc).1]
    exact hc.2.2.1

/-- Witness of C11, amended: in the failing call of the counterexample the
spill had been recorded before the descriptor turned out not to fit; the slot
holds the auxiliary buffer at `103` and its two bytes. -/
theorem hg_set_struct_failure_slot_witness :
    (hg_set_struct (refEnv true false) (refWorld0 5 6 7 8) (refHandle 2) refPriv
      (refInfo (some ref_codec2) false) .HG_INPUT 1000 0 false).ret ≠ .HG_SUCCESS ∧
    (hg_set_struct (refEnv true false) (refWorld0 5 6 7 8) (refHandle 2) refPriv
      (refInfo (some ref_codec2) false) .HG_INPUT 1000 0 false).priv.extra_bulk_buf = 103 ∧
    (hg_set_struct (refEnv true false) (refWorld0 5 6 7 8) (refHandle 2) refPriv
      (refInfo (some ref_codec2) false) .HG_INPUT 1000 0 false).priv.extra_bulk_buf_size
      = 2 :=
  have h := ((hg_set_struct_failure_slot (refEnv true false) (refWorld0 5 6 7 8)
    (refHandle 2) refPriv (refInfo (some ref_codec2) false) .HG_INPUT 1000 0 false
    (by decide)).2.2 ref_codec2 rfl (Or.inl rfl) (by decide)).1
    ⟨by decide, by decide, by decide, rfl⟩
  ⟨by decide, h.1.trans (by decide), h.2.2.trans (by decide)⟩

/-! ## C12: the spill slot after `hg_free_struct` -/

/-- C12, counterexample: a successful free does not clear the slot.  On a
target whose slot holds a two-byte spill at `500`, `HG_Get_input` and then
`HG_Free_input` both return `HG_SUCCESS`, and the slot still holds that buffer
and its size. -/
theorem free_input_keeps_slot :
    (HG_Get_input (refEnv true false) (refClass false) refTargetWorld (refHandle 3)
      (some refPulledPriv) 2000).ret = .HG_SUCCESS ∧
    (HG_Free_input (refEnv true false) (refClass false)
      (HG_Get_input (refEnv true false) (refClass false) refTargetWorld (refHandle 3)
        (some refPulledPriv) 2000).world
      (HG_Get_input (refEnv true false) (refClass false) refTargetWorld (refHandle 3)
        (some refPulledPriv) 2000).handle
      (HG_Get_input (refEnv true false) (refClass false) refTargetWorld (refHandle 3)
        (some refPulledPriv) 2000).priv 2000).ret = .HG_SUCCESS ∧
    ((HG_Free_input (refEnv true false) (refClass false)
      (HG_Get_input (refEnv true false) (refClass false) refTargetWorld (refHandle 3)
        (some refPulledPriv) 2000).world
      (HG_Get_input (refEnv true false) (refClass false) refTargetWorld (refHandle 3)
        (some refPulledPriv) 2000).handle
      (HG_Get_input (refEnv true false) (refClass false) refTargetWorld (refHandle 3)
        (some refPulledPriv) 2000).priv 2000).priv.map spill_slot)
      = some (500, 2, 0) := by
  decide

/-- C12, amended: `hg_free_struct` (`HG_Free_input`, `HG_Free_output`) does
not write the extra-buffer slot.  A successful call has run the free pass of
the codec and dropped one reference of the handle.  While the handle survives
(the count has not reached zero) the world is that of the free pass and the
private data, hence the slot (pointer, size, bulk handle), is as it was before
the call.  When the call drops the last reference, `HG_Core_destroy` tears the
private data down through `hg_private_data_free`, which hands the spill buffer
to `hg_mem_aligned_free`. -/
theorem hg_free_struct_slot {σ Hdr : Type} (E : Env σ Hdr) (cls : hg_class σ) (w : σ)
    (handle : hg_handle) (pd : hg_private_data σ Hdr) (pi : hg_proc_info σ) (op : hg_op_t)
    (struct_ptr : Ptr)
    (hr : (hg_free_struct E w handle pd pi op struct_ptr).ret = .HG_SUCCESS) :
    (hg_free_struct E w handle pd pi op struct_ptr).handle
      = { handle with ref_count := handle.ref_count - 1 } ∧
    proc_cb_of pi op ≠ none ∧
    (∀ cb, proc_cb_of pi op = some cb →
      (free_pass E w pd op cb struct_ptr).1 = .HG_SUCCESS ∧
      (handle.ref_count - 1 ≠ 0 →
        (hg_free_struct E w handle pd pi op struct_ptr).world
          = (free_pass E w pd op cb struct_ptr).2 ∧
        (hg_free_struct E w handle pd pi op struct_ptr).priv = pd ∧
        spill_slot (hg_free_struct E w handle pd pi op struct_ptr).priv = spill_slot pd) ∧
      (handle.ref_count - 1 = 0 →
        (hg_free_struct E w handle pd pi op struct_ptr).world
          = hg_private_data_free E (free_pass E w pd op cb struct_ptr).2 pd ∧
        ∃ v, (hg_free_struct E w handle pd pi op struct_ptr).world
          = E.hg_header_finalize (E.hg_mem_aligned_free v pd.extra_bulk_buf) pd.hg_header)) ∧
    (handle.ref_count - 1 ≠ 0 →
      (HG_Free_input E cls w handle (some pd) struct_ptr).priv = some pd ∧
      (HG_Free_output E cls w handle (some pd) struct_ptr).priv = some pd) := by
  have hp := hg_free_struct_priv E w handle pd pi op struct_ptr
  have hw := hg_free_struct_world E w handle pd pi op struct_ptr hr
  refine ⟨?_, hw.1, ?_, ?_⟩
  · rcases hg_free_struct_handle E w handle pd pi op struct_ptr with h | h
    · exact h.2
    · exact absurd hr h.1
  · intro cb hcb
    obtain ⟨h1, h2⟩ := hw.2 cb hcb
    refine ⟨h1, ?_, ?_⟩
    · intro hs
      rw [if_pos hs] at h2
      exact ⟨h2, hp, by rw [hp]⟩
    · intro hz
      rw [if_neg (not_not.mpr hz)] at h2
      exact ⟨h2, _, h2⟩
  · intro _
    constructor
    · simp only [HG_Free_input]
      split_ifs
      · rfl
      · cases hg_core_get_rpc_data cls handle with
        | none => rfl
        | some pi2 => simp [hg_free_struct_priv]
    · simp only [HG_Free_output]
      split_ifs
      · rfl
      · cases hg_core_get_rpc_data cls handle with
        | none => rfl
        | some pi2 => simp [hg_free_struct_priv]

/-- Witness of C12, amended.  On the target of the counterexample, whose slot
holds the two-byte spill at `500`: freeing the input struct of a handle held
twice succeeds, leaves the slot at `(500, 2, 0)` and releases nothing; freeing
it on a handle held once drops the last reference, and the teardown releases
the two procs and the buffer at `500`, and no bulk handle. -/
theorem hg_free_struct_slot_witness :
    (hg_free_struct (refEnv true false) refTargetWorld { refHandle 3 with ref_count := 2 }
      refPulledPriv (refInfo (some ref_codec2) false) .HG_INPUT 2000).ret = .HG_SUCCESS ∧
    spill_slot (hg_free_struct (refEnv true false) refTargetWorld
      { refHandle 3 with ref_count := 2 } refPulledPriv
      (refInfo (some ref_codec2) false) .HG_INPUT 2000).priv = (500, 2, 0) ∧
    (hg_free_struct (refEnv true false) refTargetWorld { refHandle 3 with ref_count := 2 }
      refPulledPriv (refInfo (some ref_codec2) false) .HG_INPUT 2000).world.freed = [] ∧
    (hg_free_struct (refEnv true false) refTargetWorld (refHandle 3)
      refPulledPriv (refInfo (some ref_codec2) false) .HG_INPUT 2000).world.freed = [500] ∧
    (hg_free_struct (refEnv true false) refTargetWorld (refHandle 3)
      refPulledPriv (refInfo (some ref_codec2) false) .HG_INPUT 2000).world.procs_freed
        = [1, 2] ∧
    (hg_free_struct (refEnv true false) refTargetWorld (refHandle 3)
      refPulledPriv (refInfo (some ref_codec2) false) .HG_INPUT 2000).world.bulks_freed = [] :=
  have h := (hg_free_struct_slot (refEnv true false) (refClass false) refTargetWorld
    { refHandle 3 with ref_count := 2 } refPulledPriv (refInfo (some ref_codec2) false)
    .HG_INPUT 2000 (by decide)).2.2.1 ref_codec2 rfl
  have g := (hg_free_struct_slot (refEnv true false) (refClass false) refTargetWorld
    (refHandle 3) refPulledPriv (refInfo (some ref_codec2) false)
    .HG_INPUT 2000 (by decide)).2.2.1 ref_codec2 rfl
  ⟨by decide, (h.2.1 (by decide)).2.2.trans (by decide),
    (congrArg (fun v => v.freed) (h.2.1 (by decide)).1).trans (by decide),
    (congrArg (fun v => v.freed) (g.2.2 (by decide)).1).trans (by decide),
    (congrArg (fun v => v.procs_freed) (g.2.2 (by decide)).1).trans (by decide),
    (congrArg (fun v => v.bulks_freed) (g.2.2 (by decide)).1).trans (by decide)⟩

/-! ## C13: parameter validation -/

/-- C13: parameter validation.  `HG_Get_input`, `HG_Free_input`,
`HG_Get_output` and `HG_Free_output` with a null struct pointer,
`HG_Get_input_buf` and `HG_Get_output_buf` with a null buffer or size
out-pointer, `HG_Create` with a null handle out-pointer, and `hg_get_struct`,
`hg_set_struct` and `hg_free_struct` with an op that is neither `HG_INPUT` nor
`HG_OUTPUT` return `HG_INVALID_PARAM` with the world, the handle, the private
data (header scratch, procs, slot, stashed callback and argument) and the
out-parameters as they were.  The results do not depend on the collaborators:
none of them has been given the world.  (The initialisers of `hg_get_struct`
and `hg_set_struct` evaluate `hg_header_get_size(op)`, a size query whose
result these paths do not use.) -/
theorem invalid_param_immediate {σ Hdr : Type} (E : Env σ Hdr) (cls : hg_class σ) (w : σ)
    (handle : hg_handle) (priv : Option (hg_private_data σ Hdr))
    (pd : hg_private_data σ Hdr) (pi : hg_proc_info σ) (struct_ptr : Ptr)
    (buf : Option Ptr) (buf_size : Option hg_size_t) (context addr : Ptr) (id : hg_id_t)
    (payload_size : hg_size_t) (more_data : Bool) :
    HG_Get_input E cls w handle priv 0 = ⟨.HG_INVALID_PARAM, w, handle, priv⟩ ∧
    HG_Free_input E cls w handle priv 0 = ⟨.HG_INVALID_PARAM, w, handle, priv⟩ ∧
    HG_Get_output E cls w handle priv 0 = ⟨.HG_INVALID_PARAM, w, handle, priv⟩ ∧
    HG_Free_output E cls w handle priv 0 = ⟨.HG_INVALID_PARAM, w, handle, priv⟩ ∧
    HG_Get_input_buf E handle priv none buf_size = (.HG_INVALID_PARAM, none, buf_size) ∧
    HG_Get_input_buf E handle priv buf none = (.HG_INVALID_PARAM, buf, none) ∧
    HG_Get_output_buf E handle priv none buf_size = (.HG_INVALID_PARAM, none, buf_size) ∧
    HG_Get_output_buf E handle priv buf none = (.HG_INVALID_PARAM, buf, none) ∧
    HG_Create E w context addr id none = (.HG_INVALID_PARAM, w, none) ∧
    hg_get_struct E w handle pd pi .HG_UNDEF struct_ptr
      = ⟨.HG_INVALID_PARAM, w, handle, pd⟩ ∧
    hg_set_struct E w handle pd pi .HG_UNDEF struct_ptr payload_size more_data
      = ⟨.HG_INVALID_PARAM, w, pd, payload_size, more_data⟩ ∧
    hg_free_struct E w handle pd pi .HG_UNDEF struct_ptr
      = ⟨.HG_INVALID_PARAM, w, handle, pd⟩ := by
  refine ⟨rfl, rfl, rfl, rfl, rfl, ?_, rfl, ?_, rfl, rfl, rfl, rfl⟩
  · cases buf <;> rfl
  · cases buf <;> rfl

/-- Witness of C13: on the handle of an origin whose forward has spilled, the
calls come back with `HG_INVALID_PARAM`, and the slot and the stashed argument
are still there. -/
theorem invalid_param_immediate_witness :
    (HG_Get_input (refEnv true false) (refClass false) (refWorld0 5 6 7 8) (refHandle 5)
      (some refSpilledPriv) 0).ret = .HG_INVALID_PARAM ∧
    ((HG_Get_input (refEnv true false) (refClass false) (refWorld0 5 6 7 8) (refHandle 5)
      (some refSpilledPriv) 0).priv.map spill_slot) = some (106, 4, 1) ∧
    (HG_Get_input (refEnv true false) (refClass false) (refWorld0 5 6 7 8) (refHandle 5)
      (some refSpilledPriv) 0).handle.ref_count = 1 ∧
    (hg_set_struct (refEnv true false) (refWorld0 5 6 7 8) (refHandle 5) refSpilledPriv
      (refInfo (some ref_codec4) false) .HG_UNDEF 1000 0 false).ret = .HG_INVALID_PARAM ∧
    (HG_Create (refEnv true false) (refWorld0 5 6 7 8) 1 1 7 none).1 = .HG_INVALID_PARAM :=
  have h := invalid_param_immediate (refEnv true false) (refClass false) (refWorld0 5 6 7 8)
    (refHandle 5) (some refSpilledPriv) refSpilledPriv (refInfo (some ref_codec4) false) 1000
    none none 1 1 7 0 false
  ⟨congrArg HandleResult.ret h.1,
    (congrArg (fun r => r.priv.map spill_slot) h.1).trans (by decide),
    (congrArg (fun r => r.handle.ref_count) h.1).trans (by decide),
    congrArg SetStructResult.ret h.2.2.2.2.2.2.2.2.2.2.1,
    congrArg Prod.fst h.2.2.2.2.2.2.2.2.1⟩

/-! ## C14: buffers handed to the user -/

/-- C14: for a handle with private data and non-null out-pointers,
`HG_Get_input_buf` (resp. `HG_Get_output_buf`) returns `HG_SUCCESS` with the
spill buffer and its recorded size whenever the slot holds a buffer, a result
that does not depend on the core eager buffer; when the slot is empty and the
core hands out its input (resp. output) buffer, it returns that buffer advanced
by the header size `H` of the direction, with the core size minus `H` in
`hg_size_t` arithmetic, which is the difference itself when the core size is an
`hg_size_t` value not below `H`. -/
theorem get_buf_user_visible {σ Hdr : Type} (E : Env σ Hdr) (handle : hg_handle)
    (pd : hg_private_data σ Hdr) (b : Ptr) (n : hg_size_t) :
    (pd.extra_bulk_buf ≠ 0 →
      HG_Get_input_buf E handle (some pd) (some b) (some n)
        = (.HG_SUCCESS, some pd.extra_bulk_buf, some pd.extra_bulk_buf_size) ∧
      HG_Get_output_buf E handle (some pd) (some b) (some n)
        = (.HG_SUCCESS, some pd.extra_bulk_buf, some pd.extra_bulk_buf_size)) ∧
    (pd.extra_bulk_buf = 0 → (E.HG_Core_get_input handle).1 = .HG_SUCCESS →
      HG_Get_input_buf E handle (some pd) (some b) (some n)
        = (.HG_SUCCESS, some ((E.HG_Core_get_input handle).2.1 + E.hg_header_get_size .HG_INPUT),
            some (size_sub E (E.HG_Core_get_input handle).2.2
              (E.hg_header_get_size .HG_INPUT))) ∧
      (E.hg_header_get_size .HG_INPUT ≤ (E.HG_Core_get_input handle).2.2 →
        (E.HG_Core_get_input handle).2.2 < 2 ^ E.size_bits →
        (HG_Get_input_buf E handle (some pd) (some b) (some n)).2.2
          = some ((E.HG_Core_get_input handle).2.2 - E.hg_header_get_size .HG_INPUT))) ∧
    (pd.extra_bulk_buf = 0 → (E.HG_Core_get_output handle).1 = .HG_SUCCESS →
      HG_Get_output_buf E handle (some pd) (some b) (some n)
        = (.HG_SUCCESS,
            some ((E.HG_Core_get_output handle).2.1 + E.hg_header_get_size .HG_OUTPUT),
            some (size_sub E (E.HG_Core_get_output handle).2.2
              (E.hg_header_get_size .HG_OUTPUT))) ∧
      (E.hg_header_get_size .HG_OUTPUT ≤ (E.HG_Core_get_output handle).2.2 →
        (E.HG_Core_get_output handle).2.2 < 2 ^ E.size_bits →
        (HG_Get_output_buf E handle (some pd) (some b) (some n)).2.2
          = some ((E.HG_Core_get_output handle).2.2 - E.hg_header_get_size .HG_OUTPUT))) := by
  refine ⟨?_, ?_, ?_⟩
  · intro h
    simp [HG_Get_input_buf, HG_Get_output_buf, h]
  · intro h hg
    have heq : HG_Get_input_buf E handle (some pd) (some b) (some n)
        = (.HG_SUCCESS,
            some ((E.HG_Core_get_input handle).2.1 + E.hg_header_get_size .HG_INPUT),
            some (size_sub E (E.HG_Core_get_input handle).2.2
              (E.hg_header_get_size .HG_INPUT))) := by
      simp [HG_Get_input_buf, h, hg]
    refine ⟨heq, ?_⟩
    intro hle hlt
    rw [heq, size_sub_eq_sub E _ _ hle hlt]
  · intro h hg
    have heq : HG_Get_output_buf E handle (some pd) (some b) (some n)
        = (.HG_SUCCESS,
            some ((E.HG_Core_get_output handle).2.1 + E.hg_header_get_size .HG_OUTPUT),
            some (size_sub E (E.HG_Core_get_output handle).2.2
              (E.hg_header_get_size .HG_OUTPUT))) := by
      simp [HG_Get_output_buf, h, hg]
    refine ⟨heq, ?_⟩
    intro hle hlt
    rw [heq, size_sub_eq_sub E _ _ hle hlt]

/-- Witness of C14: with a four-byte spill at `106` the user sees `(106, 4)`;
with an empty slot and a 16-byte eager input buffer at `100` behind a two-byte
header the user sees `(102, 14)`. -/
theorem get_buf_user_visible_witness :
    HG_Get_input_buf (refEnv true false) (refHandle 16) (some refSpilledPriv) (some 0) (some 0)
      = (.HG_SUCCESS, some 106, some 4) ∧
    HG_Get_input_buf (refEnv true false) (refHandle 16) (some refPriv) (some 0) (some 0)
      = (.HG_SUCCESS, some 102, some 14) :=
  have h := get_buf_user_visible (refEnv true false) (refHandle 16) refSpilledPriv 0 0
  have h0 := get_buf_user_visible (refEnv true false) (refHandle 16) refPriv 0 0
  ⟨(h.1 (by decide)).1, ((h0.2.1 rfl (by decide)).1).trans (by decide)⟩

/-! ## C15: eager sizes of a class -/

/-- C15: `HG_Class_get_input_eager_size` and `HG_Class_get_output_eager_size`
return the core eager size minus the header size `H` of the direction when the
core size, an `hg_size_t` value, is strictly greater than `H`, and `0`
otherwise.  The subtraction is the subtraction of the naturals (no
wraparound), the result plus `H` is the core size unless the result is `0`,
and the result never exceeds the core size. -/
theorem eager_size_minus_header {σ Hdr : Type} (E : Env σ Hdr) (w : σ) (cls : Ptr)
    (hin : E.HG_Core_class_get_input_eager_size w cls < 2 ^ E.size_bits)
    (hout : E.HG_Core_class_get_output_eager_size w cls < 2 ^ E.size_bits) :
    (HG_Class_get_input_eager_size E w cls =
      if E.HG_Core_class_get_input_eager_size w cls > E.hg_header_get_size .HG_INPUT
      then E.HG_Core_class_get_input_eager_size w cls - E.hg_header_get_size .HG_INPUT
      else 0) ∧
    (HG_Class_get_output_eager_size E w cls =
      if E.HG_Core_class_get_output_eager_size w cls > E.hg_header_get_size .HG_OUTPUT
      then E.HG_Core_class_get_output_eager_size w cls - E.hg_header_get_size .HG_OUTPUT
      else 0) ∧
    (HG_Class_get_input_eager_size E w cls ≠ 0 →
      HG_Class_get_input_eager_size E w cls + E.hg_header_get_size .HG_INPUT
        = E.HG_Core_class_get_input_eager_size w cls) ∧
    (HG_Class_get_output_eager_size E w cls ≠ 0 →
      HG_Class_get_output_eager_size E w cls + E.hg_header_get_size .HG_OUTPUT
        = E.HG_Core_class_get_output_eager_size w cls) ∧
    HG_Class_get_input_eager_size E w cls ≤ E.HG_Core_class_get_input_eager_size w cls ∧
    HG_Class_get_output_eager_size E w cls ≤ E.HG_Core_class_get_output_eager_size w cls := by
  have key : ∀ (c H : Nat), c < 2 ^ E.size_bits →
      ((if c > H then size_sub E c H else 0) = (if c > H then c - H else 0)) ∧
      ((if c > H then size_sub E c H else 0) ≠ 0 →
        (if c > H then size_sub E c H else 0) + H = c) ∧
      (if c > H then size_sub E c H else 0) ≤ c := by
    intro c H hc
    by_cases h : c > H
    · simp only [h, if_true]
      rw [size_sub_eq_sub E c H (le_of_lt h) hc]
      exact ⟨rfl, fun _ => Nat.sub_add_cancel (le_of_lt h), Nat.sub_le _ _⟩
    · simp [h]
  obtain ⟨a1, a2, a3⟩ := key _ (E.hg_header_get_size .HG_INPUT) hin
  obtain ⟨b1, b2, b3⟩ := key _ (E.hg_header_get_size .HG_OUTPUT) hout
  exact ⟨a1, b1, a2, b2, a3, b3⟩

/-- Witness of C15: the core eager size is `4096` in both directions, the
headers take `2` and `1` bytes. -/
theorem eager_size_minus_header_witness :
    HG_Class_get_input_eager_size (refEnv true false) (refWorld0 0 0 0 0) 1 = 4094 ∧
    HG_Class_get_output_eager_size (refEnv true false) (refWorld0 0 0 0 0) 1 = 4095 :=
  have h := eager_size_minus_header (refEnv true false) (refWorld0 0 0 0 0) 1
    (by decide) (by decide)
  ⟨h.1.trans (by decide), h.2.1.trans (by decide)⟩

/-! ## C16: `HG_Forward` -/

/-- C16: `HG_Forward` on a handle with private data and a registration stores
the user callback and argument in the private data and runs
`hg_set_struct(HG_INPUT)` on it.  When that succeeds, the result is that of one
call of the transport forward, made in the world `hg_set_struct` leaves, with
the trampoline `hg_forward_cb` (whose argument is the private data), the
`payload_size` reported by `hg_set_struct` and the flags built from `more_data`
and the registration; the stashed callback and argument are the caller's.  When
it fails, its code, its world and the handle come back, a result that does not
involve the transport forward.  When `HG_CORE_MORE_DATA` and
`HG_CORE_NO_RESPONSE` are two different bits of an `hg_uint8_t`, the first is
set in the flags iff `hg_set_struct` signalled a spill, the second iff the
registration suppresses the response, and no other bit is set. -/
theorem forward_runs_transport {σ Hdr : Type} (E : Env σ Hdr) (cls : hg_class σ) (w : σ)
    (handle : hg_handle) (pd : hg_private_data σ Hdr) (pi : hg_proc_info σ)
    (callback : Option (hg_cb_t σ)) (arg : Ptr) (in_struct : Ptr) (payload_size : hg_size_t)
    (hpi : hg_core_get_rpc_data cls handle = some pi) :
    ((hg_set_struct E w handle { pd with callback := callback, arg := arg } pi .HG_INPUT
        in_struct payload_size false).ret = .HG_SUCCESS →
      HG_Forward E cls w handle (some pd) callback arg in_struct payload_size =
        ⟨(E.HG_Core_forward
            (hg_set_struct E w handle { pd with callback := callback, arg := arg } pi
              .HG_INPUT in_struct payload_size false).world
            handle .hg_forward_cb
            (forward_flags E
              (hg_set_struct E w handle { pd with callback := callback, arg := arg } pi
                .HG_INPUT in_struct payload_size false).more_data
              pi.no_response)
            (hg_set_struct E w handle { pd with callback := callback, arg := arg } pi
              .HG_INPUT in_struct payload_size false).payload_size).1,
          (E.HG_Core_forward
            (hg_set_struct E w handle { pd with callback := callback, arg := arg } pi
              .HG_INPUT in_struct payload_size false).world
            handle .hg_forward_cb
            (forward_flags E
              (hg_set_struct E w handle { pd with callback := callback, arg := arg } pi
                .HG_INPUT in_struct payload_size false).more_data
              pi.no_response)
            (hg_set_struct E w handle { pd with callback := callback, arg := arg } pi
              .HG_INPUT in_struct payload_size false).payload_size).2.1,
          (E.HG_Core_forward
            (hg_set_struct E w handle { pd with callback := callback, arg := arg } pi
              .HG_INPUT in_struct payload_size false).world
            handle .hg_forward_cb
            (forward_flags E
              (hg_set_struct E w handle { pd with callback := callback, arg := arg } pi
                .HG_INPUT in_struct payload_size false).more_data
              pi.no_response)
            (hg_set_struct E w handle { pd with callback := callback, arg := arg } pi
              .HG_INPUT in_struct payload_size false).payload_size).2.2,
          some (hg_set_struct E w handle { pd with callback := callback, arg := arg } pi
            .HG_INPUT in_struct payload_size false).priv⟩) ∧
    ((hg_set_struct E w handle { pd with callback := callback, arg := arg } pi .HG_INPUT
        in_struct payload_size false).ret ≠ .HG_SUCCESS →
      HG_Forward E cls w handle (some pd) callback arg in_struct payload_size =
        ⟨(hg_set_struct E w handle { pd with callback := callback, arg := arg } pi .HG_INPUT
            in_struct payload_size false).ret,
          (hg_set_struct E w handle { pd with callback := callback, arg := arg } pi .HG_INPUT
            in_struct payload_size false).world,
          handle,
          some (hg_set_struct E w handle { pd with callback := callback, arg := arg } pi
            .HG_INPUT in_struct payload_size false).priv⟩) ∧
    (∃ p, (HG_Forward E cls w handle (some pd) callback arg in_struct payload_size).priv
        = some p ∧ p.callback = callback ∧ p.arg = arg) ∧
    (∀ (i j : Nat) (more_data : Bool), i < 8 → j < 8 → i ≠ j →
      E.HG_CORE_MORE_DATA = 2 ^ i → E.HG_CORE_NO_RESPONSE = 2 ^ j →
      ((forward_flags E more_data pi.no_response).testBit i = more_data) ∧
      ((forward_flags E more_data pi.no_response).testBit j = pi.no_response) ∧
      (∀ k, k ≠ i → k ≠ j →
        (forward_flags E more_data pi.no_response).testBit k = false)) := by
  have hst := hg_set_struct_stash E w handle { pd with callback := callback, arg := arg } pi
    .HG_INPUT in_struct payload_size false
  refine ⟨?_, ?_, ?_, ?_⟩
  · intro hr
    simp [HG_Forward, hpi, hr]
  · intro hr
    simp [HG_Forward, hpi, hr]
  · by_cases hr : (hg_set_struct E w handle { pd with callback := callback, arg := arg } pi
        .HG_INPUT in_struct payload_size false).ret = .HG_SUCCESS
    · exact ⟨_, by simp [HG_Forward, hpi, hr], hst.1, hst.2.1⟩
    · exact ⟨_, by simp [HG_Forward, hpi, hr], hst.1, hst.2.1⟩
  · intro i j more_data hi hj hij hm hn
    have h256 : (256 : Nat) = 2 ^ 8 := by norm_num
    have hm2 : E.HG_CORE_MORE_DATA < 256 := by
      rw [hm, h256]; exact Nat.pow_lt_pow_right (by norm_num) hi
    have hn2 : E.HG_CORE_NO_RESPONSE < 256 := by
      rw [hn, h256]; exact Nat.pow_lt_pow_right (by norm_num) hj
    rw [forward_flags_eq E more_data pi.no_response hm2 hn2, hm, hn]
    refine ⟨?_, ?_, ?_⟩
    · cases more_data <;> cases pi.no_response <;>
        simp [Nat.testBit_or, Nat.testBit_two_pow, hij, Ne.symm hij]
    · cases more_data <;> cases pi.no_response <;>
        simp [Nat.testBit_or, Nat.testBit_two_pow, hij, Ne.symm hij]
    · intro k hki hkj
      cases more_data <;> cases pi.no_response <;>
        simp [Nat.testBit_or, Nat.testBit_two_pow, Ne.symm hki, Ne.symm hkj]

/-- Witness of C16: forwarding the two-byte struct `5 6` through a 3-byte eager
buffer, on a registration that suppresses the response, hands the transport
one request with both flag bits set (`3`) and the three bytes of header and
descriptor as payload size; the callback argument `77` is stashed and the slot
holds the spill. -/
theorem forward_runs_transport_witness :
    (HG_Forward (refEnv true false) (refClass true) (refWorld0 5 6 0 0) (refHandle 3)
      (some refPriv) (some ref_user_cb) 77 1000 0).ret = .HG_SUCCESS ∧
    (HG_Forward (refEnv true false) (refClass true) (refWorld0 5 6 0 0) (refHandle 3)
      (some refPriv) (some ref_user_cb) 77 1000 0).world.forwards = [(3, 3)] ∧
    ((HG_Forward (refEnv true false) (refClass true) (refWorld0 5 6 0 0) (refHandle 3)
      (some refPriv) (some ref_user_cb) 77 1000 0).priv.map (fun p => (p.arg, spill_slot p)))
      = some (77, 104, 2, 1) ∧
    (forward_flags (refEnv true false) true true).testBit 0 = true ∧
    (forward_flags (refEnv true false) true true).testBit 1 = true :=
  have h := forward_runs_transport (refEnv true false) (refClass true) (refWorld0 5 6 0 0)
    (refHandle 3) refPriv (refInfo (some ref_codec2) true) (some ref_user_cb) 77 1000 0 rfl
  have hb := h.2.2.2 0 1 true (by decide) (by decide) (by decide) rfl rfl
  ⟨(congrArg HandleResult.ret (h.1 (by decide))).trans (by decide),
    (congrArg (fun r => r.world.forwards) (h.1 (by decide))).trans (by decide),
    (congrArg (fun r => r.priv.map (fun p => (p.arg, spill_slot p)))
      (h.1 (by decide))).trans (by decide),
    hb.1, hb.2.1⟩

/-! ## C17: `HG_Respond` -/

/-- C17: `HG_Respond` hands the caller's callback and argument, as they are, to
the transport respond (no trampoline): when `hg_set_struct(HG_OUTPUT)`
succeeds the result is that of `HG_Core_respond` called with them.  Whatever
the outcome, the callback and the argument an earlier `HG_Forward` has stashed
in the private data are as they were. -/
theorem respond_passes_callback {σ Hdr : Type} (E : Env σ Hdr) (cls : hg_class σ) (w : σ)
    (handle : hg_handle) (pd : hg_private_data σ Hdr) (pi : hg_proc_info σ)
    (callback : Option (hg_cb_t σ)) (arg : Ptr) (out_struct : Ptr) (payload_size : hg_size_t)
    (hpi : hg_core_get_rpc_data cls handle = some pi) :
    ((hg_set_struct E w handle pd pi .HG_OUTPUT out_struct payload_size false).ret
        = .HG_SUCCESS →
      HG_Respond E cls w handle (some pd) callback arg out_struct payload_size =
        ⟨(E.HG_Core_respond
            (hg_set_struct E w handle pd pi .HG_OUTPUT out_struct payload_size false).world
            handle callback arg
            (if (hg_set_struct E w handle pd pi .HG_OUTPUT out_struct payload_size
                false).more_data
              then (0 ||| E.HG_CORE_MORE_DATA) % 256 else 0)
            (hg_set_struct E w handle pd pi .HG_OUTPUT out_struct payload_size
              false).payload_size).1,
          (E.HG_Core_respond
            (hg_set_struct E w handle pd pi .HG_OUTPUT out_struct payload_size false).world
            handle callback arg
            (if (hg_set_struct E w handle pd pi .HG_OUTPUT out_struct payload_size
                false).more_data
              then (0 ||| E.HG_CORE_MORE_DATA) % 256 else 0)
            (hg_set_struct E w handle pd pi .HG_OUTPUT out_struct payload_size
              false).payload_size).2.1,
          (E.HG_Core_respond
            (hg_set_struct E w handle pd pi .HG_OUTPUT out_struct payload_size false).world
            handle callback arg
            (if (hg_set_struct E w handle pd pi .HG_OUTPUT out_struct payload_size
                false).more_data
              then (0 ||| E.HG_CORE_MORE_DATA) % 256 else 0)
            (hg_set_struct E w handle pd pi .HG_OUTPUT out_struct payload_size
              false).payload_size).2.2,
          some (hg_set_struct E w handle pd pi .HG_OUTPUT out_struct payload_size
            false).priv⟩) ∧
    (∃ p, (HG_Respond E cls w handle (some pd) callback arg out_struct payload_size).priv
        = some p ∧ p.callback = pd.callback ∧ p.arg = pd.arg) ∧
    (∀ cls0 : hg_class σ, hg_core_get_rpc_data cls0 handle = none →
      (HG_Respond E cls0 w handle (some pd) callback arg out_struct payload_size).priv
        = some pd) := by
  have hst := hg_set_struct_stash E w handle pd pi .HG_OUTPUT out_struct payload_size false
  refine ⟨?_, ?_, ?_⟩
  · intro hr
    simp [HG_Respond, hpi, hr]
  · by_cases hr : (hg_set_struct E w handle pd pi .HG_OUTPUT out_struct payload_size
        false).ret = .HG_SUCCESS
    · exact ⟨_, by simp [HG_Respond, hpi, hr], hst.1, hst.2.1⟩
    · exact ⟨_, by simp [HG_Respond, hpi, hr], hst.1, hst.2.1⟩
  · intro cls0 h0
    simp [HG_Respond, h0]

/-- Witness of C17: on the handle of an origin that has stashed `ref_user_cb`
and the argument `77`, a response of the two-byte struct `5 6` is handed to the
transport and the stashed argument is still `77`, although `HG_Respond` was
given no callback and the argument `5`. -/
theorem respond_passes_callback_witness :
    (HG_Respond (refEnv true false) (refClass false) (refWorld0 5 6 0 0) (refHandle 16)
      (some refSpilledPriv) none 5 1000 0).ret = .HG_SUCCESS ∧
    (HG_Respond (refEnv true false) (refClass false) (refWorld0 5 6 0 0) (refHandle 16)
      (some refSpilledPriv) none 5 1000 0).world.responses = [(0, 3)] ∧
    ((HG_Respond (refEnv true false) (refClass false) (refWorld0 5 6 0 0) (refHandle 16)
      (some refSpilledPriv) none 5 1000 0).priv.map (fun p => p.arg)) = some 77 :=
  have h := respond_passes_callback (refEnv true false) (refClass false) (refWorld0 5 6 0 0)
    (refHandle 16) refSpilledPriv (refInfo (some ref_codec2) false) none 5 1000 0 rfl
  ⟨(congrArg HandleResult.ret (h.1 (by decide))).trans (by decide),
    (congrArg (fun r => r.world.responses) (h.1 (by decide))).trans (by decide),
    (congrArg (fun r => r.priv.map (fun p => p.arg)) (h.1 (by decide))).trans (by decide)⟩

/-! ## C18: the forward trampoline -/

/-- C18: the forward trampoline `hg_forward_cb`, for every completion record,
whatever its return code.  It returns `HG_SUCCESS`.  A buffer in the slot is
released together with its bulk handle (`HG_Bulk_free`, then
`hg_mem_aligned_free`) and the slot is emptied; the buffer pointer is null
afterwards in every case, and the whole slot is empty (null, `0`, null)
whenever it was well formed on entry (no size and no bulk handle without a
buffer), which `hg_set_struct` preserves.  The stashed callback, when there is one, is run once, in the
world the cleanup leaves, on a record made of the stashed argument and of the
code, type and info of the completion record; when there is none the world is
the one the cleanup leaves. -/
theorem forward_cb_cleans_then_calls {σ Hdr : Type} (E : Env σ Hdr) (w : σ)
    (pd : hg_private_data σ Hdr) (callback_info : hg_cb_info) :
    (hg_forward_cb E w pd callback_info).1 = .HG_SUCCESS ∧
    (hg_forward_cb E w pd callback_info).2.2.extra_bulk_buf = 0 ∧
    (slot_wf pd → spill_slot (hg_forward_cb E w pd callback_info).2.2 = (0, 0, HG_BULK_NULL)) ∧
    (∀ (handle : hg_handle) (pi : hg_proc_info σ) (op : hg_op_t) (struct_ptr : Ptr)
        (payload_size : hg_size_t) (more_data : Bool), slot_wf pd →
      slot_wf (hg_set_struct E w handle pd pi op struct_ptr payload_size more_data).priv) ∧
    same_stash (hg_forward_cb E w pd callback_info).2.2 pd ∧
    (pd.extra_bulk_buf ≠ 0 →
      (hg_forward_cb_cleanup E w pd).1 =
        E.hg_mem_aligned_free (E.HG_Bulk_free w pd.extra_bulk_handle).2 pd.extra_bulk_buf) ∧
    (pd.extra_bulk_buf = 0 → (hg_forward_cb_cleanup E w pd).1 = w) ∧
    (∀ cb : hg_cb_t σ, pd.callback = some cb →
      (hg_forward_cb E w pd callback_info).2.1 =
        (cb ⟨pd.arg, callback_info.ret, callback_info.type, callback_info.info⟩
          (hg_forward_cb_cleanup E w pd).1).2) ∧
    (pd.callback = none →
      (hg_forward_cb E w pd callback_info).2.1 = (hg_forward_cb_cleanup E w pd).1) := by
  have hc : (hg_forward_cb_cleanup E w pd).2.callback = pd.callback ∧
      (hg_forward_cb_cleanup E w pd).2.arg = pd.arg := by
    simp only [hg_forward_cb_cleanup]
    split_ifs <;> exact ⟨rfl, rfl⟩
  have hp : (hg_forward_cb E w pd callback_info).2.2 = (hg_forward_cb_cleanup E w pd).2 := by
    simp only [hg_forward_cb]
    cases (hg_forward_cb_cleanup E w pd).2.callback <;> rfl
  refine ⟨?_, ?_, ?_, ?_, ?_, ?_, ?_, ?_, ?_⟩
  · simp only [hg_forward_cb]
    cases (hg_forward_cb_cleanup E w pd).2.callback <;> rfl
  · rw [hp]
    simp only [hg_forward_cb_cleanup]
    split_ifs with h
    · rfl
    · exact not_not.mp h
  · intro hwf
    rw [hp]
    simp only [hg_forward_cb_cleanup]
    split_ifs with h
    · rfl
    · have h0 := not_not.mp h
      simp only [spill_slot, h0, (hwf h0).1, (hwf h0).2]
  · intro handle pi op struct_ptr payload_size more_data hwf
    exact hg_set_struct_slot_wf E w handle pd pi op struct_ptr payload_size more_data hwf
  · rw [hp]
    simp only [hg_forward_cb_cleanup]
    split_ifs <;> exact ⟨rfl, rfl, rfl, rfl, rfl⟩
  · intro h
    simp [hg_forward_cb_cleanup, h]
  · intro h
    simp [hg_forward_cb_cleanup, h]
  · intro cb hcb
    have h1 := hc.1
    rw [hcb] at h1
    simp only [hg_forward_cb, h1, hc.2]
  · intro hcb
    have h1 := hc.1
    rw [hcb] at h1
    simp only [hg_forward_cb, h1]

/-- Witness of C18: on the origin whose forward had spilled, a completion
record that carries `HG_CANCELED` makes the trampoline free bulk handle `1` and
the buffer at `106`, empty the slot, and deliver to the user callback one
record with the stashed argument `77`, `HG_CANCELED` and the type and info of
the completion record. -/
theorem forward_cb_cleans_then_calls_witness :
    spill_slot (hg_forward_cb (refEnv true false) (refWorld0 5 6 7 8) refSpilledPriv
      ⟨0, .HG_CANCELED, 3, 4⟩).2.2 = (0, 0, 0) ∧
    (hg_forward_cb (refEnv true false) (refWorld0 5 6 7 8) refSpilledPriv
      ⟨0, .HG_CANCELED, 3, 4⟩).2.1.bulks_freed = [1] ∧
    (hg_forward_cb (refEnv true false) (refWorld0 5 6 7 8) refSpilledPriv
      ⟨0, .HG_CANCELED, 3, 4⟩).2.1.freed = [106] ∧
    (hg_forward_cb (refEnv true false) (refWorld0 5 6 7 8) refSpilledPriv
      ⟨0, .HG_CANCELED, 3, 4⟩).2.1.delivered = [⟨77, .HG_CANCELED, 3, 4⟩] :=
  have h := forward_cb_cleans_then_calls (refEnv true false) (refWorld0 5 6 7 8)
    refSpilledPriv ⟨0, .HG_CANCELED, 3, 4⟩
  have hw := h.2.2.2.2.2.2.2.1 ref_user_cb rfl
  ⟨h.2.2.1 (fun h0 => absurd h0 (by decide)),
    (congrArg RefWorld.bulks_freed hw).trans (by decide),
    (congrArg RefWorld.freed hw).trans (by decide),
    (congrArg RefWorld.delivered hw).trans (by decide)⟩

/-! ## C19: re-registration -/

/-- C19: re-registration.  For an id that is registered and has a registration
record, `HG_Register(id, in, out, h)` returns `HG_SUCCESS` without allocating;
afterwards the record of `id` is the old record with its two codecs replaced by
`in` and `out` (user data pointer, free callback and response flag as they
were), the handler of `id` is `h`, `id` is still registered, and the records
and handlers of the other ids are as they were. -/
theorem register_again_updates_codecs {σ : Type} (cls : hg_class σ) (id : hg_id_t)
    (info : hg_proc_info σ) (h0 : Option (hg_rpc_cb_t σ))
    (in_proc_cb out_proc_cb : Option (hg_proc_cb_t σ)) (rpc_cb : Option (hg_rpc_cb_t σ))
    (malloc_ok : Bool)
    (hreg : cls.rpc_cb id = some h0) (hdata : cls.rpc_data id = some info) :
    ∃ cls1 : hg_class σ,
      HG_Register (some cls) id in_proc_cb out_proc_cb rpc_cb malloc_ok
        = (.HG_SUCCESS, some cls1) ∧
      HG_Core_registered_data cls1 id =
        some { info with in_proc_cb := in_proc_cb, out_proc_cb := out_proc_cb } ∧
      (∀ r, HG_Core_registered_data cls1 id = some r →
        r.in_proc_cb = in_proc_cb ∧ r.out_proc_cb = out_proc_cb ∧
        r.data = info.data ∧ r.free_callback = info.free_callback ∧
        r.no_response = info.no_response) ∧
      cls1.rpc_cb id = some rpc_cb ∧
      HG_Registered cls1 id = (.HG_SUCCESS, true) ∧
      (∀ j, j ≠ id → cls1.rpc_data j = cls.rpc_data j ∧ cls1.rpc_cb j = cls.rpc_cb j) := by
  refine ⟨⟨fun j => if j = id then
        some ⟨in_proc_cb, out_proc_cb, info.no_response, info.data, info.free_callback⟩
      else cls.rpc_data j,
    fun j => if j = id then some rpc_cb else cls.rpc_cb j⟩, ?_, ?_, ?_, ?_, ?_, ?_⟩
  · simp [HG_Register, HG_Registered, HG_Core_registered, HG_Core_register,
      HG_Core_registered_data, hreg, hdata]
  · simp [HG_Core_registered_data]
  · intro r hr
    simp only [HG_Core_registered_data, if_true, Option.some.injEq] at hr
    subst hr
    exact ⟨rfl, rfl, rfl, rfl, rfl⟩
  · simp
  · simp [HG_Registered, HG_Core_registered]
  · intro j hj
    simp [hj]

/-- Witness of C19: RPC id `7` of the reference class, whose response is
suppressed, is registered again with the four-byte codec; the call succeeds,
although no memory could be allocated, and the response is still suppressed. -/
theorem register_again_updates_codecs_witness :
    ∃ cls1 : hg_class RefWorld,
      HG_Register (some (refClass true)) 7 (some ref_codec4) (some ref_codec4) none false
        = (.HG_SUCCESS, some cls1) ∧
      (∀ r, HG_Core_registered_data cls1 7 = some r → r.no_response = true) ∧
      HG_Registered cls1 7 = (.HG_SUCCESS, true) :=
  have h := register_again_updates_codecs (refClass true) 7 (refInfo (some ref_codec2) true)
    none (some ref_codec4) (some ref_codec4) none false rfl rfl
  h.elim fun cls1 hc => ⟨cls1, hc.1, fun r hr => (hc.2.2.1 r hr).2.2.2.2, hc.2.2.2.2.1⟩

/-! ## C20: `HG_Register_name` -/

/-- C20: for a class and a name that are not null, `HG_Register_name` returns
`hg_hash_string(func_name)`, whatever codecs and handler it is given and
whatever `HG_Register` returns; so two calls with the same name return the same
id.  With a null class or a null name it returns `0`. -/
theorem register_name_returns_hash {σ Hdr : Type} (E : Env σ Hdr) (cls : hg_class σ)
    (func_name : String) (in_proc_cb out_proc_cb : Option (hg_proc_cb_t σ))
    (rpc_cb : Option (hg_rpc_cb_t σ)) (malloc_ok : Bool) :
    (HG_Register_name E (some cls) (some func_name) in_proc_cb out_proc_cb rpc_cb malloc_ok).1
      = E.hg_hash_string func_name ∧
    (∀ (cls2 : hg_class σ) (in2 out2 : Option (hg_proc_cb_t σ))
        (rpc2 : Option (hg_rpc_cb_t σ)) (ok2 : Bool),
      (HG_Register_name E (some cls2) (some func_name) in2 out2 rpc2 ok2).1 =
        (HG_Register_name E (some cls) (some func_name) in_proc_cb out_proc_cb rpc_cb
          malloc_ok).1) ∧
    (∀ name : Option String,
      (HG_Register_name E none name in_proc_cb out_proc_cb rpc_cb malloc_ok).1 = 0) ∧
    (∀ c : Option (hg_class σ),
      (HG_Register_name E c none in_proc_cb out_proc_cb rpc_cb malloc_ok).1 = 0) := by
  refine ⟨rfl, fun _ _ _ _ _ => rfl, fun _ => rfl, ?_⟩
  intro c
  cases c <;> rfl

/-- Witness of C20: registering the name of a new RPC when no memory can be
allocated makes `HG_Register` fail with `HG_NOMEM_ERROR`, and
`HG_Register_name` still returns the hash of the name (`5` in the reference
instance). -/
theorem register_name_returns_hash_witness :
    (HG_Register (some (refClass false)) ((refEnv true false).hg_hash_string "noop")
      (some ref_codec2) (some ref_codec2) none false).1 = .HG_NOMEM_ERROR ∧
    (HG_Register_name (refEnv true false) (some (refClass false)) (some "noop")
      (some ref_codec2) (some ref_codec2) none false).1 = 5 :=
  have h := register_name_returns_hash (refEnv true false) (refClass false) "noop"
    (some ref_codec2) (some ref_codec2) none false
  ⟨by decide, h.1.trans (by decide)⟩

/-! ## C21: `HG_Register_data` on a record that carries data -/

/-- C21, counterexample: `HG_Register_data` does not run the free callback of
the data it replaces.  The record of RPC id `7` carries the data `900` and a
free callback that records its argument; `HG_Register_data(7, 901, NULL)`
returns `HG_SUCCESS` and nothing has been freed, where the specification's
`register_data` would have freed `900`. -/
theorem register_data_skips_free_callback :
    (HG_Register_data refDataClass (refWorld0 0 0 0 0) 7 901 none).1 = .HG_SUCCESS ∧
    (HG_Register_data refDataClass (refWorld0 0 0 0 0) 7 901 none).2.1.freed = [] ∧
    (HG_Register_data_spec refDataClass (refWorld0 0 0 0 0) 7 901 none).2.1.freed = [900] ∧
    HG_Registered_data refDataClass 7 = 900 ∧
    HG_Registered_data (HG_Register_data refDataClass (refWorld0 0 0 0 0) 7 901 none).2.2 7
      = 901 := by
  decide

/-- C21, amended: for an id whose record carries user data `d` with free
callback `f`, `HG_Register_data(id, d1, f1)` returns `HG_SUCCESS`, runs no
callback (the world is as it was; `f` is not run on `d`) and stores `d1` and
`f1` in the record, whose codecs and response flag are as they were, so that
`HG_Registered_data(id)` returns `d1` afterwards.  A free callback runs when
the record is released: `hg_proc_info_free` on the new record runs `f1` on
`d1`. -/
theorem register_data_overwrites {σ : Type} (cls : hg_class σ) (w : σ) (id : hg_id_t)
    (info : hg_proc_info σ) (data : Ptr) (free_callback : Option (Ptr → σ → σ))
    (hdata : HG_Core_registered_data cls id = some info) :
    (HG_Register_data cls w id data free_callback).1 = .HG_SUCCESS ∧
    (HG_Register_data cls w id data free_callback).2.1 = w ∧
    HG_Core_registered_data (HG_Register_data cls w id data free_callback).2.2 id =
      some ⟨info.in_proc_cb, info.out_proc_cb, info.no_response, data, free_callback⟩ ∧
    HG_Registered_data (HG_Register_data cls w id data free_callback).2.2 id = data ∧
    (∀ j, j ≠ id →
      HG_Core_registered_data (HG_Register_data cls w id data free_callback).2.2 j =
        HG_Core_registered_data cls j) ∧
    (∀ (f1 : Ptr → σ → σ) (v : σ), free_callback = some f1 →
      hg_proc_info_free v
        ⟨info.in_proc_cb, info.out_proc_cb, info.no_response, data, free_callback⟩
        = f1 data v) := by
  have hd : cls.rpc_data id = some info := hdata
  refine ⟨?_, ?_, ?_, ?_, ?_, ?_⟩
  · simp [HG_Register_data, HG_Core_registered_data, hd]
  · simp [HG_Register_data, HG_Core_registered_data, hd]
  · simp [HG_Register_data, HG_Core_registered_data, hd]
  · simp [HG_Register_data, HG_Registered_data, HG_Core_registered_data, hd]
  · intro j hj
    simp [HG_Register_data, HG_Core_registered_data, hd, hj]
  · intro f1 v hf
    simp [hg_proc_info_free, hf]

/-- Witness of C21, amended: replacing the data `900` of RPC id `7` by `901`
frees nothing, and `HG_Registered_data` then returns `901`. -/
theorem register_data_overwrites_witness :
    (HG_Register_data refDataClass (refWorld0 0 0 0 0) 7 901 (some ref_free_cb)).2.1.freed
      = [] ∧
    HG_Registered_data
      (HG_Register_data refDataClass (refWorld0 0 0 0 0) 7 901 (some ref_free_cb)).2.2 7
      = 901 :=
  have h := register_data_overwrites refDataClass (refWorld0 0 0 0 0) 7
    ⟨some ref_codec2, some ref_codec2, false, 900, some ref_free_cb⟩ 901 (some ref_free_cb)
    rfl
  ⟨(congrArg RefWorld.freed h.2.1).trans (by decide), h.2.2.2.1⟩

/-! ## C22: registry miss -/

/-- C22: registry miss.  For an id without registration record,
`HG_Register_data` and `HG_Registered_disable_response` return `HG_NO_MATCH`
and leave the class (every record) and the world as they were, and
`HG_Registered_data` returns `NULL`; for an id with a record both return
`HG_SUCCESS`. -/
theorem registry_miss_no_match {σ : Type} (cls : hg_class σ) (w : σ) (id : hg_id_t)
    (data : Ptr) (free_callback : Option (Ptr → σ → σ)) (disable : Bool) :
    (HG_Core_registered_data cls id = none →
      HG_Register_data cls w id data free_callback = (.HG_NO_MATCH, w, cls) ∧
      HG_Registered_disable_response cls id disable = (.HG_NO_MATCH, cls) ∧
      HG_Registered_data cls id = 0) ∧
    (HG_Core_registered_data cls id ≠ none →
      (HG_Register_data cls w id data free_callback).1 = .HG_SUCCESS ∧
      (HG_Registered_disable_response cls id disable).1 = .HG_SUCCESS) := by
  constructor
  · intro h
    have hd : cls.rpc_data id = none := h
    simp [HG_Register_data, HG_Registered_disable_response, HG_Registered_data,
      HG_Core_registered_data, hd]
  · intro h
    obtain ⟨info, hinfo⟩ := Option.ne_none_iff_exists'.mp h
    have hd : cls.rpc_data id = some info := hinfo
    simp [HG_Register_data, HG_Registered_disable_response, HG_Core_registered_data, hd]

/-- Witness of C22: RPC id `8` is not registered in the reference class, RPC id
`7` is. -/
theorem registry_miss_no_match_witness :
    (HG_Register_data refDataClass (refWorld0 0 0 0 0) 8 901 none).1 = .HG_NO_MATCH ∧
    (HG_Registered_disable_response refDataClass 8 true).1 = .HG_NO_MATCH ∧
    HG_Registered_data refDataClass 8 = 0 ∧
    (HG_Register_data refDataClass (refWorld0 0 0 0 0) 7 901 none).1 = .HG_SUCCESS ∧
    (HG_Registered_disable_response refDataClass 7 true).1 = .HG_SUCCESS :=
  have h8 := (registry_miss_no_match refDataClass (refWorld0 0 0 0 0) 8 901 none true).1 rfl
  have h7 := (registry_miss_no_match refDataClass (refWorld0 0 0 0 0) 7 901 none true).2
    (by simp [HG_Core_registered_data, refDataClass])
  ⟨congrArg Prod.fst h8.1, congrArg Prod.fst h8.2.1, h8.2.2, h7.1, h7.2⟩

/-! ## C23: `HG_Error_to_string` -/

/-- C23: when the eleven constants of `hg_return_t` have different values,
`HG_Error_to_string` returns for each of them the text of its identifier;
different codes give different strings and the same code the same string (it
is a function of its argument); every other value gives
`"UNDEFINED/UNRECOGNIZED NA ERROR"`, which is none of the eleven names. -/
theorem error_to_string_names (value : hg_return_t → Int)
    (hinj : Function.Injective value) :
    (∀ c : hg_return_t, HG_Error_to_string value (value c) = hg_return_name c) ∧
    (∀ c d : hg_return_t, c ≠ d →
      HG_Error_to_string value (value c) ≠ HG_Error_to_string value (value d)) ∧
    (∀ n : Int, (∀ c : hg_return_t, n ≠ value c) →
      HG_Error_to_string value n = "UNDEFINED/UNRECOGNIZED NA ERROR") ∧
    (∀ c : hg_return_t,
      HG_Error_to_string value (value c) ≠ "UNDEFINED/UNRECOGNIZED NA ERROR") := by
  have hname : ∀ c : hg_return_t, HG_Error_to_string value (value c) = hg_return_name c := by
    intro c
    cases c <;> simp [HG_Error_to_string, hg_return_name, hinj.eq_iff]
  refine ⟨hname, ?_, ?_, ?_⟩
  · intro c d hcd
    rw [hname, hname]
    cases c <;> cases d <;> first | exact absurd rfl hcd | (simp [hg_return_name])
  · intro n hn
    simp [HG_Error_to_string, hn]
  · intro c
    rw [hname]
    cases c <;> simp [hg_return_name]

/-- Witness of C23: with the constants numbered from `0`, the value `6` gives
`"HG_PROTOCOL_ERROR"` and the value `11` the text for unknown codes. -/
theorem error_to_string_names_witness :
    HG_Error_to_string ref_return_value 6 = "HG_PROTOCOL_ERROR" ∧
    HG_Error_to_string ref_return_value 11 = "UNDEFINED/UNRECOGNIZED NA ERROR" :=
  have hinj : Function.Injective ref_return_value := by
    intro c d h
    cases c <;> cases d <;> first | rfl | exact absurd h (by decide)
  have h := error_to_string_names ref_return_value hinj
  ⟨h.1 .HG_PROTOCOL_ERROR, h.2.2.1 11 (fun c => by cases c <;> decide)⟩

/-! ## C24: the more-data hook pulls the advertised region -/

/-- C24: the more-data hook `hg_get_extra_input`, when the core input buffer is
there and the descriptor pass (reset, decode of the bulk handle, flush)
succeeds.  The size recorded in the slot is the size `HG_Bulk_get_size` gives
for the decoded handle, and the buffer of the slot is the one
`hg_mem_aligned_alloc` returns for the page size as alignment and exactly that
size.  When the buffer is not null and the local bulk handle is created
(read-write, over that buffer and size), the code returned is that of one
`HG_Bulk_transfer`: a pull, addressed to the address and target id of the
handle's info, from offset `0` of the decoded handle to offset `0` of the
local handle, of exactly that size; the caller's `done_cb` is stored as the
continuation, both bulk handles are released and the bulk handle of the slot
is null on return. -/
theorem get_extra_input_pulls_advertised {σ Hdr : Type} (E : Env σ Hdr) (w : σ)
    (handle : hg_handle) (pd : hg_private_data σ Hdr)
    (done_cb : Option (hg_handle → σ → hg_return_t × σ))
    (hg : (E.HG_Core_get_input handle).1 = .HG_SUCCESS)
    (hd : (extra_desc E w handle pd).1 = .HG_SUCCESS) :
    (hg_get_extra_input E w handle pd done_cb).2.2.extra_bulk_buf_size =
      E.HG_Bulk_get_size (extra_desc E w handle pd).2.1 (extra_desc E w handle pd).2.2 ∧
    (hg_get_extra_input E w handle pd done_cb).2.2.extra_bulk_buf =
      (E.hg_mem_aligned_alloc (extra_desc E w handle pd).2.1 (E.hg_mem_get_page_size w)
        (E.HG_Bulk_get_size (extra_desc E w handle pd).2.1
          (extra_desc E w handle pd).2.2)).1 ∧
    (hg_get_extra_input E w handle pd done_cb).2.2.extra_bulk_handle = HG_BULK_NULL ∧
    ((extra_alloc E w handle pd).1 ≠ 0 → (extra_local E w handle pd).1 = .HG_SUCCESS →
      (hg_get_extra_input E w handle pd done_cb).1 =
        (E.HG_Bulk_transfer (extra_local E w handle pd).2.1 handle.info.context handle
          .HG_BULK_PULL handle.info.addr handle.info.target_id
          (extra_desc E w handle pd).2.2 0 (extra_local E w handle pd).2.2 0
          (E.HG_Bulk_get_size (extra_desc E w handle pd).2.1
            (extra_desc E w handle pd).2.2)).1 ∧
      (hg_get_extra_input E w handle pd done_cb).2.1 =
        (E.HG_Bulk_free
          (E.HG_Bulk_free
            (E.HG_Bulk_transfer (extra_local E w handle pd).2.1 handle.info.context handle
              .HG_BULK_PULL handle.info.addr handle.info.target_id
              (extra_desc E w handle pd).2.2 0 (extra_local E w handle pd).2.2 0
              (E.HG_Bulk_get_size (extra_desc E w handle pd).2.1
                (extra_desc E w handle pd).2.2)).2
            (extra_local E w handle pd).2.2).2
          (extra_desc E w handle pd).2.2).2 ∧
      (hg_get_extra_input E w handle pd done_cb).2.2.extra_bulk_transfer_cb = done_cb) := by
  rw [hg_get_extra_input_late E w handle pd done_cb hg hd]
  refine ⟨?_, ?_, ?_, ?_⟩
  · split_ifs <;> rfl
  · split_ifs <;> rfl
  · split_ifs <;> rfl
  · intro ha hl
    rw [if_neg ha, if_neg (not_not.mpr hl)]
    exact ⟨rfl, rfl, rfl⟩

/-- Witness of C24: in the loop-back world the target decodes bulk handle `1`,
which advertises two bytes, allocates two bytes aligned on `4096`, and issues
one pull of two bytes from offset `0` to offset `0`; the slot then holds the
buffer at `8192`, and the two bytes `5 6` are there. -/
theorem get_extra_input_pulls_advertised_witness :
    spill_slot (hg_get_extra_input (refEnv true false) refLoopWorld (refHandle 3) refPriv
      none).2.2 = (8192, 2, 0) ∧
    (hg_get_extra_input (refEnv true false) refLoopWorld (refHandle 3) refPriv none).1
      = .HG_SUCCESS ∧
    (hg_get_extra_input (refEnv true false) refLoopWorld (refHandle 3) refPriv
      none).2.1.allocs = [(4096, 2)] ∧
    (hg_get_extra_input (refEnv true false) refLoopWorld (refHandle 3) refPriv
      none).2.1.transfers = [⟨.HG_BULK_PULL, 1, 0, 1, 0, 2, 0, 2⟩] ∧
    ((hg_get_extra_input (refEnv true false) refLoopWorld (refHandle 3) refPriv
        none).2.1.mem 8192,
      (hg_get_extra_input (refEnv true false) refLoopWorld (refHandle 3) refPriv
        none).2.1.mem 8193) = (5, 6) :=
  have h := get_extra_input_pulls_advertised (refEnv true false) refLoopWorld (refHandle 3)
    refPriv none (by decide) (by decide)
  have ht := h.2.2.2 (by decide) (by decide)
  ⟨by rw [spill_slot, h.1, h.2.1, h.2.2.1]; decide,
    ht.1.trans (by decide),
    (congrArg RefWorld.allocs ht.2.1).trans (by decide),
    (congrArg RefWorld.transfers ht.2.1).trans (by decide),
    (congrArg (fun v => (RefWorld.mem v 8192, RefWorld.mem v 8193)) ht.2.1).trans
      (by decide)⟩

/-! ## C25: the slot when the more-data hook fails -/

/-- C25, counterexample: the slot is not empty after a failed hook.  In the
loop-back world, on a handle whose origin address is null, the descriptor is
decoded, the buffer is allocated and the transfer fails: the hook returns
`HG_NA_ERROR`, and the slot, empty before, holds the buffer at `8192` and the
size `2`. -/
theorem more_data_failure_keeps_buffer :
    (hg_more_data_cb (refEnv true false) refLoopWorld
      { refHandle 3 with info := ⟨1, 1, 0, 0, 7⟩ } (some refPriv) none).1 = .HG_NA_ERROR ∧
    spill_slot (refPriv : hg_private_data RefWorld RefHeader) = (0, 0, 0) ∧
    ((hg_more_data_cb (refEnv true false) refLoopWorld
      { refHandle 3 with info := ⟨1, 1, 0, 0, 7⟩ } (some refPriv) none).2.2.map spill_slot)
      = some (8192, 2, 0) := by
  decide

/-- C25, amended: the slot after a failing more-data hook depends on the step
that failed.  When the core buffer is not available or the descriptor pass
(reset, decode, flush) fails, pointer and size of the slot are as they were
before the call.  When the allocation fails, the code is `HG_NOMEM_ERROR`, the
pointer is null and the size is the advertised size, which has been recorded
before the allocation.  When the allocation succeeds, the failure is that of
the local bulk handle or of the transfer, and the slot holds the buffer
allocated and the advertised size.  In every case the bulk handle of the slot
is null on return; and without private data `hg_more_data_cb` returns
`HG_PROTOCOL_ERROR`. -/
theorem more_data_failure_slot {σ Hdr : Type} (E : Env σ Hdr) (w : σ)
    (handle : hg_handle) (pd : hg_private_data σ Hdr)
    (done_cb : Option (hg_handle → σ → hg_return_t × σ))
    (hr : (hg_get_extra_input E w handle pd done_cb).1 ≠ .HG_SUCCESS) :
    (((E.HG_Core_get_input handle).1 ≠ .HG_SUCCESS ∨
        (extra_desc E w handle pd).1 ≠ .HG_SUCCESS) →
      (hg_get_extra_input E w handle pd done_cb).2.2.extra_bulk_buf = pd.extra_bulk_buf ∧
      (hg_get_extra_input E w handle pd done_cb).2.2.extra_bulk_buf_size
        = pd.extra_bulk_buf_size) ∧
    ((E.HG_Core_get_input handle).1 = .HG_SUCCESS →
      (extra_desc E w handle pd).1 = .HG_SUCCESS →
      (hg_get_extra_input E w handle pd done_cb).2.2.extra_bulk_buf_size
        = extra_size E w handle pd ∧
      (hg_get_extra_input E w handle pd done_cb).2.2.extra_bulk_buf
        = (extra_alloc E w handle pd).1 ∧
      ((extra_alloc E w handle pd).1 = 0 →
        (hg_get_extra_input E w handle pd done_cb).1 = .HG_NOMEM_ERROR) ∧
      ((extra_alloc E w handle pd).1 ≠ 0 →
        (extra_local E w handle pd).1 ≠ .HG_SUCCESS ∨
        (E.HG_Bulk_transfer (extra_local E w handle pd).2.1 handle.info.context handle
          .HG_BULK_PULL handle.info.addr handle.info.target_id
          (extra_desc E w handle pd).2.2 0 (extra_local E w handle pd).2.2 0
          (extra_size E w handle pd)).1 ≠ .HG_SUCCESS)) ∧
    (hg_get_extra_input E w handle pd done_cb).2.2.extra_bulk_handle = HG_BULK_NULL ∧
    hg_more_data_cb E w handle (some pd) done_cb =
      ((hg_get_extra_input E w handle pd done_cb).1,
        (hg_get_extra_input E w handle pd done_cb).2.1,
        some (hg_get_extra_input E w handle pd done_cb).2.2) ∧
    hg_more_data_cb E w handle none done_cb = (.HG_PROTOCOL_ERROR, w, none) := by
  have hnull : (hg_get_extra_input E w handle pd done_cb).2.2.extra_bulk_handle
      = HG_BULK_NULL := by
    by_cases h : (E.HG_Core_get_input handle).1 = .HG_SUCCESS ∧
        (extra_desc E w handle pd).1 = .HG_SUCCESS
    · rw [hg_get_extra_input_late E w handle pd done_cb h.1 h.2]
      split_ifs <;> rfl
    · simp only [hg_get_extra_input, hg_get_extra_input_done]
      split_ifs <;> rfl
  refine ⟨?_, ?_, hnull, rfl, rfl⟩
  · intro h
    exact (hg_get_extra_input_early E w handle pd done_cb h).2
  · intro hg hd
    rw [hg_get_extra_input_late E w handle pd done_cb hg hd] at hr ⊢
    refine ⟨?_, ?_, ?_, ?_⟩
    · split_ifs <;> rfl
    · split_ifs <;> rfl
    · intro ha
      rw [if_pos ha]
      rfl
    · intro ha
      rw [if_neg ha] at hr
      by_cases hl : (extra_local E w handle pd).1 = .HG_SUCCESS
      · right
        rw [if_neg (not_not.mpr hl)] at hr
        exact hr
      · exact Or.inl hl

/-- Witness of C25, amended: in the failing run of the counterexample the
allocation had succeeded, so the failure is that of the transfer and the slot
holds the buffer at `8192` and the advertised size `2`. -/
theorem more_data_failure_slot_witness :
    (hg_get_extra_input (refEnv true false) refLoopWorld
      { refHandle 3 with info := ⟨1, 1, 0, 0, 7⟩ } refPriv none).1 ≠ .HG_SUCCESS ∧
    (hg_get_extra_input (refEnv true false) refLoopWorld
      { refHandle 3 with info := ⟨1, 1, 0, 0, 7⟩ } refPriv none).2.2.extra_bulk_buf = 8192 ∧
    (hg_get_extra_input (refEnv true false) refLoopWorld
      { refHandle 3 with info := ⟨1, 1, 0, 0, 7⟩ } refPriv none).2.2.extra_bulk_buf_size = 2 :=
  have h := (more_data_failure_slot (refEnv true false) refLoopWorld
    { refHandle 3 with info := ⟨1, 1, 0, 0, 7⟩ } refPriv none (by decide)).2.1
    (by decide) (by decide)
  ⟨by decide, h.2.1.trans (by decide), h.1.trans (by decide)⟩

/-! ## C26: the checksum of a spilled payload -/

/-- C26: in the spill path of `hg_set_struct`, build with checksums.  The
header that is encoded carries, as payload hash, the checksum the codec holds
after the pass over the user struct: it is taken before the bulk descriptor is
created and before the proc is reset for the descriptor pass, and the header
is encoded with it in the world the descriptor pass leaves.  Under
`RoundTripLaws`, a receiver that holds the header bytes and, in its slot, a
byte-identical copy of the spill buffer decodes that hash from the header, and
the checksum of its own decode pass over the slot compares equal to it. -/
theorem spill_checksum_of_user_struct {σ Hdr S : Type} (E : Env σ Hdr)
    (rd : σ → Ptr → hg_size_t → List Nat) (val : σ → Ptr → S)
    (cb : hg_proc_cb_t σ) (op : hg_op_t) (laws : RoundTripLaws E rd val cb op)
    (hk : E.has_checksums = true)
    -- sender
    (w : σ) (handle : hg_handle) (pd : hg_private_data σ Hdr) (pi : hg_proc_info σ)
    (struct_ptr : Ptr) (payload_size : hg_size_t) (more_data : Bool)
    (hop : valid_op pi op) (hbuf : (core_buf E handle op).1 = .HG_SUCCESS)
    (hcb : proc_cb_of pi op = some cb) (hptr : struct_ptr ≠ 0)
    (hset : (hg_set_struct E w handle pd pi op struct_ptr payload_size more_data).ret
      = .HG_SUCCESS)
    (he : set_extra_buf E w handle pd op cb struct_ptr ≠ 0)
    (hrange : (core_buf E handle op).2.2 < 2 ^ E.size_bits)
    -- receiver
    (v : σ) (rhandle : hg_handle) (qd : hg_private_data σ Hdr) (out_ptr : Ptr)
    (hrptr : out_ptr ≠ 0) (hrproc : proc_of qd op ≠ 0)
    (hsize : (core_buf E rhandle op).2.2 = (core_buf E handle op).2.2)
    (hhdr : rd v (core_buf E rhandle op).2.1 (E.hg_header_get_size op) =
      rd (hg_set_struct E w handle pd pi op struct_ptr payload_size more_data).world
        (core_buf E handle op).2.1 (E.hg_header_get_size op))
    (hslot : qd.extra_bulk_buf ≠ 0)
    (hslot_size : qd.extra_bulk_buf_size =
      (hg_set_struct E w handle pd pi op struct_ptr payload_size
        more_data).priv.extra_bulk_buf_size)
    (hslot_bytes : rd v qd.extra_bulk_buf qd.extra_bulk_buf_size =
      rd (hg_set_struct E w handle pd pi op struct_ptr payload_size more_data).world
        (hg_set_struct E w handle pd pi op struct_ptr payload_size
          more_data).priv.extra_bulk_buf
        (hg_set_struct E w handle pd pi op struct_ptr payload_size
          more_data).priv.extra_bulk_buf_size) :
    (hg_set_struct E w handle pd pi op struct_ptr payload_size more_data).world =
      (E.hg_header_proc .HG_ENCODE (set_desc E w handle pd op cb struct_ptr).2
        (core_buf E handle op).2.1 (core_buf E handle op).2.2
        (E.set_hash_payload op (E.hg_header_reset pd.hg_header op)
          (E.hg_proc_checksum_get (set_pass E w handle pd op cb struct_ptr).2 (proc_of pd op)
            (E.hash_payload op (E.hg_header_reset pd.hg_header op))).2)).2.1 ∧
    E.hash_payload op (get_header E v rhandle qd op).2.2 =
      (E.hg_proc_checksum_get (set_pass E w handle pd op cb struct_ptr).2 (proc_of pd op)
        (E.hash_payload op (E.hg_header_reset pd.hg_header op))).2 ∧
    E.hg_proc_checksum_verify (get_pass E v rhandle qd op cb out_ptr).2 (proc_of qd op)
      (E.hash_payload op (get_header E v rhandle qd op).2.2) = .HG_SUCCESS := by
  have hcg : set_checksum E w handle pd op cb struct_ptr =
      E.hg_proc_checksum_get (set_pass E w handle pd op cb struct_ptr).2 (proc_of pd op)
        (E.hash_payload op (E.hg_header_reset pd.hg_header op)) := by
    simp only [set_checksum, hk, if_true]
  have hsent : ∀ c, sent_header E pd.hg_header op c =
      E.set_hash_payload op (E.hg_header_reset pd.hg_header op) c := by
    intro c; simp only [sent_header, hk, if_true]
  rw [hg_set_struct_eq_encode E w handle pd pi op struct_ptr payload_size more_data hop hbuf,
    hcb] at hset hhdr hslot_size hslot_bytes ⊢
  obtain ⟨hp, hc, hcase⟩ := hg_set_struct_encode_success E w handle pd op struct_ptr
    payload_size more_data cb hptr hset
  rcases hcase with he0 | ⟨_, hxdr, hb, hd, hdfit⟩
  · exact absurd he0 he
  have heq := hg_set_struct_encode_spill E w handle pd op struct_ptr payload_size
    more_data cb hptr hxdr hp hc he hb hd hdfit
  rw [heq] at hset hhdr hslot_size hslot_bytes ⊢
  have hret := hg_set_struct_header_ret E (set_desc E w handle pd op cb struct_ptr).2
    (priv_spilled E w handle pd op cb struct_ptr) payload_size true
    (E.hg_header_get_size op) (proc_of pd op)
    ((core_buf E handle op).2.1 + E.hg_header_get_size op)
    (size_sub E (core_buf E handle op).2.2 (E.hg_header_get_size op))
  have hsp : (priv_spilled E w handle pd op cb struct_ptr).hg_header =
      sent_header E pd.hg_header op (set_checksum E w handle pd op cb struct_ptr).2 :=
    priv_hashed_header E w handle pd op cb struct_ptr
  rw [hg_set_struct_header_success E _ _ _ _ _ _ _ _ hset] at hhdr hslot_size hslot_bytes ⊢
  rw [hset, Nat.add_sub_cancel, size_add_sub_cancel E _ _ hrange, hsp] at hret
  simp only [Nat.add_sub_cancel, size_add_sub_cancel E _ _ hrange, hsp] at hhdr hslot_bytes ⊢
  obtain ⟨_, hh2⟩ := laws.header_round_trip _ _ _ _ _ hret.symm v
    (core_buf E rhandle op).2.1 qd.hg_header hhdr
  have hqn : qd.extra_bulk_buf_size = set_size_used E w handle pd op cb struct_ptr :=
    hslot_size
  have hkept := laws.spill_kept w handle pd struct_ptr (core_buf E handle op).2.2
    (set_checksum E w handle pd op cb struct_ptr).2 hp he hb hd hdfit
  have hbytes : rd (get_header E v rhandle qd op).2.1 qd.extra_bulk_buf
      (set_size_used E w handle pd op cb struct_ptr) =
      rd (set_pass E w handle pd op cb struct_ptr).2
        (if set_extra_buf E w handle pd op cb struct_ptr ≠ 0
          then set_extra_buf E w handle pd op cb struct_ptr
          else (core_buf E handle op).2.1 + E.hg_header_get_size op)
        (set_size_used E w handle pd op cb struct_ptr) := by
    rw [get_header, laws.header_reads]
    simp only [he, ne_eq, not_false_eq_true, if_true]
    rw [← hkept]
    rw [hqn] at hslot_bytes
    exact hslot_bytes
  obtain ⟨_, _, hq3⟩ := laws.codec_round_trip w (proc_of pd op)
    ((core_buf E handle op).2.1 + E.hg_header_get_size op)
    (size_sub E (core_buf E handle op).2.2 (E.hg_header_get_size op)) struct_ptr hptr hp
    (get_header E v rhandle qd op).2.1 (proc_of qd op) qd.extra_bulk_buf
    qd.extra_bulk_buf_size out_ptr hrproc hrptr
    (by
      have : E.hg_proc_get_extra_buf (set_pass E w handle pd op cb struct_ptr).2
          (proc_of pd op) ≠ 0 := he
      simp only [set_pass] at this
      simp only [this, ne_eq, not_false_eq_true, if_true]
      exact hqn)
    hbytes
  have hpass : get_pass E v rhandle qd op cb out_ptr =
      codec_pass E (get_header E v rhandle qd op).2.1 (proc_of qd op) cb qd.extra_bulk_buf
        qd.extra_bulk_buf_size .HG_DECODE out_ptr := by
    simp only [get_pass, decode_region, hslot, ne_eq, not_false_eq_true, if_true]
  have hhash : E.hash_payload op (get_header E v rhandle qd op).2.2 =
      (set_checksum E w handle pd op cb struct_ptr).2 := by
    rw [get_header, hsize]; exact hh2 hk
  refine ⟨?_, ?_, ?_⟩
  · rw [hsent, hcg]
  · rw [hhash, hcg]
  · rw [hhash, hpass, hcg]
    rw [hcg] at hc
    exact hq3 _ hc

/-- Witness of C26: the two-byte struct `5 6` is spilled by the origin; the
hash byte of the header it sends is `11`, the checksum of the two bytes and not
that of the descriptor, and the target, which decodes the two bytes from its
slot, finds the same checksum. -/
theorem spill_checksum_of_user_struct_witness :
    (hg_set_struct (refEnv true false) (refWorld0 5 6 0 0) (refHandle 3) refPriv
      (refInfo (some ref_codec2) false) .HG_INPUT 1000 0 false).world.mem 101 = 11 ∧
    (refEnv true false).hash_payload .HG_INPUT
      (get_header (refEnv true false) refTargetWorld (refHandle 3) refPulledPriv
        .HG_INPUT).2.2 = 11 ∧
    (refEnv true false).hg_proc_checksum_verify
      (get_pass (refEnv true false) refTargetWorld (refHandle 3) refPulledPriv .HG_INPUT
        ref_codec2 2000).2
      (proc_of refPulledPriv .HG_INPUT)
      ((refEnv true false).hash_payload .HG_INPUT
        (get_header (refEnv true false) refTargetWorld (refHandle 3) refPulledPriv
          .HG_INPUT).2.2) = .HG_SUCCESS :=
  have h := spill_checksum_of_user_struct (refEnv true false) ref_rd ref_val ref_codec2
    .HG_INPUT (ref_round_trip_laws true .HG_INPUT) rfl
    (refWorld0 5 6 0 0) (refHandle 3) refPriv (refInfo (some ref_codec2) false) 1000 0 false
    (Or.inl rfl) (by decide) rfl (by decide) (by decide) (by decide) (by decide)
    refTargetWorld (refHandle 3) refPulledPriv 2000
    (by decide) (by decide) rfl (by decide) (by decide) (by decide) (by decide)
  ⟨(congrArg (fun x => RefWorld.mem x 101) h.1).trans (by decide),
    h.2.1.trans (by decide), h.2.2⟩

/-! ## C27: packing of the protocol version -/

/-- C27: packing of the protocol version.  For `major < 256`, `minor < 256` and
`patch < 65536`, the 32-bit value `HG_VERSION` packs is taken apart again by
`HG_GET_MAJOR`, `HG_GET_MINOR` and `HG_GET_PATCH`, and two packed versions are
equal if and only if their three components are equal. -/
theorem version_pack_unpack (major minor patch : Nat) (hM : major < 256) (hm : minor < 256)
    (hp : patch < 65536) :
    HG_VERSION major minor patch < 2 ^ 32 ∧
    HG_GET_MAJOR (HG_VERSION major minor patch) = major ∧
    HG_GET_MINOR (HG_VERSION major minor patch) = minor ∧
    HG_GET_PATCH (HG_VERSION major minor patch) = patch ∧
    (∀ major2 minor2 patch2 : Nat, major2 < 256 → minor2 < 256 → patch2 < 65536 →
      (HG_VERSION major minor patch = HG_VERSION major2 minor2 patch2 ↔
        major = major2 ∧ minor = minor2 ∧ patch = patch2)) := by
  have hff : (0xFF : Nat) = 2 ^ 8 - 1 := by norm_num
  have hffff : (0xFFFF : Nat) = 2 ^ 16 - 1 := by norm_num
  have hv := HG_VERSION_eq_add major minor patch hM hm hp
  refine ⟨?_, ?_, ?_, ?_, ?_⟩
  · rw [HG_VERSION]; exact Nat.mod_lt _ (by norm_num)
  · rw [HG_GET_MAJOR, hff, Nat.and_pow_two_sub_one_eq_mod, Nat.shiftRight_eq_div_pow, hv]
    norm_num
    omega
  · rw [HG_GET_MINOR, hff, Nat.and_pow_two_sub_one_eq_mod, Nat.shiftRight_eq_div_pow, hv]
    norm_num
    omega
  · rw [HG_GET_PATCH, hffff, Nat.and_pow_two_sub_one_eq_mod, hv]
    norm_num
    omega
  · intro major2 minor2 patch2 hM2 hm2 hp2
    rw [hv, HG_VERSION_eq_add major2 minor2 patch2 hM2 hm2 hp2]
    norm_num
    omega

/-- Witness of C27: version `1.2.3` is packed as `0x01020003`. -/
theorem version_pack_unpack_witness :
    HG_VERSION 1 2 3 = 0x01020003 ∧ HG_GET_MAJOR 0x01020003 = 1 ∧
    HG_GET_MINOR 0x01020003 = 2 ∧ HG_GET_PATCH 0x01020003 = 3 :=
  have h := version_pack_unpack 1 2 3 (by decide) (by decide) (by decide)
  have e : HG_VERSION 1 2 3 = 0x01020003 := by decide
  ⟨e, e ▸ h.2.1, e ▸ h.2.2.1, e ▸ h.2.2.2.1⟩

/-! ## C28: the atomic queue run by one thread -/

/-- C28, counterexample: a pop returns `NULL` from a queue that is not empty.
On a queue of size `4`, the push of a `NULL` entry succeeds and leaves a queue
that holds one entry (`hg_atomic_queue_count` is `1`, `hg_atomic_queue_is_empty`
is false); the pop that follows returns that entry, `NULL`. -/
theorem atomic_queue_null_entry :
    (run_queue refQueue [.push 0]).map
        (fun r => (r.1, hg_atomic_queue_count r.2, hg_atomic_queue_is_empty r.2)) =
      some ([.pushed .HG_UTIL_SUCCESS], 1, false) ∧
    (run_queue refQueue [.push 0, .pop_sc]).map Prod.fst =
      some [.pushed .HG_UTIL_SUCCESS, .popped 0] ∧
    (run_queue refQueue [.push 0, .pop_mc]).map Prod.fst =
      some [.pushed .HG_UTIL_SUCCESS, .popped 0] := by
  decide

/-- C28, amended: sequential behaviour of the atomic queue.  For a queue of
size `N = 2 ^ k` (`k ≤ 31`, the powers of two an `unsigned int` holds; masks
`N - 1`) that is at rest and empty, every sequence of `hg_atomic_queue_push`,
`hg_atomic_queue_pop_sc` and `hg_atomic_queue_pop_mc` calls made by one thread
returns, and returns what the bounded first-in first-out list `fifo_run`
returns: a pop gives the oldest entry not yet popped, whatever was pushed, and
`NULL` when there is none; a push succeeds exactly when fewer than `N - 1`
entries are queued and is otherwise dropped, the contents unchanged and the
drop counter incremented (modulo `2 ^ 64`).  Afterwards
`hg_atomic_queue_count` is the number of entries queued and
`hg_atomic_queue_is_empty` holds iff that count is `0`.  When no `NULL` entry
is pushed, no entry queued is `NULL`, so that a pop returns `NULL` exactly
from the empty queue and the count is the number of pushes that succeeded
minus the number of pops that returned an entry. -/
theorem atomic_queue_sequential (k : Nat) (hk : k ≤ 31) (q0 : hg_atomic_queue)
    (hinit : queue_empty_at (2 ^ k) q0) (ops : List queue_op) :
    ∃ q : hg_atomic_queue,
      run_queue q0 ops = some ((fifo_run (2 ^ k) ([], q0.drops) ops).1, q) ∧
      hg_atomic_queue_count q = (fifo_run (2 ^ k) ([], q0.drops) ops).2.1.length ∧
      (hg_atomic_queue_is_empty q = true ↔ hg_atomic_queue_count q = 0) ∧
      q.drops = (fifo_run (2 ^ k) ([], q0.drops) ops).2.2 % 2 ^ 64 ∧
      ((∀ e ∈ pushed_entries ops, e ≠ 0) →
        (∀ e ∈ (fifo_run (2 ^ k) ([], q0.drops) ops).2.1, e ≠ 0) ∧
        hg_atomic_queue_count q + pops_done (fifo_run (2 ^ k) ([], q0.drops) ops).1 =
          pushes_done (fifo_run (2 ^ k) ([], q0.drops) ops).1) := by
  obtain ⟨h1, _, h3, h4, h5, h6, h7, h8, h9⟩ := hinit
  have hq0 : queue_holds (2 ^ k) q0 [] q0.drops := by
    refine ⟨h1, h3, h4, h5, h6, h8, by rw [h7]; exact h8, ?_, (Nat.mod_eq_of_lt h9).symm⟩
    rw [h7]
    have : (q0.prod_tail + 2 ^ k - q0.prod_tail) % 2 ^ k = 0 := by
      rw [Nat.add_sub_cancel_left, Nat.mod_self]
    rw [this]
    rfl
  obtain ⟨q, e, hq⟩ := queue_run_refines k hk ops q0 [] q0.drops hq0
  obtain ⟨c1, c2⟩ := queue_holds_count k hk q _ _ hq
  refine ⟨q, e, c1, ?_, hq.2.2.2.2.2.2.2.2, ?_⟩
  · rw [c1]; exact c2
  · intro hp
    obtain ⟨a, b⟩ := fifo_run_count (2 ^ k) ops [] q0.drops (fun e he => by simp at he) hp
    refine ⟨a, ?_⟩
    rw [c1]
    simpa using b

/-- Witness of C28, amended: on a queue of size `4`, three pushes succeed and the fourth
is dropped; four pops then return the three entries in the order of the pushes
and `NULL`. -/
theorem atomic_queue_sequential_witness :
    (run_queue refQueue
      [.push 11, .push 12, .push 13, .push 14, .pop_sc, .pop_mc, .pop_sc, .pop_sc]).map
        Prod.fst =
      some [.pushed .HG_UTIL_SUCCESS, .pushed .HG_UTIL_SUCCESS, .pushed .HG_UTIL_SUCCESS,
        .pushed .HG_UTIL_FAIL, .popped 11, .popped 12, .popped 13, .popped 0] :=
  (atomic_queue_sequential 2 (by decide) refQueue
    ⟨rfl, rfl, rfl, rfl, rfl, rfl, rfl, by decide, by decide⟩
    [.push 11, .push 12, .push 13, .push 14, .pop_sc, .pop_mc, .pop_sc, .pop_sc]).elim
    fun _ h => (congrArg (Option.map Prod.fst) h.1).trans
      (show some (fifo_run (2 ^ 2) ([], refQueue.drops)
          [.push 11, .push 12, .push 13, .push 14, .pop_sc, .pop_mc, .pop_sc, .pop_sc]).1 =
        some [.pushed .HG_UTIL_SUCCESS, .pushed .HG_UTIL_SUCCESS, .pushed .HG_UTIL_SUCCESS,
          .pushed .HG_UTIL_FAIL, .popped 11, .popped 12, .popped 13, .popped 0] by decide)

/-! ## C29: the region `hg_set_struct` hands to the codec -/

/-- C30: the private data has one extra-buffer slot for both directions.  When
the slot holds a buffer, `HG_Get_input_buf` and `HG_Get_output_buf` return the
same pointer and the same size, those of the slot; and `hg_get_struct` binds
the proc to the slot for `HG_INPUT` and for `HG_OUTPUT` alike: the region is
the slot whatever the eager buffer, the codec pass runs over it, the body of
`hg_get_struct` does not depend on the header size, which it only uses to find
the eager payload, and the call succeeds, in the world of that pass, when the
header decode, the pass and the checksum comparison succeed. -/
theorem single_slot_both_directions {σ Hdr : Type} (E : Env σ Hdr) (w : σ)
    (handle : hg_handle) (pd : hg_private_data σ Hdr) (hslot : pd.extra_bulk_buf ≠ 0) :
    (∀ (b : Ptr) (n : hg_size_t),
      HG_Get_input_buf E handle (some pd) (some b) (some n) =
        (.HG_SUCCESS, some pd.extra_bulk_buf, some pd.extra_bulk_buf_size) ∧
      HG_Get_output_buf E handle (some pd) (some b) (some n) =
        HG_Get_input_buf E handle (some pd) (some b) (some n)) ∧
    (∀ (op : hg_op_t) (buf : Ptr) (buf_size : hg_size_t),
      decode_region E pd op buf buf_size = (pd.extra_bulk_buf, pd.extra_bulk_buf_size)) ∧
    (∀ (op : hg_op_t) (cb : hg_proc_cb_t σ) (struct_ptr : Ptr),
      get_pass E w handle pd op cb struct_ptr =
        codec_pass E (get_header E w handle pd op).2.1 (proc_of pd op) cb
          pd.extra_bulk_buf pd.extra_bulk_buf_size .HG_DECODE struct_ptr) ∧
    (∀ (op : hg_op_t) (struct_ptr : Ptr) (header_offset header_offset2 : hg_size_t)
        (proc : hg_proc_t) (proc_cb : Option (hg_proc_cb_t σ)) (buf : Ptr)
        (buf_size : hg_size_t),
      hg_get_struct_decode E w handle pd op struct_ptr header_offset proc proc_cb buf buf_size
        = hg_get_struct_decode E w handle pd op struct_ptr header_offset2 proc proc_cb buf
            buf_size) ∧
    (∀ (pi : hg_proc_info σ) (op : hg_op_t) (cb : hg_proc_cb_t σ) (struct_ptr : Ptr),
      valid_op pi op → (core_buf E handle op).1 = .HG_SUCCESS →
      proc_cb_of pi op = some cb →
      (get_header E w handle pd op).1 = .HG_SUCCESS →
      (codec_pass E (get_header E w handle pd op).2.1 (proc_of pd op) cb
        pd.extra_bulk_buf pd.extra_bulk_buf_size .HG_DECODE struct_ptr).1 = .HG_SUCCESS →
      (E.has_checksums = true →
        E.hg_proc_checksum_verify
          (codec_pass E (get_header E w handle pd op).2.1 (proc_of pd op) cb
            pd.extra_bulk_buf pd.extra_bulk_buf_size .HG_DECODE struct_ptr).2 (proc_of pd op)
          (E.hash_payload op (get_header E w handle pd op).2.2) = .HG_SUCCESS) →
      (hg_get_struct E w handle pd pi op struct_ptr).ret = .HG_SUCCESS ∧
      (hg_get_struct E w handle pd pi op struct_ptr).world =
        (codec_pass E (get_header E w handle pd op).2.1 (proc_of pd op) cb
          pd.extra_bulk_buf pd.extra_bulk_buf_size .HG_DECODE struct_ptr).2) := by
  have hpass : ∀ (op : hg_op_t) (cb : hg_proc_cb_t σ) (struct_ptr : Ptr),
      get_pass E w handle pd op cb struct_ptr =
        codec_pass E (get_header E w handle pd op).2.1 (proc_of pd op) cb
          pd.extra_bulk_buf pd.extra_bulk_buf_size .HG_DECODE struct_ptr := by
    intro op cb struct_ptr
    simp only [get_pass, decode_region, hslot, ne_eq, not_false_eq_true, if_true]
  refine ⟨?_, ?_, hpass, ?_, ?_⟩
  · intro b n
    simp [HG_Get_input_buf, HG_Get_output_buf, hslot]
  · intro op buf buf_size
    simp only [decode_region, hslot, ne_eq, not_false_eq_true, if_true]
  · intro op struct_ptr header_offset header_offset2 proc proc_cb buf buf_size
    cases proc_cb with
    | none => rfl
    | some cb =>
      simp only [hg_get_struct_decode, hslot, ne_eq, not_false_eq_true, if_true]
  · intro pi op cb struct_ptr hop hbuf hcb hh hp hv
    rw [hg_get_struct_eq_decode E w handle pd pi op struct_ptr hop hbuf, hcb]
    rw [← hpass] at hp hv ⊢
    exact hg_get_struct_decode_success E w handle pd op struct_ptr cb hh hp hv

/-- Witness of C30: with a two-byte spill at `500` in the slot, both buffer
queries return `(500, 2)`, and a response is decoded from the slot as a request
is. -/
theorem single_slot_both_directions_witness :
    HG_Get_input_buf (refEnv true false) (refHandle 3) (some refPulledPriv) (some 0) (some 0)
      = (.HG_SUCCESS, some 500, some 2) ∧
    HG_Get_output_buf (refEnv true false) (refHandle 3) (some refPulledPriv) (some 0) (some 0)
      = (.HG_SUCCESS, some 500, some 2) ∧
    decode_region (refEnv true false) refPulledPriv .HG_OUTPUT 200 3 = (500, 2) ∧
    decode_region (refEnv true false) refPulledPriv .HG_INPUT 100 3 = (500, 2) :=
  have h := single_slot_both_directions (refEnv true false) refTargetWorld (refHandle 3)
    refPulledPriv (by decide)
  ⟨(h.1 0 0).1, (h.1 0 0).2.trans (h.1 0 0).1, h.2.1 .HG_OUTPUT 200 3,
    h.2.1 .HG_INPUT 100 3⟩

end Mercury
